import Mathlib

/-!
# WeeIP network and transport layer (src/src/nwk.c)

A shallow embedding of the three handlers of nwk.c (nwk_tick, nwk_upstream,
nwk_downstream) and of their helpers, followed by theorems about them.

Conventions of the embedding.

* Machine integers are natural numbers; every C operation that can wrap is
  written with an explicit modulus (2^16 for the 16-bit counters, 2^32 for the
  sequence numbers held in a _uint32_t union).
* The socket table _sockets is a list of SOCKET records; the global cursor
  _sckt of the for_each loops is the list position.
* An upward call _sckt->callback(ev) is recorded in a log entry UPCALL that
  keeps the event and a snapshot of the socket at the moment of the call. The
  callback itself is application code; it is taken not to modify the socket.
* Buffer contents moved by lcopy, the checksum bytes written through
  checksum.c and the scheduler requests (task_add, task_cancel) belong to
  collaborators that are not part of nwk.c; only the counters and header
  fields maintained by nwk.c itself are tracked.
-/

namespace WeeIP

/-! ## Declarations taken from weeip.h -/

/-- Modelled from the spec: the TCP control bit FIN of the flags byte (weeip.h
is not among the sources; the value is the one fixed by the TCP wire format,
since toSend is copied verbatim into the flags byte of the header). -/
def FIN : Nat := 0x01

/-- Modelled from the spec: the TCP control bit SYN (wire format value). -/
def SYN : Nat := 0x02

/-- Modelled from the spec: the TCP control bit RST (wire format value). -/
def RST : Nat := 0x04

/-- Modelled from the spec: the TCP control bit PSH (wire format value). -/
def PSH : Nat := 0x08

/-- Modelled from the spec: the TCP control bit ACK (wire format value). -/
def ACK : Nat := 0x10

/-- Modelled from the spec: IPv4 protocol number of ICMP. -/
def IP_PROTO_ICMP : Nat := 1

/-- Modelled from the spec: IPv4 protocol number of TCP (the value found at
offset 9 of default_header). -/
def IP_PROTO_TCP : Nat := 6

/-- Modelled from the spec: IPv4 protocol number of UDP. -/
def IP_PROTO_UDP : Nat := 17

/-- Modelled from the spec: the socket kinds FREE, TCP and UDP of the data
model (the constants SOCKET_FREE, SOCKET_TCP, SOCKET_UDP of weeip.h). -/
inductive SOCKET_TYPE where
  | SOCKET_FREE
  | SOCKET_TCP
  | SOCKET_UDP
deriving DecidableEq, Repr

/-- Modelled from the spec: the TCP states, in the order in which the data
model lists them (the enumeration of weeip.h); nwk.c compares states with >=. -/
inductive SOCKET_STATE where
  | _IDLE
  | _LISTEN
  | _SYN_SENT
  | _SYN_REC
  | _ACK_REC
  | _CONNECT
  | _ACK_WAIT
  | _FIN_SENT
  | _FIN_REC
  | _FIN_ACK_REC
deriving DecidableEq, Repr

/-- Numeric value of a state, used by the comparison state >= _CONNECT. -/
def SOCKET_STATE.toNat : SOCKET_STATE → Nat
  | ._IDLE => 0
  | ._LISTEN => 1
  | ._SYN_SENT => 2
  | ._SYN_REC => 3
  | ._ACK_REC => 4
  | ._CONNECT => 5
  | ._ACK_WAIT => 6
  | ._FIN_SENT => 7
  | ._FIN_REC => 8
  | ._FIN_ACK_REC => 9

/-- Modelled from the spec: the events accepted by the upward callback. -/
inductive WEEIP_EVENT where
  | WEEIP_EV_NONE
  | WEEIP_EV_CONNECT
  | WEEIP_EV_DATA
  | WEEIP_EV_DATA_SENT
  | WEEIP_EV_DISCONNECT
  | WEEIP_EV_DISCONNECT_WITH_DATA
deriving DecidableEq, Repr

/-- Modelled from the spec: the tunables of weeip.h. TIMEOUT_TCP and
RETRIES_TCP are the constants of the same name; TIME_MOD is the number of
values of the integer type of the field time (2^8 or 2^16 on the target),
which is where the value of SOCKET_TIMEOUT is stored. -/
structure CONFIG where
  TIMEOUT_TCP : Nat
  RETRIES_TCP : Nat
  TIME_MOD : Nat
deriving DecidableEq, Repr

/-- Modelled from the spec: the socket descriptor of the data model, with the
field names used by nwk.c. The counters rx_size, rx_data, rx_oo_start,
rx_oo_end and tx_size are 16-bit, the fields seq, remSeq, remSeqStart and
remIP are the .d view of 32-bit unions, rx is the address of the receive
buffer (0 when there is none). -/
structure SOCKET where
  type : SOCKET_TYPE
  state : SOCKET_STATE
  listening : Bool
  timeout : Bool
  toSend : Nat
  rx : Nat
  rx_size : Nat
  rx_data : Nat
  rx_oo_start : Nat
  rx_oo_end : Nat
  tx_size : Nat
  time : Nat
  retry : Nat
  port : Nat
  remPort : Nat
  remIP : Nat
  seq : Nat
  remSeq : Nat
  remSeqStart : Nat
deriving DecidableEq, Repr

/-- One invocation of a socket callback: the position of the socket in the
table, the event passed, and the socket as it is when the callback runs. -/
structure UPCALL where
  idx : Nat
  ev : WEEIP_EVENT
  sckt : SOCKET
deriving DecidableEq, Repr

/-- Log entries of the callbacks made for the socket at position i. -/
def upcalls (i : Nat) (l : List (WEEIP_EVENT × SOCKET)) : List UPCALL :=
  l.map (fun p => { idx := i, ev := p.1, sckt := p.2 })

/-! ## Timer task -/

/-- The macro SOCKET_TIMEOUT(S) of nwk.c, line 30:
TIMEOUT_TCP + 32*(RETRIES_TCP - S->retry), computed in C integers and stored
into the field time, hence reduced modulo TIME_MOD. The socket S enters the
macro through S->retry only, which is the argument retry here. -/
def SOCKET_TIMEOUT (cfg : CONFIG) (retry : Nat) : Nat :=
  (((cfg.TIMEOUT_TCP : Int) + 32 * ((cfg.RETRIES_TCP : Int) - (retry : Int)))
    % (cfg.TIME_MOD : Int)).toNat

/-- The function remove_rx_data of nwk.c, lines 213-227. -/
def remove_rx_data (s : SOCKET) : SOCKET :=
  if s.rx_data = 0 then { s with rx_data := 0 }
  else
    let s1 :=
      if s.rx_oo_start ≠ 0 then
        { s with rx_oo_start := (s.rx_oo_start + 65536 - s.rx_data % 65536) % 65536,
                 rx_oo_end := (s.rx_oo_end + 65536 - s.rx_data % 65536) % 65536 }
      else s
    { s1 with rx_data := 0 }

/-- The switch over the state in nwk_tick, lines 151-179. -/
def tick_retransmit (cfg : CONFIG) (s : SOCKET) : SOCKET :=
  match s.state with
  | ._SYN_SENT => { s with toSend := SYN }
  | ._ACK_REC => { s with toSend := SYN }
  | ._SYN_REC => { s with toSend := SYN ||| ACK }
  | ._ACK_WAIT => { s with toSend := ACK ||| PSH }
  | ._FIN_SENT => { s with toSend := ACK }
  | ._FIN_ACK_REC => { s with toSend := ACK }
  | ._FIN_REC => { s with toSend := FIN ||| ACK }
  | _ => { s with time := SOCKET_TIMEOUT cfg s.retry, timeout := false }

/-- The body of the for_each loop of nwk_tick (lines 131-203) for one socket:
the socket afterwards and the callbacks made. -/
def nwk_tick_sckt (cfg : CONFIG) (s : SOCKET) : SOCKET × List (WEEIP_EVENT × SOCKET) :=
  if s.type ≠ SOCKET_TYPE.SOCKET_TCP then (s, [])
  else
    let s1 := if s.time ≠ 0 then { s with time := s.time - 1 } else s
    if s1.time = 0 then
      if s1.retry ≠ 0 then
        let s2 := { s1 with retry := s1.retry - 1 }
        let s3 := { s2 with time := SOCKET_TIMEOUT cfg s2.retry }
        let s4 := tick_retransmit cfg s3
        let s5 := if s4.toSend ≠ 0 then { s4 with timeout := true } else s4
        (s5, [])
      else
        let s2 := { s1 with state := SOCKET_STATE._IDLE }
        (remove_rx_data s2, [(WEEIP_EVENT.WEEIP_EV_DISCONNECT, s2)])
    else (s1, [])

/-- The for_each loop of nwk_tick over the table, from position i on. -/
def nwk_tick_loop (cfg : CONFIG) : Nat → List SOCKET → List SOCKET × List UPCALL
  | _, [] => ([], [])
  | i, s :: rest =>
    let r := nwk_tick_sckt cfg s
    let rs := nwk_tick_loop cfg (i + 1) rest
    (r.1 :: rs.1, upcalls i r.2 ++ rs.2)

/-- The task nwk_tick of nwk.c, lines 123-211: the socket table afterwards and
the callbacks made, in order. -/
def nwk_tick (cfg : CONFIG) (sockets : List SOCKET) : List SOCKET × List UPCALL :=
  nwk_tick_loop cfg 0 sockets

/-- A run of k consecutive invocations of nwk_tick with no other handler in
between: the table afterwards and all callbacks made, in order. -/
def nwk_tick_iter (cfg : CONFIG) : Nat → List SOCKET → List SOCKET × List UPCALL
  | 0, sockets => (sockets, [])
  | k + 1, sockets =>
    let r := nwk_tick cfg sockets
    let rs := nwk_tick_iter cfg k r.1
    (rs.1, r.2 ++ rs.2)

/-! ## Header buffer and byte order -/

/-- Byte i of a 32-bit value held in a _uint32_t union (the member .b[i]; the
target is little-endian, so .b[0] is the least significant byte). -/
def u32_b (x i : Nat) : Nat := x / 256 ^ i % 256

/-- The 32-bit value of a _uint32_t union whose bytes are b0, b1, b2, b3. -/
def u32_of_bytes (b0 b1 b2 b3 : Nat) : Nat :=
  b0 % 256 + 256 * (b1 % 256) + 65536 * (b2 % 256) + 16777216 * (b3 % 256)

/-- The member .w[0] of a _uint32_t union: its low 16-bit word. -/
def u32_w0 (x : Nat) : Nat := x % 65536

/-- The function byte_order_swap_d of nwk.c, lines 424-432. The handlers
spell the same four byte copies out by hand where they move a sequence
number between a socket and the header. -/
def byte_order_swap_d (x : Nat) : Nat :=
  u32_of_bytes (u32_b x 3) (u32_b x 2) (u32_b x 1) (u32_b x 0)

/-- Modelled from the spec: the macros HTONS and NTOHS of weeip.h, the swap of
the two bytes of a 16-bit value between host and network byte order. -/
def HTONS (x : Nat) : Nat := x % 256 * 256 + x / 256 % 256

/-- Modelled from the spec: NTOHS, the same byte swap as HTONS. -/
def NTOHS (x : Nat) : Nat := HTONS x

/-- Modelled from the spec: the fields of the scratch buffer _header (type
HEADER of weeip.h) that nwk.c reads or writes, each as the CPU reads the
member: 16-bit and 32-bit members hold their bytes in wire order, so their
numeric value is the byte-swapped protocol value. window_hi and window_lo are
the header bytes 34 and 35. udp_length is UDPH(length), which in memory
overlays the first two bytes of n_seq; it is kept as a field of its own. The
checksum members are written through checksum.c and are not tracked. -/
structure HEADER where
  ver_length : Nat
  length : Nat
  id : Nat
  protocol : Nat
  source : Nat
  destination : Nat
  tcp_source : Nat
  tcp_destination : Nat
  n_seq : Nat
  n_ack : Nat
  hlen : Nat
  flags : Nat
  window_hi : Nat
  window_lo : Nat
  udp_length : Nat
deriving DecidableEq, Repr

/-- The array default_header of nwk.c, lines 101-109, as first initialised:
version and header length 0x45, total length bytes 00 28, protocol 6, header
length byte 0x50, window bytes 06 00, all addresses, ports and numbers zero. -/
def default_header : HEADER :=
  { ver_length := 0x45, length := 0x2800, id := 0, protocol := 0x06,
    source := 0, destination := 0, tcp_source := 0, tcp_destination := 0,
    n_seq := 0, n_ack := 0, hlen := 0x50, flags := 0,
    window_hi := 0x06, window_lo := 0x00, udp_length := 0 }

/-- The globals of nwk.c that persist between handler runs: the socket table,
the local and broadcast addresses, the packet counter id, and the header
template (compute_window_size patches it in place). -/
structure NWK where
  sockets : List SOCKET
  ip_local : Nat
  ip_broadcast : Nat
  id : Nat
  default_header : HEADER
deriving DecidableEq, Repr

/-! ## Upstream task -/

/-- The function compute_window_size of nwk.c, lines 229-238: the template
with its two window bytes patched. -/
def compute_window_size (s : SOCKET) (dh : HEADER) : HEADER :=
  let w0 := 0
  let w1 := if s.rx_data > w0 then s.rx_data else w0
  let w2 := if s.rx_oo_end > w1 then s.rx_oo_end else w1
  let available_window := (s.rx_size + 65536 - w2 % 65536) % 65536
  { dh with window_hi := available_window / 256 % 256,
            window_lo := available_window % 256 }

/-- A segment handed to the link driver: the header and the payload length. -/
structure PACKET where
  idx : Nat
  header : HEADER
  data_size : Nat
deriving DecidableEq, Repr

/-- What one pass of the loop body of nwk_upstream leaves behind. -/
structure UP_STEP where
  sckt : SOCKET
  id : Nat
  default_header : HEADER
  sent : List PACKET
  calls : List (WEEIP_EVENT × SOCKET)
deriving DecidableEq, Repr

/-- The sequence number bookkeeping of nwk_upstream for a TCP socket, lines
310-347: the value written to the header (local variable seq after the
retransmission adjustment) and the socket afterwards. The update of
_sckt->seq is the body of the if on line 337, whose own statement is
commented out, so it runs only when remSeq differs from remSeqStart. -/
def upstream_seq (s : SOCKET) (data_size : Nat) : Nat × SOCKET :=
  let seq0 := s.seq
  let seq1 :=
    if s.timeout then
      (if data_size ≠ 0 then (seq0 + 4294967296 - data_size % 4294967296) % 4294967296 else seq0)
    else seq0
  let s1 :=
    if (s.remSeq + 4294967296 - s.remSeqStart % 4294967296) % 4294967296 ≠ 0 then
      if ¬ s.timeout then
        let seq2 := if data_size ≠ 0 then (seq1 + data_size) % 4294967296 else seq1
        let seq3 := if s.toSend &&& (SYN ||| FIN) ≠ 0 then (seq2 + 1) % 4294967296 else seq2
        { s with seq := seq3 }
      else s
    else s
  (seq1, s1)

/-- The body of the for_each loop of nwk_upstream (lines 267-415) for the
socket at position i. The argument sent_ok is the result that eth_ip_send
returns for this segment. -/
def nwk_upstream_sckt (cfg : CONFIG) (ip_local id : Nat) (dh : HEADER)
    (sent_ok : Bool) (i : Nat) (s : SOCKET) : UP_STEP :=
  if s.toSend = 0 then
    { sckt := s, id := id, default_header := dh, sent := [], calls := [] }
  else
    let dh1 := compute_window_size s dh
    let h1 : HEADER :=
      { dh1 with id := HTONS id, source := ip_local, destination := s.remIP,
                 tcp_source := s.port, tcp_destination := s.remPort }
    let id1 := (id + 1) % 65536
    let data_size := if s.toSend &&& PSH ≠ 0 then s.tx_size else 0
    let r : HEADER × SOCKET × List (WEEIP_EVENT × SOCKET) :=
      if s.type = SOCKET_TYPE.SOCKET_TCP then
        let q := upstream_seq s data_size
        ({ h1 with length := HTONS ((40 + data_size) % 65536), flags := s.toSend,
                   n_seq := byte_order_swap_d q.1,
                   n_ack := byte_order_swap_d s.remSeq }, q.2, [])
      else
        ({ h1 with protocol := IP_PROTO_UDP,
                   length := HTONS ((28 + data_size) % 65536),
                   udp_length := HTONS ((8 + data_size) % 65536) },
         remove_rx_data s, [(WEEIP_EVENT.WEEIP_EV_DATA_SENT, s)])
    let s2 := r.2.1
    if sent_ok then
      let s3 := { s2 with toSend := 0, timeout := false }
      { sckt := { s3 with time := SOCKET_TIMEOUT cfg s3.retry }, id := id1, default_header := dh1,
        sent := [{ idx := i, header := r.1, data_size := data_size }], calls := r.2.2 }
    else
      { sckt := s2, id := id1, default_header := dh1, sent := [], calls := r.2.2 }

/-- What a run of nwk_upstream leaves behind: the globals, the segments handed
to the link driver and the callbacks made, both in order. -/
structure UP_RESULT where
  nwk : NWK
  sent : List PACKET
  calls : List UPCALL
deriving DecidableEq, Repr

/-- The for_each loop of nwk_upstream over the table, from position i on;
eth_ip_send i is the result of the link driver for the socket at position i. -/
def nwk_upstream_loop (cfg : CONFIG) (ip_local : Nat) (eth_ip_send : Nat → Bool) :
    Nat → Nat → HEADER → List SOCKET → List SOCKET × Nat × HEADER × List PACKET × List UPCALL
  | _, id, dh, [] => ([], id, dh, [], [])
  | i, id, dh, s :: rest =>
    let r := nwk_upstream_sckt cfg ip_local id dh (eth_ip_send i) i s
    let rs := nwk_upstream_loop cfg ip_local eth_ip_send (i + 1) r.id r.default_header rest
    (r.sckt :: rs.1, rs.2.1, rs.2.2.1, r.sent ++ rs.2.2.2.1, upcalls i r.calls ++ rs.2.2.2.2)

/-- The task nwk_upstream of nwk.c, lines 243-422. eth_clear_to_send is the
answer of the link driver to the readiness probe. -/
def nwk_upstream (cfg : CONFIG) (eth_clear_to_send : Bool) (eth_ip_send : Nat → Bool)
    (g : NWK) : UP_RESULT :=
  if ¬ eth_clear_to_send then { nwk := g, sent := [], calls := [] }
  else
    let r := nwk_upstream_loop cfg g.ip_local eth_ip_send 0 g.id g.default_header g.sockets
    { nwk := { g with sockets := r.1, id := r.2.1, default_header := r.2.2.1 },
      sent := r.2.2.2.1, calls := r.2.2.2.2 }

/-! ## Downstream processing -/

/-- A received frame as nwk_downstream finds it: the header bytes copied into
_header, and the value of chks.u after ip_checksum has run over the 20 bytes
of the IP header (checksum.c). -/
structure RX_FRAME where
  header : HEADER
  chks : Nat
deriving DecidableEq, Repr

/-- The function nwk_schedule_oo_ack of nwk.c, lines 434-453. -/
def nwk_schedule_oo_ack (s : SOCKET) : SOCKET := { s with toSend := ACK }

/-- The tests of the socket search loop of nwk_downstream, lines 505-518:
true when the loop leaves through goto found for this socket. -/
def sckt_match (s : SOCKET) (h : HEADER) : Bool :=
  if s.type = SOCKET_TYPE.SOCKET_FREE then false
  else if s.port ≠ h.tcp_destination then false
  else if (if s.type = SOCKET_TYPE.SOCKET_UDP then h.protocol ≠ IP_PROTO_UDP
           else h.protocol ≠ IP_PROTO_TCP) then false
  else if s.listening then true
  else if s.remIP ≠ 0xffffffff ∧ s.remIP ≠ h.source then false
  else if s.remPort ≠ h.tcp_source then false
  else true

/-- The socket search loop of nwk_downstream, lines 504-521, from position i
on: the position and the socket at which goto found is taken. -/
def sckt_search (h : HEADER) : Nat → List SOCKET → Option (Nat × SOCKET)
  | _, [] => none
  | i, s :: rest => if sckt_match s h then some (i, s) else sckt_search h (i + 1) rest

/-- The comparison of the acknowledged sequence number with _sckt->seq, lines
564-567: true when some byte differs. -/
def ack_differs (s : SOCKET) (h : HEADER) : Bool :=
  u32_b s.seq 0 ≠ u32_b h.n_ack 3 ∨ u32_b s.seq 1 ≠ u32_b h.n_ack 2
    ∨ u32_b s.seq 2 ≠ u32_b h.n_ack 1 ∨ u32_b s.seq 3 ≠ u32_b h.n_ack 0

/-- The chain of tests that places a payload in the receive buffer, lines
622-663. rel is rel_sequence.d and data_size the payload length already
clipped to rx_size. Result: the socket, data_size, and whether goto drop was
taken. The 16-bit sums are those of the target compiler (16-bit int). -/
def rx_place (s : SOCKET) (rel data_size : Nat) : SOCKET × Nat × Bool :=
  if rel > s.rx_size ∨ (rel + data_size) % 4294967296 > s.rx_size then
    if data_size ≠ 0 then (nwk_schedule_oo_ack s, data_size, true) else (s, data_size, false)
  else if u32_w0 rel = s.rx_data then
    let d := if (data_size + s.rx_data) % 65536 > s.rx_size
             then (s.rx_size + 65536 - s.rx_data % 65536) % 65536 else data_size
    ({ s with rx_data := (s.rx_data + d) % 65536 }, d, false)
  else if u32_w0 rel = s.rx_oo_end then
    let d := if (data_size + s.rx_oo_end) % 65536 > s.rx_size
             then (s.rx_size + 65536 - s.rx_oo_end % 65536) % 65536 else data_size
    ({ s with rx_oo_end := (s.rx_oo_end + d) % 65536 }, d, false)
  else if (u32_w0 rel + data_size) % 65536 = s.rx_oo_start then
    ({ s with rx_oo_end := (s.rx_oo_end + u32_w0 rel) % 65536 }, data_size, false)
  else if (u32_w0 rel + data_size) % 65536 < s.rx_size ∧ s.rx_oo_start = 0 then
    ({ s with rx_oo_start := u32_w0 rel, rx_oo_end := (u32_w0 rel + data_size) % 65536 },
     data_size, false)
  else if rel ≠ 0 then
    if data_size ≠ 0 then (nwk_schedule_oo_ack s, data_size, true) else (s, data_size, false)
  else (s, data_size, false)

/-- The merge of the two buffer regions, the advance of remSeq, the DATA
callback and the ACK request, lines 667-689. -/
def rx_deliver (s : SOCKET) : SOCKET × List (WEEIP_EVENT × SOCKET) :=
  let s1 :=
    if s.rx_data ≠ 0 ∧ s.rx_data = s.rx_oo_start then
      { s with rx_data := s.rx_oo_end, rx_oo_end := 0, rx_oo_start := 0 }
    else s
  let s2 := { s1 with remSeq := (s1.remSeq + s1.rx_data) % 4294967296 }
  let r : SOCKET × List (WEEIP_EVENT × SOCKET) :=
    if s2.rx_data ≠ 0 then (remove_rx_data s2, [(WEEIP_EVENT.WEEIP_EV_DATA, s2)]) else (s2, [])
  ({ r.1 with toSend := ACK }, r.2)

/-- The value rel_sequence.d of nwk_downstream, lines 611-612: the sequence
number of the segment minus _sckt->remSeq, as a 32-bit unsigned number. -/
def rel_seq (s : SOCKET) (h : HEADER) : Nat :=
  (byte_order_swap_d h.n_seq + 4294967296 - s.remSeq % 4294967296) % 4294967296

/-- The locals of nwk_downstream after the sequence number step. -/
structure TCP_RX where
  sckt : SOCKET
  data_size : Nat
  _flags : Nat
  calls : List (WEEIP_EVENT × SOCKET)
  drop : Bool
deriving DecidableEq, Repr

/-- The sequence number step of nwk_downstream, lines 584-691: the SYN branch
restarts the remote sequence number, the other branch runs the reassembly. -/
def tcp_seq_step (s : SOCKET) (h : HEADER) (data_size _flags : Nat) : TCP_RX :=
  if h.flags &&& SYN ≠ 0 then
    let r := byte_order_swap_d h.n_seq
    { sckt := { s with remSeq := (r + 1) % 4294967296, remSeqStart := r },
      data_size := data_size, _flags := _flags ||| SYN, calls := [], drop := false }
  else
    let ds := if data_size > s.rx_size then s.rx_size else data_size
    let p := rx_place s (rel_seq s h) ds
    if p.2.2 then
      { sckt := p.1, data_size := p.2.1, _flags := _flags, calls := [], drop := true }
    else
      let d := rx_deliver p.1
      { sckt := d.1, data_size := p.2.1, _flags := _flags, calls := d.2, drop := false }

/-- The switch of the TCP state machine, lines 729-874: the socket and the
value of ev afterwards (ev is WEEIP_EV_NONE on entry). -/
def tcp_state_machine (s : SOCKET) (_flags data_size : Nat) : SOCKET × WEEIP_EVENT :=
  match s.state with
  | ._LISTEN =>
    if _flags &&& SYN ≠ 0 then
      ({ s with state := SOCKET_STATE._SYN_REC, toSend := SYN ||| ACK }, WEEIP_EVENT.WEEIP_EV_NONE)
    else (s, WEEIP_EVENT.WEEIP_EV_NONE)
  | ._SYN_SENT =>
    if _flags &&& (ACK ||| SYN) ≠ 0 then
      ({ s with state := SOCKET_STATE._CONNECT, toSend := ACK,
                seq := (s.seq + 1) % 4294967296 }, WEEIP_EVENT.WEEIP_EV_CONNECT)
    else if _flags &&& SYN ≠ 0 then
      ({ s with state := SOCKET_STATE._SYN_REC, toSend := SYN ||| ACK }, WEEIP_EVENT.WEEIP_EV_NONE)
    else (s, WEEIP_EVENT.WEEIP_EV_NONE)
  | ._SYN_REC =>
    if _flags &&& ACK ≠ 0 then
      ({ s with state := SOCKET_STATE._CONNECT }, WEEIP_EVENT.WEEIP_EV_CONNECT)
    else (s, WEEIP_EVENT.WEEIP_EV_NONE)
  | ._CONNECT | ._ACK_WAIT =>
    if _flags &&& FIN ≠ 0 then
      ({ s with state := SOCKET_STATE._FIN_REC, toSend := ACK ||| FIN },
       WEEIP_EVENT.WEEIP_EV_DISCONNECT)
    else
      let s1 :=
        if _flags &&& ACK ≠ 0 ∧ s.state = SOCKET_STATE._ACK_WAIT then
          { s with state := SOCKET_STATE._CONNECT }
        else s
      if data_size ≠ 0 then ({ s1 with toSend := ACK }, WEEIP_EVENT.WEEIP_EV_DATA)
      else (s1, WEEIP_EVENT.WEEIP_EV_NONE)
  | ._FIN_SENT =>
    let r1 : SOCKET × WEEIP_EVENT :=
      if _flags &&& (FIN ||| ACK) ≠ 0 then
        ({ s with state := SOCKET_STATE._IDLE, toSend := ACK }, WEEIP_EVENT.WEEIP_EV_DISCONNECT)
      else (s, WEEIP_EVENT.WEEIP_EV_NONE)
    let s2 := if _flags &&& ACK ≠ 0 then { r1.1 with state := SOCKET_STATE._FIN_ACK_REC } else r1.1
    if _flags &&& FIN ≠ 0 then
      ({ s2 with state := SOCKET_STATE._FIN_REC, toSend := ACK }, r1.2)
    else (s2, r1.2)
  | ._FIN_REC =>
    if _flags &&& ACK ≠ 0 then
      ({ s with state := SOCKET_STATE._IDLE }, WEEIP_EVENT.WEEIP_EV_DISCONNECT)
    else (s, WEEIP_EVENT.WEEIP_EV_NONE)
  | ._FIN_ACK_REC =>
    if _flags &&& FIN ≠ 0 then
      ({ s with state := SOCKET_STATE._FIN_REC, toSend := ACK }, WEEIP_EVENT.WEEIP_EV_DISCONNECT)
    else (s, WEEIP_EVENT.WEEIP_EV_NONE)
  | _ => (s, WEEIP_EVENT.WEEIP_EV_NONE)

/-- The code after the label done, lines 932-956. -/
def downstream_done (cfg : CONFIG) (s : SOCKET) (ev : WEEIP_EVENT) :
    SOCKET × List (WEEIP_EVENT × SOCKET) :=
  let s1 := if s.toSend ≠ 0 then { s with retry := cfg.RETRIES_TCP } else s
  if ev ≠ WEEIP_EVENT.WEEIP_EV_NONE then (remove_rx_data s1, [(ev, s1)]) else (s1, [])

/-- The part of nwk_downstream that follows the ACK test, lines 584-876 and
932-956: sequence number step, RST, FIN, state machine and the code after the
label done. data_size and _flags are the variables of the same name.
Result: the socket afterwards and the callbacks made, in order. -/
def tcp_process (cfg : CONFIG) (s : SOCKET) (h : HEADER) (data_size _flags : Nat) :
    SOCKET × List (WEEIP_EVENT × SOCKET) :=
  let a := tcp_seq_step s h data_size _flags
  if a.drop then (a.sckt, a.calls)
  else if h.flags &&& RST ≠ 0 then
    let s1 := { a.sckt with state := SOCKET_STATE._IDLE }
    let ev := if a.data_size = 0 then WEEIP_EVENT.WEEIP_EV_DISCONNECT
              else WEEIP_EVENT.WEEIP_EV_DISCONNECT_WITH_DATA
    let d := downstream_done cfg s1 ev
    (d.1, a.calls ++ d.2)
  else
    let b : SOCKET × Nat :=
      if h.flags &&& FIN ≠ 0 ∨ a.sckt.state = SOCKET_STATE._FIN_REC then
        ({ a.sckt with
            remSeq := ((byte_order_swap_d h.n_seq + a.data_size) % 4294967296 + 1)
                        % 4294967296 }, a._flags ||| FIN)
      else (a.sckt, a._flags)
    let m := tcp_state_machine b.1 b.2 a.data_size
    let d := downstream_done cfg m.1 m.2
    (d.1, a.calls ++ d.2)

/-- The value of _flags after the ACK test, lines 557-582. -/
def ack_flag (h : HEADER) : Nat := if h.flags &&& ACK ≠ 0 then 0 ||| ACK else 0

/-- The code after the label parse_tcp, lines 549-876 and 932-956, for the
socket found; ip_length is the total length of the IP header in host order.
The ACK test of lines 560-582 leaves through goto drop when the acknowledged
number is not _sckt->seq and the state is _CONNECT or later. -/
def parse_tcp (cfg : CONFIG) (s : SOCKET) (h : HEADER) (ip_length : Nat) :
    SOCKET × List (WEEIP_EVENT × SOCKET) :=
  let data_size := (ip_length + 65536 - 40) % 65536
  if h.flags &&& ACK ≠ 0 ∧ ack_differs s h = true
      ∧ s.state.toNat ≥ SOCKET_STATE._CONNECT.toNat then (s, [])
  else tcp_process cfg s h data_size (ack_flag h)

/-- The UDP branch of nwk_downstream, lines 539-547 and 932-956. -/
def parse_udp (cfg : CONFIG) (s : SOCKET) (ip_length : Nat) :
    SOCKET × List (WEEIP_EVENT × SOCKET) :=
  let data_size := (ip_length + 65536 - 28) % 65536
  let s1 :=
    if s.rx ≠ 0 then
      { s with rx_data := if data_size > s.rx_size then s.rx_size else data_size }
    else s
  downstream_done cfg s1 WEEIP_EVENT.WEEIP_EV_DATA

/-- The update of the socket after the label found, lines 528-530. -/
def sckt_found (s : SOCKET) (h : HEADER) : SOCKET :=
  { s with remIP := h.source, remPort := h.tcp_source, listening := false }

/-- The function nwk_downstream of nwk.c, lines 459-960 (ENABLE_ICMP is not
defined, so an ICMP message is dropped): the globals afterwards and the
callbacks made, in order. -/
def nwk_downstream (cfg : CONFIG) (g : NWK) (f : RX_FRAME) : NWK × List UPCALL :=
  let h := f.header
  if h.ver_length ≠ 0x45 then (g, [])
  else
    let data_size := NTOHS h.length
    if f.chks ≠ 0xffff then (g, [])
    else if h.destination ≠ 0xffffffff ∧ h.destination ≠ g.ip_local
        ∧ h.destination ≠ g.ip_broadcast ∧ g.ip_local ≠ 0 then (g, [])
    else if h.protocol = IP_PROTO_ICMP then (g, [])
    else
      match sckt_search h 0 g.sockets with
      | none => (g, [])
      | some (i, s) =>
        let s1 := sckt_found s h
        let r := if h.protocol = IP_PROTO_TCP then parse_tcp cfg s1 h data_size
                 else parse_udp cfg s1 data_size
        ({ g with sockets := g.sockets.set i r.1 }, upcalls i r.2)

/-! ## Vocabulary of the statements -/

/-- The frame f is a well-formed TCP message for the socket s at position i of
the table: it passes the version, checksum and destination tests of
nwk_downstream, its protocol is TCP, and the socket search stops at s. -/
def tcp_segment_for (g : NWK) (f : RX_FRAME) (i : Nat) (s : SOCKET) : Prop :=
  f.header.ver_length = 0x45 ∧ f.chks = 0xffff
    ∧ (f.header.destination = 0xffffffff ∨ f.header.destination = g.ip_local
        ∨ f.header.destination = g.ip_broadcast ∨ g.ip_local = 0)
    ∧ f.header.protocol = IP_PROTO_TCP
    ∧ sckt_search f.header 0 g.sockets = some (i, s)

/-- The ACK test of nwk_downstream lets the segment through: the ACK bit is
clear, or the acknowledged number is the one held in _sckt->seq. -/
def ack_check_passes (s : SOCKET) (h : HEADER) : Prop :=
  h.flags &&& ACK = 0 ∨ ack_differs s h = false

/-- The receive buffer of the socket is empty: no in-order bytes and no
out-of-order extent. -/
def rx_empty (s : SOCKET) : Prop := s.rx_data = 0 ∧ s.rx_oo_start = 0 ∧ s.rx_oo_end = 0

/-- The segment carries none of the flags SYN, FIN, RST. -/
def no_syn_fin_rst (h : HEADER) : Prop :=
  h.flags &&& SYN = 0 ∧ h.flags &&& FIN = 0 ∧ h.flags &&& RST = 0

/-- The frame f2 is well formed like f1 and belongs to the same connection:
same version byte, checksum result, addresses, protocol and ports. -/
def same_flow (f1 f2 : RX_FRAME) : Prop :=
  f2.header.ver_length = f1.header.ver_length ∧ f2.chks = f1.chks
    ∧ f2.header.destination = f1.header.destination ∧ f2.header.source = f1.header.source
    ∧ f2.header.protocol = f1.header.protocol
    ∧ f2.header.tcp_source = f1.header.tcp_source
    ∧ f2.header.tcp_destination = f1.header.tcp_destination

/-- The reassembly step takes a payload of n bytes into an empty receive
buffer: there is no payload, or it starts at remSeq and fits the buffer, or it
lies ahead and ends strictly before the end of the buffer. -/
def payload_accepted (s : SOCKET) (h : HEADER) (n : Nat) : Prop :=
  n = 0 ∨ (rel_seq s h = 0 ∧ n ≤ s.rx_size) ∨ rel_seq s h + n < s.rx_size

/-- Number of payload bytes handed over by the DATA callbacks of a log: the
sum of rx_data over its DATA entries. -/
def data_bytes (log : List UPCALL) : Nat :=
  (log.map (fun c => if c.ev = WEEIP_EVENT.WEEIP_EV_DATA then c.sckt.rx_data else 0)).sum

/-- Number of entries of a log that carry the event ev. -/
def count_ev (ev : WEEIP_EVENT) (log : List UPCALL) : Nat :=
  (log.filter (fun c => c.ev = ev)).length

instance (g : NWK) (f : RX_FRAME) (i : Nat) (s : SOCKET) : Decidable (tcp_segment_for g f i s) := by
  unfold tcp_segment_for; infer_instance

instance (s : SOCKET) (h : HEADER) : Decidable (ack_check_passes s h) := by
  unfold ack_check_passes; infer_instance

instance (s : SOCKET) : Decidable (rx_empty s) := by
  unfold rx_empty; infer_instance

instance (h : HEADER) : Decidable (no_syn_fin_rst h) := by
  unfold no_syn_fin_rst; infer_instance

instance (f1 f2 : RX_FRAME) : Decidable (same_flow f1 f2) := by
  unfold same_flow; infer_instance

instance (s : SOCKET) (h : HEADER) (n : Nat) : Decidable (payload_accepted s h n) := by
  unfold payload_accepted; infer_instance

/-! ## Example data for the witnesses -/

def ex_cfg : CONFIG := { TIMEOUT_TCP := 10, RETRIES_TCP := 5, TIME_MOD := 65536 }

def ex_sckt : SOCKET :=
  { type := SOCKET_TYPE.SOCKET_TCP, state := SOCKET_STATE._CONNECT, listening := false,
    timeout := false, toSend := 0, rx := 49152, rx_size := 1000, rx_data := 0, rx_oo_start := 0,
    rx_oo_end := 0, tx_size := 0, time := 0, retry := 5, port := 80, remPort := 1234,
    remIP := 3, seq := 5000, remSeq := 9001, remSeqStart := 9000 }

def ex_nwk (s : SOCKET) : NWK :=
  { sockets := [s], ip_local := 7, ip_broadcast := 9, id := 0, default_header := default_header }

def ex_frame (flags seq ack n : Nat) : RX_FRAME :=
  { header := { default_header with length := HTONS (40 + n), source := 3, destination := 7,
                                    tcp_source := 1234, tcp_destination := 80, flags := flags,
                                    n_seq := byte_order_swap_d seq, n_ack := byte_order_swap_d ack },
    chks := 0xffff }

def ex_listen : SOCKET :=
  { ex_sckt with state := SOCKET_STATE._LISTEN, listening := true, remPort := 0, remIP := 0 }

def ex_syn_sent : SOCKET :=
  { ex_sckt with state := SOCKET_STATE._SYN_SENT, toSend := SYN, seq := 5000, remSeq := 1,
                 remSeqStart := 0, retry := 5, time := 1 }

def ex_exhausted : SOCKET :=
  { ex_sckt with state := SOCKET_STATE._SYN_SENT, retry := 0, time := 1 }

def ex_timer_off : SOCKET := { ex_sckt with time := 0, retry := 5 }

def ex_fresh_syn : SOCKET :=
  { ex_sckt with state := SOCKET_STATE._SYN_SENT, toSend := SYN, seq := 5000, remSeq := 0,
                 remSeqStart := 0, retry := 5, time := 0 }

def ex_syn_rec : SOCKET :=
  { ex_sckt with state := SOCKET_STATE._SYN_REC, toSend := SYN ||| ACK, seq := 5000,
                 remSeq := 1001, remSeqStart := 1000, retry := 5, time := 0 }

def ex_syn_rec_emitted : NWK :=
  (nwk_upstream ex_cfg true (fun _ => true) (ex_nwk ex_syn_rec)).nwk

def ex_syn_rec_expired : NWK :=
  { ex_syn_rec_emitted with sockets := (nwk_tick_iter ex_cfg 10 ex_syn_rec_emitted.sockets).1 }

def ex_ack_pending : SOCKET := { ex_sckt with toSend := ACK, retry := 3, time := 7 }

def ex_stashed_pending : SOCKET :=
  { ex_sckt with toSend := ACK, rx_oo_start := 500, rx_oo_end := 700 }

/-- The socket table after ex_sckt has received 490 bytes that lie 500 bytes
ahead of remSeq. -/
def ex_stashed : NWK := (nwk_downstream ex_cfg (ex_nwk ex_sckt) (ex_frame ACK 9501 5000 490)).1

def ex_idle : SOCKET := { ex_sckt with state := SOCKET_STATE._IDLE, toSend := ACK, time := 1 }

def ex_extent : SOCKET := { ex_sckt with rx_oo_start := 300, rx_oo_end := 400 }

def ex_extent_fin_rec : SOCKET := { ex_extent with state := SOCKET_STATE._FIN_REC }

/-- The sequence number step of nwk_downstream (lines 584-691) does not leave
through goto drop for a segment with header h and n payload bytes that has
found the socket s: the payload is in the window and one of the reassembly
cases takes it. -/
def seq_step_accepts (s : SOCKET) (h : HEADER) (n : Nat) : Prop :=
  (tcp_seq_step (sckt_found s h) h n (ack_flag h)).drop = false

instance (s : SOCKET) (h : HEADER) (n : Nat) : Decidable (seq_step_accepts s h n) := by
  unfold seq_step_accepts; infer_instance

def ex_fin_sent : SOCKET := { ex_sckt with state := SOCKET_STATE._FIN_SENT }

def ex_ack_wait : SOCKET := { ex_sckt with state := SOCKET_STATE._ACK_WAIT }

/-- The sequence number step of nwk_downstream (lines 584-691) keeps a segment
with header h and n payload bytes, in the words of spec 4.4: SYN is set, or the
payload clipped to rx_size is empty, or it lies in the window and one of the
placement tests takes it (it starts at rx_data, it starts at rx_oo_end, it
ends at rx_oo_start, it ends before rx_size with no extent present, or it
starts at remSeq). -/
def segment_placed (s : SOCKET) (h : HEADER) (n : Nat) : Prop :=
  h.flags &&& SYN ≠ 0 ∨ min n s.rx_size = 0
    ∨ (rel_seq s h ≤ s.rx_size ∧ rel_seq s h + min n s.rx_size ≤ s.rx_size
        ∧ (rel_seq s h = s.rx_data ∨ rel_seq s h = s.rx_oo_end
            ∨ rel_seq s h + min n s.rx_size = s.rx_oo_start
            ∨ (rel_seq s h + min n s.rx_size < s.rx_size ∧ s.rx_oo_start = 0)
            ∨ rel_seq s h = 0))

instance (s : SOCKET) (h : HEADER) (n : Nat) : Decidable (segment_placed s h n) := by
  unfold segment_placed; infer_instance

def ex_no_buffer : SOCKET := { ex_sckt with rx_size := 0 }

def ex_undelivered : SOCKET := { ex_sckt with rx_data := 50 }

/-! ## Shared lemmas -/

theorem byte_order_swap_d_lt (x : Nat) : byte_order_swap_d x < 4294967296 := by
  unfold byte_order_swap_d u32_of_bytes
  omega

theorem u32_bytes_sum (x : Nat) :
    x % 256 + 256 * (x / 256 % 256) + 65536 * (x / 65536 % 256) + 16777216 * (x / 16777216 % 256)
      = x % 4294967296 := by
  have h1 : x / 65536 = x / 256 / 256 := by rw [Nat.div_div_eq_div_mul]
  have h2 : x / 16777216 = x / 256 / 256 / 256 := by
    rw [Nat.div_div_eq_div_mul, Nat.div_div_eq_div_mul]
  rw [h1, h2]
  omega

theorem u32_b_of_bytes (a b c d : Nat) (ha : a < 256) (hb : b < 256) (hc : c < 256) (hd : d < 256) :
    (a + 256 * b + 65536 * c + 16777216 * d) % 256 = a
    ∧ (a + 256 * b + 65536 * c + 16777216 * d) / 256 % 256 = b
    ∧ (a + 256 * b + 65536 * c + 16777216 * d) / 65536 % 256 = c
    ∧ (a + 256 * b + 65536 * c + 16777216 * d) / 16777216 % 256 = d := by
  refine ⟨by omega, by omega, by omega, by omega⟩

theorem byte_order_swap_d_swap (x : Nat) :
    byte_order_swap_d (byte_order_swap_d x) = x % 4294967296 := by
  have hx := u32_bytes_sum x
  simp only [byte_order_swap_d, u32_of_bytes, u32_b, Nat.mod_mod]
  norm_num
  obtain ⟨h0, h1, h2, h3⟩ := u32_b_of_bytes (x / 16777216 % 256) (x / 65536 % 256) (x / 256 % 256)
    (x % 256) (Nat.mod_lt _ (by norm_num)) (Nat.mod_lt _ (by norm_num)) (Nat.mod_lt _ (by norm_num))
    (Nat.mod_lt _ (by norm_num))
  rw [h0, h1, h2, h3]
  omega

theorem ack_differs_false_iff (s : SOCKET) (h : HEADER) :
    ack_differs s h = false ↔ byte_order_swap_d h.n_ack = s.seq % 4294967296 := by
  have hx := u32_bytes_sum s.seq
  simp only [ack_differs, byte_order_swap_d, u32_of_bytes, u32_b, Nat.mod_mod]
  norm_num
  constructor
  · rintro ⟨h0, h1, h2, h3⟩
    omega
  · intro he
    rw [← hx] at he
    have a0 : s.seq % 256 < 256 := Nat.mod_lt _ (by norm_num)
    have a1 : s.seq / 256 % 256 < 256 := Nat.mod_lt _ (by norm_num)
    have a2 : s.seq / 65536 % 256 < 256 := Nat.mod_lt _ (by norm_num)
    have a3 : s.seq / 16777216 % 256 < 256 := Nat.mod_lt _ (by norm_num)
    have b0 : h.n_ack % 256 < 256 := Nat.mod_lt _ (by norm_num)
    have b1 : h.n_ack / 256 % 256 < 256 := Nat.mod_lt _ (by norm_num)
    have b2 : h.n_ack / 65536 % 256 < 256 := Nat.mod_lt _ (by norm_num)
    have b3 : h.n_ack / 16777216 % 256 < 256 := Nat.mod_lt _ (by norm_num)
    generalize s.seq % 256 = p0 at *
    generalize s.seq / 256 % 256 = p1 at *
    generalize s.seq / 65536 % 256 = p2 at *
    generalize s.seq / 16777216 % 256 = p3 at *
    generalize h.n_ack % 256 = q0 at *
    generalize h.n_ack / 256 % 256 = q1 at *
    generalize h.n_ack / 65536 % 256 = q2 at *
    generalize h.n_ack / 16777216 % 256 = q3 at *
    omega

/-- The ACK test passes when the acknowledged number carried by the header is
the 32-bit value held in _sckt->seq. -/
theorem ack_check_passes_of_eq (s : SOCKET) (h : HEADER) (hlt : s.seq < 4294967296)
    (heq : byte_order_swap_d h.n_ack = s.seq) : ack_check_passes s h := by
  right
  rw [ack_differs_false_iff, heq, Nat.mod_eq_of_lt hlt]

theorem sckt_search_some (h : HEADER) :
    ∀ (l : List SOCKET) (k i : Nat) (s : SOCKET), sckt_search h k l = some (i, s) →
      k ≤ i ∧ l[i - k]? = some s ∧ sckt_match s h = true := by
  intro l
  induction l with
  | nil => intro k i s hs; simp [sckt_search] at hs
  | cons a rest ih =>
    intro k i s hs
    unfold sckt_search at hs
    by_cases hm : sckt_match a h = true
    · simp only [hm, if_true, Option.some.injEq, Prod.mk.injEq] at hs
      obtain ⟨rfl, rfl⟩ := hs
      simp [hm]
    · simp only [hm] at hs
      obtain ⟨h1, h2, h3⟩ := ih (k + 1) i s hs
      refine ⟨by omega, ?_, h3⟩
      have : i - k = (i - (k + 1)) + 1 := by omega
      rw [this, List.getElem?_cons_succ]
      exact h2

theorem tcp_segment_for_get {g : NWK} {f : RX_FRAME} {i : Nat} {s : SOCKET}
    (hm : tcp_segment_for g f i s) : g.sockets[i]? = some s := by
  obtain ⟨_, _, _, _, hs⟩ := hm
  have := (sckt_search_some f.header g.sockets 0 i s hs).2.1
  simpa using this

@[simp] theorem remove_rx_data_state (s : SOCKET) : (remove_rx_data s).state = s.state := by
  unfold remove_rx_data; split_ifs <;> rfl
@[simp] theorem remove_rx_data_toSend (s : SOCKET) : (remove_rx_data s).toSend = s.toSend := by
  unfold remove_rx_data; split_ifs <;> rfl
@[simp] theorem remove_rx_data_remSeq (s : SOCKET) : (remove_rx_data s).remSeq = s.remSeq := by
  unfold remove_rx_data; split_ifs <;> rfl
@[simp] theorem remove_rx_data_seq (s : SOCKET) : (remove_rx_data s).seq = s.seq := by
  unfold remove_rx_data; split_ifs <;> rfl
@[simp] theorem remove_rx_data_retry (s : SOCKET) : (remove_rx_data s).retry = s.retry := by
  unfold remove_rx_data; split_ifs <;> rfl
@[simp] theorem remove_rx_data_rx_data (s : SOCKET) : (remove_rx_data s).rx_data = 0 := by
  unfold remove_rx_data; split_ifs <;> rfl

theorem remove_rx_data_empty (s : SOCKET) (h : s.rx_data = 0) : remove_rx_data s = s := by
  unfold remove_rx_data
  simp only [h, if_true]
  cases s
  simp_all

theorem rx_place_in_order (s : SOCKET) (n : Nat) (hrx : s.rx_data = 0) (hn : n ≤ s.rx_size)
    (hn16 : n < 65536) : rx_place s 0 n = ({ s with rx_data := n }, n, false) := by
  have h1 : n % 4294967296 = n := by omega
  have h2 : n % 65536 = n := by omega
  have h3 : ¬ (s.rx_size < n) := by omega
  simp [rx_place, u32_w0, hrx, h1, h2, h3]

theorem rx_place_stash (s : SOCKET) (rel n : Nat) (hrx : s.rx_data = 0)
    (hoos : s.rx_oo_start = 0) (hooe : s.rx_oo_end = 0) (hrel : 0 < rel)
    (hfit : rel + n < s.rx_size) (hsz : s.rx_size < 65536) :
    rx_place s rel n = ({ s with rx_oo_start := rel, rx_oo_end := rel + n }, n, false) := by
  have h1 : ¬ (rel > s.rx_size ∨ (rel + n) % 4294967296 > s.rx_size) := by omega
  have h2 : rel % 65536 = rel := by omega
  have h3 : (rel + n) % 65536 = rel + n := by omega
  have h4 : ¬ (rel = 0) := by omega
  have h5 : ¬ (rel + n = 0) := by omega
  simp [rx_place, h1, u32_w0, hrx, hoos, hooe, h2, h3, h4, h5, hfit]


theorem rx_deliver_data (s : SOCKET) (hrx : s.rx_data ≠ 0) (hoos : s.rx_oo_start = 0) :
    rx_deliver s =
      ({ s with remSeq := (s.remSeq + s.rx_data) % 4294967296, rx_data := 0, toSend := ACK },
       [(WEEIP_EVENT.WEEIP_EV_DATA,
          { s with remSeq := (s.remSeq + s.rx_data) % 4294967296 })]) := by
  have h1 : ¬ (s.rx_data = s.rx_oo_start) := by rw [hoos]; exact hrx
  simp [rx_deliver, remove_rx_data, hrx, h1, hoos]

theorem rx_deliver_none (s : SOCKET) (hrx : s.rx_data = 0) :
    rx_deliver s = ({ s with remSeq := s.remSeq % 4294967296, toSend := ACK }, []) := by
  simp [rx_deliver, hrx]

theorem rx_deliver_merge (s : SOCKET) (hrx : s.rx_data ≠ 0) (hoos : s.rx_oo_start = s.rx_data)
    (hooe : s.rx_oo_end ≠ 0) :
    rx_deliver s =
      ({ s with remSeq := (s.remSeq + s.rx_oo_end) % 4294967296, rx_data := 0, rx_oo_start := 0,
                rx_oo_end := 0, toSend := ACK },
       [(WEEIP_EVENT.WEEIP_EV_DATA,
          { s with remSeq := (s.remSeq + s.rx_oo_end) % 4294967296, rx_data := s.rx_oo_end,
                   rx_oo_start := 0, rx_oo_end := 0 })]) := by
  simp [rx_deliver, remove_rx_data, hrx, hoos, hooe]

theorem NTOHS_lt (x : Nat) : NTOHS x < 65536 := by
  unfold NTOHS HTONS
  omega

theorem ack_flag_cases (h : HEADER) : ack_flag h = 0 ∨ ack_flag h = 16 := by
  unfold ack_flag
  split_ifs
  · right; decide
  · left; rfl

theorem parse_tcp_eq (cfg : CONFIG) (s : SOCKET) (h : HEADER) (len n : Nat)
    (hlen : len = 40 + n) (hlt : len < 65536)
    (hpass : ack_check_passes s h ∨ s.state.toNat < SOCKET_STATE._CONNECT.toNat) :
    parse_tcp cfg s h len = tcp_process cfg s h n (ack_flag h) := by
  have hds : (len + 65536 - 40) % 65536 = n := by omega
  have hdrop : ¬ (h.flags &&& ACK ≠ 0 ∧ ack_differs s h = true
      ∧ s.state.toNat ≥ SOCKET_STATE._CONNECT.toNat) := by
    rintro ⟨h1, h2, h3⟩
    rcases hpass with (h0 | h0) | h0
    · exact h1 h0
    · rw [h0] at h2; exact absurd h2 (by decide)
    · omega
  unfold parse_tcp
  simp only [hds, hdrop, if_false]

theorem rel_seq_in_order (s : SOCKET) (h : HEADER) (hseq : byte_order_swap_d h.n_seq = s.remSeq) :
    rel_seq s h = 0 := by
  have := byte_order_swap_d_lt h.n_seq
  unfold rel_seq
  rw [hseq] at *
  omega

theorem tcp_process_connect_in_order (cfg : CONFIG) (s : SOCKET) (h : HEADER) (n f1 : Nat)
    (hf : f1 = 0 ∨ f1 = 16)
    (hstate : s.state = SOCKET_STATE._CONNECT)
    (hrx : s.rx_data = 0) (hoos : s.rx_oo_start = 0)
    (hsyn : h.flags &&& SYN = 0) (hfin : h.flags &&& FIN = 0) (hrst : h.flags &&& RST = 0)
    (hseq : byte_order_swap_d h.n_seq = s.remSeq)
    (hn0 : 0 < n) (hn : n ≤ s.rx_size) (hn16 : n < 65536) :
    tcp_process cfg s h n f1 =
      ({ s with remSeq := (s.remSeq + n) % 4294967296, rx_data := 0, toSend := ACK,
                retry := cfg.RETRIES_TCP },
       [(WEEIP_EVENT.WEEIP_EV_DATA, { s with remSeq := (s.remSeq + n) % 4294967296, rx_data := n }),
        (WEEIP_EVENT.WEEIP_EV_DATA,
          { s with remSeq := (s.remSeq + n) % 4294967296, rx_data := 0, toSend := ACK,
                   retry := cfg.RETRIES_TCP })]) := by
  have hrel := rel_seq_in_order s h hseq
  have hclip : ¬ (s.rx_size < n) := by omega
  have hn0' : n ≠ 0 := by omega
  have hplace := rx_place_in_order s n hrx hn hn16
  simp only [SYN, FIN, RST] at hsyn hfin hrst
  rcases hf with rfl | rfl <;>
  simp [tcp_process, tcp_seq_step, hclip, hrel, hplace, rx_deliver_data, hoos, hsyn, hfin, hrst,
      tcp_state_machine, downstream_done, remove_rx_data, hstate, hn0', SYN, FIN, RST, ACK]

theorem tcp_process_connect_stash (cfg : CONFIG) (s : SOCKET) (h : HEADER) (n f1 : Nat)
    (hf : f1 = 0 ∨ f1 = 16)
    (hstate : s.state = SOCKET_STATE._CONNECT)
    (hrx : s.rx_data = 0) (hoos : s.rx_oo_start = 0) (hooe : s.rx_oo_end = 0)
    (hsyn : h.flags &&& SYN = 0) (hfin : h.flags &&& FIN = 0) (hrst : h.flags &&& RST = 0)
    (hrel : 0 < rel_seq s h) (hfit : rel_seq s h + n < s.rx_size) (hsz : s.rx_size < 65536)
    (hn0 : 0 < n) :
    tcp_process cfg s h n f1 =
      ({ s with rx_oo_start := rel_seq s h, rx_oo_end := rel_seq s h + n,
                remSeq := s.remSeq % 4294967296, toSend := ACK, retry := cfg.RETRIES_TCP },
       [(WEEIP_EVENT.WEEIP_EV_DATA,
          { s with rx_oo_start := rel_seq s h, rx_oo_end := rel_seq s h + n,
                   remSeq := s.remSeq % 4294967296, toSend := ACK,
                   retry := cfg.RETRIES_TCP })]) := by
  have hclip : ¬ (s.rx_size < n) := by omega
  have hn0' : n ≠ 0 := by omega
  have hplace := rx_place_stash s (rel_seq s h) n hrx hoos hooe hrel hfit hsz
  simp only [SYN, FIN, RST] at hsyn hfin hrst
  rcases hf with rfl | rfl <;>
  simp [tcp_process, tcp_seq_step, hclip, hplace, rx_deliver_none, hrx, hsyn, hfin, hrst,
      tcp_state_machine, downstream_done, remove_rx_data, hstate, hn0', SYN, FIN, RST, ACK]

theorem tcp_process_connect_merge (cfg : CONFIG) (s : SOCKET) (h : HEADER) (n f1 : Nat)
    (hf : f1 = 0 ∨ f1 = 16)
    (hstate : s.state = SOCKET_STATE._CONNECT)
    (hrx : s.rx_data = 0) (hoos : s.rx_oo_start = n) (hooe : s.rx_oo_end ≠ 0)
    (hsyn : h.flags &&& SYN = 0) (hfin : h.flags &&& FIN = 0) (hrst : h.flags &&& RST = 0)
    (hseq : byte_order_swap_d h.n_seq = s.remSeq)
    (hn0 : 0 < n) (hn : n ≤ s.rx_size) (hn16 : n < 65536) :
    tcp_process cfg s h n f1 =
      ({ s with remSeq := (s.remSeq + s.rx_oo_end) % 4294967296, rx_data := 0,
                rx_oo_start := 0, rx_oo_end := 0, toSend := ACK, retry := cfg.RETRIES_TCP },
       [(WEEIP_EVENT.WEEIP_EV_DATA,
          { s with remSeq := (s.remSeq + s.rx_oo_end) % 4294967296, rx_data := s.rx_oo_end,
                   rx_oo_start := 0, rx_oo_end := 0 }),
        (WEEIP_EVENT.WEEIP_EV_DATA,
          { s with remSeq := (s.remSeq + s.rx_oo_end) % 4294967296, rx_data := 0,
                   rx_oo_start := 0, rx_oo_end := 0, toSend := ACK,
                   retry := cfg.RETRIES_TCP })]) := by
  have hrel := rel_seq_in_order s h hseq
  have hclip : ¬ (s.rx_size < n) := by omega
  have hn0' : n ≠ 0 := by omega
  have hplace := rx_place_in_order s n hrx hn hn16
  simp only [SYN, FIN, RST] at hsyn hfin hrst
  rcases hf with rfl | rfl <;>
  simp [tcp_process, tcp_seq_step, hclip, hrel, hplace, rx_deliver_merge, hoos, hooe, hsyn, hfin,
      hrst, tcp_state_machine, downstream_done, remove_rx_data, hstate, hn0', SYN, FIN, RST, ACK]

theorem tcp_process_out_of_window (cfg : CONFIG) (s : SOCKET) (h : HEADER) (n f1 : Nat)
    (hsyn : h.flags &&& SYN = 0)
    (hn0 : 0 < n) (hn : n ≤ s.rx_size)
    (hout : rel_seq s h > s.rx_size ∨ (rel_seq s h + n) % 4294967296 > s.rx_size) :
    tcp_process cfg s h n f1 = (nwk_schedule_oo_ack s, []) := by
  have hclip : ¬ (s.rx_size < n) := by omega
  have hn0' : n ≠ 0 := by omega
  have hplace : rx_place s (rel_seq s h) n = (nwk_schedule_oo_ack s, n, true) := by
    unfold rx_place
    rw [if_pos hout]
    simp [hn0']
  simp only [SYN] at hsyn
  simp [tcp_process, tcp_seq_step, hclip, hplace, hsyn, SYN]

theorem nwk_downstream_eq (cfg : CONFIG) {g : NWK} {f : RX_FRAME} {i : Nat} {s : SOCKET}
    (hm : tcp_segment_for g f i s) :
    nwk_downstream cfg g f =
      ({ g with
          sockets := g.sockets.set i
            (parse_tcp cfg (sckt_found s f.header) f.header (NTOHS f.header.length)).1 },
       upcalls i (parse_tcp cfg (sckt_found s f.header) f.header (NTOHS f.header.length)).2) := by
  obtain ⟨hv, hc, hd, hp, hs⟩ := hm
  have hdest : ¬ (f.header.destination ≠ 0xffffffff ∧ f.header.destination ≠ g.ip_local
        ∧ f.header.destination ≠ g.ip_broadcast ∧ g.ip_local ≠ 0) := by
    rintro ⟨h1, h2, h3, h4⟩
    rcases hd with h | h | h | h
    · exact h1 h
    · exact h2 h
    · exact h3 h
    · exact h4 h
  have hne : IP_PROTO_TCP ≠ IP_PROTO_ICMP := by decide
  unfold nwk_downstream
  simp only [hv, hc, ne_eq, not_true_eq_false, if_false, hdest, hs, hp, if_true, hne]

theorem nwk_downstream_process (cfg : CONFIG) {g : NWK} {f : RX_FRAME} {i : Nat} {s : SOCKET}
    {n : Nat} (hm : tcp_segment_for g f i s) (hlen : NTOHS f.header.length = 40 + n)
    (hpass : ack_check_passes s f.header ∨ s.state.toNat < SOCKET_STATE._CONNECT.toNat) :
    nwk_downstream cfg g f =
      ({ g with
          sockets := g.sockets.set i
            (tcp_process cfg (sckt_found s f.header) f.header n (ack_flag f.header)).1 },
       upcalls i (tcp_process cfg (sckt_found s f.header) f.header n (ack_flag f.header)).2) := by
  have hlt := NTOHS_lt f.header.length
  have hp : ack_check_passes (sckt_found s f.header) f.header
      ∨ (sckt_found s f.header).state.toNat < SOCKET_STATE._CONNECT.toNat := hpass
  rw [nwk_downstream_eq cfg hm, parse_tcp_eq cfg _ _ _ n hlen hlt hp]

theorem tcp_segment_for_lt {g : NWK} {f : RX_FRAME} {i : Nat} {s : SOCKET}
    (hm : tcp_segment_for g f i s) : i < g.sockets.length := by
  rcases List.getElem?_eq_some.mp (tcp_segment_for_get hm) with ⟨h, _⟩
  exact h

theorem sckt_match_congr (s0 : SOCKET) (h h2 : HEADER)
    (hd : h2.tcp_destination = h.tcp_destination) (hp : h2.protocol = h.protocol)
    (hs : h2.source = h.source) (ht : h2.tcp_source = h.tcp_source) :
    sckt_match s0 h2 = sckt_match s0 h := by
  simp [sckt_match, hd, hp, hs, ht]

theorem sckt_match_found (s s1 : SOCKET) (h : HEADER) (hm : sckt_match s h = true)
    (h1 : s1.type = s.type) (h2 : s1.port = s.port) (h3 : s1.listening = false)
    (h4 : s1.remIP = h.source) (h5 : s1.remPort = h.tcp_source) :
    sckt_match s1 h = true := by
  unfold sckt_match at hm ⊢
  rw [h1, h2, h3, h4, h5]
  split_ifs at hm ⊢ <;> simp_all

theorem sckt_search_set (h h2 : HEADER) (s1 : SOCKET)
    (hsame : ∀ s0, sckt_match s0 h2 = sckt_match s0 h) (hm1 : sckt_match s1 h2 = true) :
    ∀ (l : List SOCKET) (k i : Nat) (s : SOCKET), sckt_search h k l = some (i, s) →
      sckt_search h2 k (l.set (i - k) s1) = some (i, s1) := by
  intro l
  induction l with
  | nil => intro k i s hs; simp [sckt_search] at hs
  | cons a rest ih =>
    intro k i s hs
    unfold sckt_search at hs
    by_cases hm : sckt_match a h = true
    · simp only [hm, if_true, Option.some.injEq, Prod.mk.injEq] at hs
      obtain ⟨rfl, rfl⟩ := hs
      simp [sckt_search, hm1]
    · simp only [hm] at hs
      have hle := (sckt_search_some h rest (k + 1) i s hs).1
      have e : i - k = (i - (k + 1)) + 1 := by omega
      have hm2 : ¬ sckt_match a h2 = true := by rw [hsame]; exact hm
      rw [e, List.set_cons_succ]
      unfold sckt_search
      simp only [hm2]
      exact ih (k + 1) i s hs

theorem tcp_segment_for_next {g : NWK} {f : RX_FRAME} {i : Nat} {s : SOCKET}
    (hm : tcp_segment_for g f i s) (f2 : RX_FRAME) (hflow : same_flow f f2) (s1 : SOCKET)
    (h1 : s1.type = s.type) (h2 : s1.port = s.port) (h3 : s1.listening = false)
    (h4 : s1.remIP = f.header.source) (h5 : s1.remPort = f.header.tcp_source) :
    tcp_segment_for { g with sockets := g.sockets.set i s1 } f2 i s1 := by
  obtain ⟨hv, hc, hd, hp, hs⟩ := hm
  obtain ⟨e1, e2, e3, e4, e5, e6, e7⟩ := hflow
  have hmatch := (sckt_search_some f.header g.sockets 0 i s hs).2.2
  have hsame : ∀ s0, sckt_match s0 f2.header = sckt_match s0 f.header :=
    fun s0 => sckt_match_congr s0 f.header f2.header e7 e5 e4 e6
  have hm1 : sckt_match s1 f2.header = true := by
    rw [hsame]; exact sckt_match_found s s1 f.header hmatch h1 h2 h3 h4 h5
  have := sckt_search_set f.header f2.header s1 hsame hm1 g.sockets 0 i s hs
  refine ⟨by rw [e1]; exact hv, by rw [e2]; exact hc, by rw [e3]; exact hd, by rw [e5]; exact hp, ?_⟩
  simpa using this

theorem rel_seq_ahead (s : SOCKET) (h : HEADER) (a : Nat)
    (hseq : byte_order_swap_d h.n_seq = (s.remSeq + a) % 4294967296)
    (hlt : s.remSeq < 4294967296) (ha : a < 4294967296) : rel_seq s h = a := by
  unfold rel_seq
  rw [hseq]
  omega

theorem same_flow_refl (f : RX_FRAME) : same_flow f f := ⟨rfl, rfl, rfl, rfl, rfl, rfl, rfl⟩

theorem sckt_search_congr (h h2 : HEADER)
    (hsame : ∀ s0, sckt_match s0 h2 = sckt_match s0 h) :
    ∀ (l : List SOCKET) (k : Nat), sckt_search h2 k l = sckt_search h k l := by
  intro l
  induction l with
  | nil => intro k; rfl
  | cons a rest ih =>
    intro k
    unfold sckt_search
    rw [hsame a, ih (k + 1)]

theorem tcp_segment_for_flow {g : NWK} {f : RX_FRAME} {i : Nat} {s : SOCKET}
    (hm : tcp_segment_for g f i s) (f2 : RX_FRAME) (hflow : same_flow f f2) :
    tcp_segment_for g f2 i s := by
  obtain ⟨hv, hc, hd, hp, hs⟩ := hm
  obtain ⟨e1, e2, e3, e4, e5, e6, e7⟩ := hflow
  have hsame : ∀ s0, sckt_match s0 f2.header = sckt_match s0 f.header :=
    fun s0 => sckt_match_congr s0 f.header f2.header e7 e5 e4 e6
  refine ⟨by rw [e1]; exact hv, by rw [e2]; exact hc, by rw [e3]; exact hd, by rw [e5]; exact hp, ?_⟩
  rw [sckt_search_congr f.header f2.header hsame]
  exact hs

theorem same_flow_symm {f1 f2 : RX_FRAME} (h : same_flow f1 f2) : same_flow f2 f1 := by
  obtain ⟨e1, e2, e3, e4, e5, e6, e7⟩ := h
  exact ⟨e1.symm, e2.symm, e3.symm, e4.symm, e5.symm, e6.symm, e7.symm⟩

theorem rx_place_no_payload (s : SOCKET) (rel : Nat) (hrx : s.rx_data = 0)
    (hooe : s.rx_oo_end = 0) :
    (rx_place s rel 0).2.2 = false ∧ (rx_place s rel 0).2.1 = 0
      ∧ (rx_place s rel 0).1.state = s.state ∧ (rx_place s rel 0).1.rx_data = 0 := by
  unfold rx_place
  split_ifs <;> simp_all

theorem tcp_seq_step_accepted (s : SOCKET) (h : HEADER) (n f1 : Nat)
    (hempty : rx_empty s) (hsz : s.rx_size < 65536) (hn16 : n < 65536)
    (hacc : h.flags &&& SYN ≠ 0 ∨ payload_accepted s h n) :
    (tcp_seq_step s h n f1).drop = false ∧ (tcp_seq_step s h n f1).data_size = n
      ∧ (tcp_seq_step s h n f1).sckt.state = s.state
      ∧ (h.flags &&& SYN = 0 → (tcp_seq_step s h n f1)._flags = f1)
      ∧ ∀ c ∈ (tcp_seq_step s h n f1).calls, c.1 = WEEIP_EVENT.WEEIP_EV_DATA := by
  obtain ⟨hrx, hoos, hooe⟩ := hempty
  by_cases hsyn : h.flags &&& SYN = 0
  · have hacc' : payload_accepted s h n := by
      rcases hacc with h1 | h1
      · exact absurd hsyn h1
      · exact h1
    rcases Nat.eq_zero_or_pos n with hn0 | hn0
    · subst hn0
      obtain ⟨p1, p2, p3, p4⟩ := rx_place_no_payload s (rel_seq s h) hrx hooe
      have hd := rx_deliver_none _ p4
      simp [tcp_seq_step, hsyn, p1, p2, p3, hd]
    · by_cases hrel : rel_seq s h = 0
      · have hn : n ≤ s.rx_size := by
          rcases hacc' with h1 | h1 | h1
          · omega
          · exact h1.2
          · omega
        have hclip : ¬ (s.rx_size < n) := by omega
        have hn0' : n ≠ 0 := by omega
        have hplace := rx_place_in_order s n hrx hn hn16
        simp [tcp_seq_step, hsyn, hclip, hrel, hplace, rx_deliver_data, hn0', hoos]
      · have hfit : rel_seq s h + n < s.rx_size := by
          rcases hacc' with h1 | h1 | h1
          · omega
          · exact absurd h1.1 hrel
          · exact h1
        have hclip : ¬ (s.rx_size < n) := by omega
        have hplace := rx_place_stash s (rel_seq s h) n hrx hoos hooe (by omega) hfit hsz
        simp [tcp_seq_step, hsyn, hclip, hplace, rx_deliver_none, hrx]
  · simp [tcp_seq_step, hsyn]

theorem tcp_process_rst (cfg : CONFIG) (s : SOCKET) (h : HEADER) (n f1 : Nat)
    (hrst : h.flags &&& RST ≠ 0) (hdrop : (tcp_seq_step s h n f1).drop = false) :
    (tcp_process cfg s h n f1).1.state = SOCKET_STATE._IDLE
      ∧ ∃ d, (tcp_process cfg s h n f1).2 = (tcp_seq_step s h n f1).calls
          ++ [(if (tcp_seq_step s h n f1).data_size = 0 then WEEIP_EVENT.WEEIP_EV_DISCONNECT
               else WEEIP_EVENT.WEEIP_EV_DISCONNECT_WITH_DATA, d)] := by
  unfold tcp_process
  simp only [hdrop, hrst, ne_eq, not_false_eq_true, if_true, Bool.false_eq_true, if_false]
  unfold downstream_done
  by_cases h0 : (tcp_seq_step s h n f1).data_size = 0 <;>
  by_cases ht : (tcp_seq_step s h n f1).sckt.toSend = 0 <;>
  simp [h0, ht]

theorem tcp_process_fin (cfg : CONFIG) (s : SOCKET) (h : HEADER) (n f1 : Nat)
    (hf : f1 = 0 ∨ f1 = 16)
    (hrst : h.flags &&& RST = 0) (hfin : h.flags &&& FIN ≠ 0)
    (hdrop : (tcp_seq_step s h n f1).drop = false)
    (hflags : (tcp_seq_step s h n f1)._flags = f1)
    (hstate : (tcp_seq_step s h n f1).sckt.state = SOCKET_STATE._CONNECT
      ∨ (tcp_seq_step s h n f1).sckt.state = SOCKET_STATE._ACK_WAIT) :
    (tcp_process cfg s h n f1).1.state = SOCKET_STATE._FIN_REC
      ∧ (tcp_process cfg s h n f1).1.toSend = ACK ||| FIN
      ∧ (tcp_process cfg s h n f1).1.remSeq
          = ((byte_order_swap_d h.n_seq + (tcp_seq_step s h n f1).data_size) % 4294967296 + 1)
              % 4294967296
      ∧ ∃ d, (tcp_process cfg s h n f1).2 = (tcp_seq_step s h n f1).calls
          ++ [(WEEIP_EVENT.WEEIP_EV_DISCONNECT, d)] := by
  unfold tcp_process
  simp only [hdrop, hrst, hfin, hflags, ne_eq, not_false_eq_true, not_true_eq_false, if_true,
    Bool.false_eq_true, if_false, true_or]
  rcases hstate with hs | hs <;> rcases hf with rfl | rfl <;>
  simp [tcp_state_machine, downstream_done, hs, ACK, FIN]

theorem upcalls_append_single (i : Nat) (l : List (WEEIP_EVENT × SOCKET)) (ev : WEEIP_EVENT)
    (d : SOCKET) :
    upcalls i (l ++ [(ev, d)]) = upcalls i l ++ [{ idx := i, ev := ev, sckt := d }] := by
  simp [upcalls]

theorem upcalls_all_data (i : Nat) (l : List (WEEIP_EVENT × SOCKET))
    (hl : ∀ c ∈ l, c.1 = WEEIP_EVENT.WEEIP_EV_DATA) :
    ∀ c ∈ upcalls i l, c.ev = WEEIP_EVENT.WEEIP_EV_DATA := by
  intro c hc
  simp only [upcalls, List.mem_map] at hc
  obtain ⟨p, hp, rfl⟩ := hc
  exact hl p hp

theorem nwk_tick_loop_get (cfg : CONFIG) :
    ∀ (l : List SOCKET) (k i : Nat) (s : SOCKET), l[i]? = some s →
      (nwk_tick_loop cfg k l).1[i]? = some (nwk_tick_sckt cfg s).1 := by
  intro l
  induction l with
  | nil => intro k i s hs; simp at hs
  | cons a rest ih =>
    intro k i s hs
    cases i with
    | zero =>
      simp only [List.getElem?_cons_zero, Option.some.injEq] at hs
      subst hs
      simp [nwk_tick_loop]
    | succ j =>
      simp only [List.getElem?_cons_succ] at hs
      simp only [nwk_tick_loop, List.getElem?_cons_succ]
      exact ih (k + 1) j s hs

theorem SOCKET_TIMEOUT_cast (cfg : CONFIG) (r : Nat) (hmod : 0 < cfg.TIME_MOD) :
    (SOCKET_TIMEOUT cfg r : Int)
      = ((cfg.TIMEOUT_TCP : Int) + 32 * ((cfg.RETRIES_TCP : Int) - (r : Int)))
          % (cfg.TIME_MOD : Int) := by
  unfold SOCKET_TIMEOUT
  apply Int.toNat_of_nonneg
  apply Int.emod_nonneg
  omega

theorem SOCKET_TIMEOUT_fits (cfg : CONFIG) (r : Nat) (hle : r ≤ cfg.RETRIES_TCP)
    (hfit : cfg.TIMEOUT_TCP + 32 * (cfg.RETRIES_TCP - r) < cfg.TIME_MOD) :
    SOCKET_TIMEOUT cfg r = cfg.TIMEOUT_TCP + 32 * (cfg.RETRIES_TCP - r) := by
  unfold SOCKET_TIMEOUT
  have h1 : ((cfg.TIMEOUT_TCP : Int) + 32 * ((cfg.RETRIES_TCP : Int) - (r : Int)))
      = ((cfg.TIMEOUT_TCP + 32 * (cfg.RETRIES_TCP - r) : Nat) : Int) := by
    push_cast [Nat.cast_sub hle]
    ring
  rw [h1, Int.emod_eq_of_lt (by omega) (by omega)]
  omega

theorem nwk_tick_sckt_retry (cfg : CONFIG) (s : SOCKET) (htype : s.type = SOCKET_TYPE.SOCKET_TCP)
    (htime : s.time = 1) (hr : s.retry ≠ 0) :
    (nwk_tick_sckt cfg s).1.retry = s.retry - 1
      ∧ (nwk_tick_sckt cfg s).1.time = SOCKET_TIMEOUT cfg (s.retry - 1)
      ∧ (nwk_tick_sckt cfg s).1.state = s.state ∧ (nwk_tick_sckt cfg s).1.seq = s.seq
      ∧ (nwk_tick_sckt cfg s).1.remSeq = s.remSeq
      ∧ (s.state = SOCKET_STATE._SYN_SENT ∨ s.state = SOCKET_STATE._ACK_REC →
          (nwk_tick_sckt cfg s).1.toSend = SYN ∧ (nwk_tick_sckt cfg s).1.timeout = true)
      ∧ (s.state = SOCKET_STATE._SYN_REC →
          (nwk_tick_sckt cfg s).1.toSend = SYN ||| ACK ∧ (nwk_tick_sckt cfg s).1.timeout = true)
      ∧ (s.state = SOCKET_STATE._ACK_WAIT →
          (nwk_tick_sckt cfg s).1.toSend = ACK ||| PSH ∧ (nwk_tick_sckt cfg s).1.timeout = true)
      ∧ (s.state = SOCKET_STATE._FIN_SENT ∨ s.state = SOCKET_STATE._FIN_ACK_REC →
          (nwk_tick_sckt cfg s).1.toSend = ACK ∧ (nwk_tick_sckt cfg s).1.timeout = true)
      ∧ (s.state = SOCKET_STATE._FIN_REC →
          (nwk_tick_sckt cfg s).1.toSend = FIN ||| ACK ∧ (nwk_tick_sckt cfg s).1.timeout = true) := by
  cases hst : s.state <;>
  by_cases hts : s.toSend = 0 <;>
  simp [nwk_tick_sckt, tick_retransmit, htype, htime, hr, hst, hts, SYN, ACK, FIN, PSH]

theorem nwk_tick_sckt_exhausted (cfg : CONFIG) (s : SOCKET)
    (htype : s.type = SOCKET_TYPE.SOCKET_TCP) (htime : s.time ≤ 1) (hretry : s.retry = 0) :
    (nwk_tick_sckt cfg s).1.type = SOCKET_TYPE.SOCKET_TCP
      ∧ (nwk_tick_sckt cfg s).1.time = 0 ∧ (nwk_tick_sckt cfg s).1.retry = 0
      ∧ (nwk_tick_sckt cfg s).1.state = SOCKET_STATE._IDLE
      ∧ ∃ d, (nwk_tick_sckt cfg s).2 = [(WEEIP_EVENT.WEEIP_EV_DISCONNECT, d)] := by
  have ht : s.time = 0 ∨ s.time = 1 := by omega
  rcases ht with ht | ht <;>
  simp [nwk_tick_sckt, htype, ht, hretry, remove_rx_data] <;>
  split_ifs <;> simp

/-- Retry exhaustion on a table that holds one TCP socket whose timer is at 0
or 1 with retry = 0: every one of k consecutive ticks leaves the socket in
IDLE with time = 0 and retry = 0, and makes one DISCONNECT callback, so k
ticks make k of them. -/
theorem nwk_tick_iter_exhausted (cfg : CONFIG) :
    ∀ (k : Nat) (s : SOCKET), s.type = SOCKET_TYPE.SOCKET_TCP → s.time ≤ 1 → s.retry = 0 →
      count_ev WEEIP_EVENT.WEEIP_EV_DISCONNECT (nwk_tick_iter cfg k [s]).2 = k
        ∧ (0 < k → (nwk_tick_iter cfg k [s]).1.map SOCKET.state = [SOCKET_STATE._IDLE]) := by
  intro k
  induction k with
  | zero => intro s _ _ _; simp [nwk_tick_iter, count_ev]
  | succ k ih =>
    intro s htype htime hretry
    obtain ⟨h1, h2, h3, h4, d, h5⟩ := nwk_tick_sckt_exhausted cfg s htype htime hretry
    obtain ⟨ih1, ih2⟩ := ih (nwk_tick_sckt cfg s).1 h1 (by omega) h3
    have hstep : nwk_tick cfg [s]
        = ([(nwk_tick_sckt cfg s).1], [{ idx := 0, ev := WEEIP_EVENT.WEEIP_EV_DISCONNECT, sckt := d }]) := by
      simp [nwk_tick, nwk_tick_loop, h5, upcalls]
    constructor
    · simp only [nwk_tick_iter, hstep]
      simp only [count_ev] at ih1 ⊢
      simp [ih1]
    · intro _
      simp only [nwk_tick_iter, hstep]
      rcases Nat.eq_zero_or_pos k with hk | hk
      · subst hk
        simp [nwk_tick_iter, h4]
      · exact ih2 hk

/-- Sequence number bookkeeping of nwk_upstream for a fresh SYN (timeout false,
no payload): the header carries seq, and seq is advanced by one only when
remSeq differs from remSeqStart. -/
theorem upstream_seq_fresh_syn (s : SOCKET) (hto : s.timeout = false) (hsend : s.toSend = SYN) :
    (upstream_seq s 0).1 = s.seq
      ∧ (upstream_seq s 0).2.seq
          = if (s.remSeq + 4294967296 - s.remSeqStart % 4294967296) % 4294967296 ≠ 0
            then (s.seq + 1) % 4294967296 else s.seq := by
  unfold upstream_seq
  simp only [hto, hsend]
  split_ifs <;> simp_all [SYN, FIN]

theorem nwk_upstream_loop_get (cfg : CONFIG) (ip_local : Nat) (eth_ip_send : Nat → Bool) :
    ∀ (l : List SOCKET) (k id : Nat) (dh : HEADER) (i : Nat) (s : SOCKET), l[i]? = some s →
      ∃ id1 dh1,
        (nwk_upstream_loop cfg ip_local eth_ip_send k id dh l).1[i]?
            = some (nwk_upstream_sckt cfg ip_local id1 dh1 (eth_ip_send (k + i)) (k + i) s).sckt
          ∧ ∀ p ∈ (nwk_upstream_sckt cfg ip_local id1 dh1 (eth_ip_send (k + i)) (k + i) s).sent,
              p ∈ (nwk_upstream_loop cfg ip_local eth_ip_send k id dh l).2.2.2.1 := by
  intro l
  induction l with
  | nil => intro k id dh i s hs; simp at hs
  | cons a rest ih =>
    intro k id dh i s hs
    cases i with
    | zero =>
      simp only [List.getElem?_cons_zero, Option.some.injEq] at hs
      subst hs
      refine ⟨id, dh, by simp [nwk_upstream_loop], ?_⟩
      intro p hp
      simp only [nwk_upstream_loop, Nat.add_zero] at hp ⊢
      exact List.mem_append_left _ hp
    | succ j =>
      simp only [List.getElem?_cons_succ] at hs
      obtain ⟨id1, dh1, h1, h2⟩ := ih (k + 1) _ _ j s hs
      have e : k + 1 + j = k + (j + 1) := by omega
      rw [e] at h1 h2
      refine ⟨id1, dh1, ?_, ?_⟩
      · simp only [nwk_upstream_loop, List.getElem?_cons_succ]
        exact h1
      · intro p hp
        simp only [nwk_upstream_loop]
        exact List.mem_append_right _ (h2 p hp)

theorem nwk_upstream_get (cfg : CONFIG) (eth_ip_send : Nat → Bool) (g : NWK) (i : Nat)
    (s : SOCKET) (hget : g.sockets[i]? = some s) :
    ∃ id1 dh1,
      (nwk_upstream cfg true eth_ip_send g).nwk.sockets[i]?
          = some (nwk_upstream_sckt cfg g.ip_local id1 dh1 (eth_ip_send i) i s).sckt
        ∧ ∀ p ∈ (nwk_upstream_sckt cfg g.ip_local id1 dh1 (eth_ip_send i) i s).sent,
            p ∈ (nwk_upstream cfg true eth_ip_send g).sent := by
  obtain ⟨id1, dh1, h1, h2⟩ :=
    nwk_upstream_loop_get cfg g.ip_local eth_ip_send g.sockets 0 g.id g.default_header i s hget
  rw [Nat.zero_add] at h1 h2
  exact ⟨id1, dh1, by simpa [nwk_upstream] using h1, by simpa [nwk_upstream] using h2⟩

/-- Active open in general. A TCP socket in SYN_SENT with toSend = SYN and
timeout = false, whose SYN the link driver accepts, and then a matched segment
with SYN and ACK set (FIN and RST clear) and remote sequence number r. The
header emitted carries seq; the socket ends in CONNECT with remSeq = r + 1,
toSend = ACK and a CONNECT callback; its seq is seq + 1 when remSeq equals
remSeqStart at the time of the emit, and seq + 2 otherwise (all modulo 2^32). -/
theorem active_open_general (cfg : CONFIG) (eth_ip_send : Nat → Bool) (g : NWK) (f : RX_FRAME)
    (i : Nat) (s s1 : SOCKET) (r : Nat)
    (hget : g.sockets[i]? = some s) (htype : s.type = SOCKET_TYPE.SOCKET_TCP)
    (hstate : s.state = SOCKET_STATE._SYN_SENT) (hsend : s.toSend = SYN)
    (hto : s.timeout = false) (hok : eth_ip_send i = true)
    (hm : tcp_segment_for (nwk_upstream cfg true eth_ip_send g).nwk f i s1)
    (hsyn : f.header.flags &&& SYN ≠ 0) (hack : f.header.flags &&& ACK ≠ 0)
    (hfin : f.header.flags &&& FIN = 0) (hrst : f.header.flags &&& RST = 0)
    (hr : byte_order_swap_d f.header.n_seq = r) :
    (∃ p ∈ (nwk_upstream cfg true eth_ip_send g).sent,
        p.idx = i ∧ p.header.flags = SYN
          ∧ byte_order_swap_d p.header.n_seq = s.seq % 4294967296)
      ∧ ∃ s2 d, (nwk_downstream cfg (nwk_upstream cfg true eth_ip_send g).nwk f).1.sockets[i]?
            = some s2
          ∧ s2.state = SOCKET_STATE._CONNECT ∧ s2.remSeq = (r + 1) % 4294967296
          ∧ s2.toSend = ACK
          ∧ (nwk_downstream cfg (nwk_upstream cfg true eth_ip_send g).nwk f).2
              = [{ idx := i, ev := WEEIP_EVENT.WEEIP_EV_CONNECT, sckt := d }]
          ∧ s2.seq
              = if (s.remSeq + 4294967296 - s.remSeqStart % 4294967296) % 4294967296 ≠ 0
                then ((s.seq + 1) % 4294967296 + 1) % 4294967296
                else (s.seq + 1) % 4294967296 := by
  obtain ⟨id1, dh1, h1, h2⟩ := nwk_upstream_get cfg eth_ip_send g i s hget
  obtain ⟨q1, q2⟩ := upstream_seq_fresh_syn s hto hsend
  have hs0 : s.toSend ≠ 0 := by rw [hsend]; decide
  have hpsh : s.toSend &&& PSH = 0 := by rw [hsend]; decide
  have hst0 : (upstream_seq s 0).2.state = SOCKET_STATE._SYN_SENT := by
    unfold upstream_seq; split_ifs <;> simp_all
  have hup : (nwk_upstream_sckt cfg g.ip_local id1 dh1 (eth_ip_send i) i s).sckt.state
        = SOCKET_STATE._SYN_SENT
      ∧ (nwk_upstream_sckt cfg g.ip_local id1 dh1 (eth_ip_send i) i s).sckt.seq
        = (upstream_seq s 0).2.seq := by
    simp [nwk_upstream_sckt, hs0, hpsh, htype, hok, hst0]
  have hsent : ∃ p ∈ (nwk_upstream_sckt cfg g.ip_local id1 dh1 (eth_ip_send i) i s).sent,
      p.idx = i ∧ p.header.flags = SYN
        ∧ p.header.n_seq = byte_order_swap_d (upstream_seq s 0).1 := by
    have e28 : (2 : Nat) &&& 8 = 0 := by decide
    simp [nwk_upstream_sckt, htype, hok, hsend, SYN, PSH, e28]
  have hs1 := tcp_segment_for_get hm
  rw [h1] at hs1
  have hs1' := (Option.some.inj hs1).symm
  constructor
  · obtain ⟨p, hp, e1, e2, e3⟩ := hsent
    refine ⟨p, h2 p hp, e1, e2, ?_⟩
    rw [e3, byte_order_swap_d_swap, q1]
  · have hlt := tcp_segment_for_lt hm
    have hst : (sckt_found s1 f.header).state = SOCKET_STATE._SYN_SENT := by
      rw [hs1']; exact hup.1
    have hsq : (sckt_found s1 f.header).seq = (upstream_seq s 0).2.seq := by
      rw [hs1']; exact hup.2
    have key : (parse_tcp cfg (sckt_found s1 f.header) f.header (NTOHS f.header.length)).1.state
          = SOCKET_STATE._CONNECT
        ∧ (parse_tcp cfg (sckt_found s1 f.header) f.header (NTOHS f.header.length)).1.remSeq
          = (byte_order_swap_d f.header.n_seq + 1) % 4294967296
        ∧ (parse_tcp cfg (sckt_found s1 f.header) f.header (NTOHS f.header.length)).1.toSend = ACK
        ∧ (parse_tcp cfg (sckt_found s1 f.header) f.header (NTOHS f.header.length)).1.seq
          = ((upstream_seq s 0).2.seq + 1) % 4294967296
        ∧ ∃ d, (parse_tcp cfg (sckt_found s1 f.header) f.header (NTOHS f.header.length)).2
          = [(WEEIP_EVENT.WEEIP_EV_CONNECT, d)] := by
      simp only [SYN, FIN, RST, ACK] at hsyn hfin hrst hack
      simp [parse_tcp, tcp_process, ack_flag, tcp_seq_step, tcp_state_machine, downstream_done,
        hst, hsq, hsyn, hfin, hrst, hack, SOCKET_STATE.toNat, SYN, ACK, FIN, RST]
    obtain ⟨k1, k2, k3, k4, d, k5⟩ := key
    rw [nwk_downstream_eq cfg hm]
    dsimp only
    rw [k5]
    refine ⟨_, _, List.getElem?_set_self hlt, k1, by rw [k2, hr], k3, rfl, ?_⟩
    rw [k4, q2]
    split_ifs <;> rfl

theorem upstream_seq_frame (s : SOCKET) (d : Nat) :
    (upstream_seq s d).2 = { s with seq := (upstream_seq s d).2.seq } := by
  unfold upstream_seq
  split_ifs <;> rfl

/-- Sequence number bookkeeping of nwk_upstream for a fresh emit (timeout
false) of d payload bytes: the header carries seq; seq is advanced by d plus
one for SYN or FIN only when remSeq differs from remSeqStart, and is left as it
was otherwise. -/
theorem upstream_seq_fresh (s : SOCKET) (d : Nat) (hto : s.timeout = false)
    (hlt : s.seq < 4294967296) :
    (upstream_seq s d).1 = s.seq
      ∧ (upstream_seq s d).2.seq
          = if (s.remSeq + 4294967296 - s.remSeqStart % 4294967296) % 4294967296 ≠ 0
            then (s.seq + d + (if s.toSend &&& (SYN ||| FIN) ≠ 0 then 1 else 0)) % 4294967296
            else s.seq := by
  unfold upstream_seq
  simp only [hto]
  split_ifs <;> simp_all
  all_goals omega

/-- Sequence number bookkeeping of nwk_upstream for a retransmission (timeout
true) of d payload bytes: the header carries seq - d modulo 2^32 and the
socket is left as it was. -/
theorem upstream_seq_retransmit (s : SOCKET) (d : Nat) (hto : s.timeout = true) :
    (upstream_seq s d).1 = (s.seq + 4294967296 - d % 4294967296) % 4294967296
            ∨ (d = 0 ∧ (upstream_seq s d).1 = s.seq) := by
  unfold upstream_seq
  simp only [hto]
  split_ifs <;> simp_all

theorem upstream_seq_retransmit_sckt (s : SOCKET) (d : Nat) (hto : s.timeout = true) :
    (upstream_seq s d).2 = s := by
  unfold upstream_seq
  simp [hto]

@[simp] theorem upstream_seq_state (s : SOCKET) (d : Nat) :
    (upstream_seq s d).2.state = s.state := by
  rw [upstream_seq_frame]

@[simp] theorem upstream_seq_retry (s : SOCKET) (d : Nat) :
    (upstream_seq s d).2.retry = s.retry := by
  rw [upstream_seq_frame]

@[simp] theorem upstream_seq_toSend (s : SOCKET) (d : Nat) :
    (upstream_seq s d).2.toSend = s.toSend := by
  rw [upstream_seq_frame]

@[simp] theorem upstream_seq_timeout (s : SOCKET) (d : Nat) :
    (upstream_seq s d).2.timeout = s.timeout := by
  rw [upstream_seq_frame]

@[simp] theorem upstream_seq_time (s : SOCKET) (d : Nat) :
    (upstream_seq s d).2.time = s.time := by
  rw [upstream_seq_frame]

@[simp] theorem upstream_seq_rx_size (s : SOCKET) (d : Nat) :
    (upstream_seq s d).2.rx_size = s.rx_size := by
  rw [upstream_seq_frame]

@[simp] theorem upstream_seq_rx_data (s : SOCKET) (d : Nat) :
    (upstream_seq s d).2.rx_data = s.rx_data := by
  rw [upstream_seq_frame]

@[simp] theorem upstream_seq_rx_oo_start (s : SOCKET) (d : Nat) :
    (upstream_seq s d).2.rx_oo_start = s.rx_oo_start := by
  rw [upstream_seq_frame]

@[simp] theorem upstream_seq_rx_oo_end (s : SOCKET) (d : Nat) :
    (upstream_seq s d).2.rx_oo_end = s.rx_oo_end := by
  rw [upstream_seq_frame]

@[simp] theorem upstream_seq_type (s : SOCKET) (d : Nat) :
    (upstream_seq s d).2.type = s.type := by
  rw [upstream_seq_frame]

@[simp] theorem upstream_seq_remSeq (s : SOCKET) (d : Nat) :
    (upstream_seq s d).2.remSeq = s.remSeq := by
  rw [upstream_seq_frame]

@[simp] theorem remove_rx_data_timeout (s : SOCKET) : (remove_rx_data s).timeout = s.timeout := by
  unfold remove_rx_data; split_ifs <;> rfl

@[simp] theorem remove_rx_data_time (s : SOCKET) : (remove_rx_data s).time = s.time := by
  unfold remove_rx_data; split_ifs <;> rfl

@[simp] theorem remove_rx_data_rx_size (s : SOCKET) : (remove_rx_data s).rx_size = s.rx_size := by
  unfold remove_rx_data; split_ifs <;> rfl

@[simp] theorem remove_rx_data_type (s : SOCKET) : (remove_rx_data s).type = s.type := by
  unfold remove_rx_data; split_ifs <;> rfl

theorem nwk_upstream_sckt_idle (cfg : CONFIG) (ip_local id : Nat) (dh : HEADER) (ok : Bool)
    (i : Nat) (s : SOCKET) (h0 : s.toSend = 0) :
    nwk_upstream_sckt cfg ip_local id dh ok i s
      = { sckt := s, id := id, default_header := dh, sent := [], calls := [] } := by
  simp [nwk_upstream_sckt, h0]

theorem nwk_upstream_sckt_state (cfg : CONFIG) (ip_local id : Nat) (dh : HEADER) (ok : Bool)
    (i : Nat) (s : SOCKET) :
    (nwk_upstream_sckt cfg ip_local id dh ok i s).sckt.state = s.state
      ∧ (nwk_upstream_sckt cfg ip_local id dh ok i s).sckt.retry = s.retry
      ∧ (nwk_upstream_sckt cfg ip_local id dh ok i s).sckt.rx_size = s.rx_size := by
  unfold nwk_upstream_sckt
  by_cases h0 : s.toSend = 0
  · simp [h0]
  · by_cases ht : s.type = SOCKET_TYPE.SOCKET_TCP <;> cases ok <;> simp [h0, ht]

theorem nwk_upstream_sckt_fail (cfg : CONFIG) (ip_local id : Nat) (dh : HEADER)
    (i : Nat) (s : SOCKET) :
    (nwk_upstream_sckt cfg ip_local id dh false i s).sckt.toSend = s.toSend
      ∧ (nwk_upstream_sckt cfg ip_local id dh false i s).sckt.timeout = s.timeout
      ∧ (nwk_upstream_sckt cfg ip_local id dh false i s).sckt.time = s.time := by
  unfold nwk_upstream_sckt
  by_cases h0 : s.toSend = 0
  · simp [h0]
  · by_cases ht : s.type = SOCKET_TYPE.SOCKET_TCP <;> simp [h0, ht]

theorem nwk_upstream_sckt_ok (cfg : CONFIG) (ip_local id : Nat) (dh : HEADER)
    (i : Nat) (s : SOCKET) (h0 : s.toSend ≠ 0) :
    (nwk_upstream_sckt cfg ip_local id dh true i s).sckt.toSend = 0
      ∧ (nwk_upstream_sckt cfg ip_local id dh true i s).sckt.timeout = false
      ∧ (nwk_upstream_sckt cfg ip_local id dh true i s).sckt.time = SOCKET_TIMEOUT cfg s.retry
      ∧ ∃ p, (nwk_upstream_sckt cfg ip_local id dh true i s).sent = [p] ∧ p.idx = i
          ∧ p.header.window_hi = (compute_window_size s dh).window_hi
          ∧ p.header.window_lo = (compute_window_size s dh).window_lo := by
  unfold nwk_upstream_sckt
  by_cases ht : s.type = SOCKET_TYPE.SOCKET_TCP <;> simp [h0, ht]

theorem nwk_upstream_loop_sent (cfg : CONFIG) (ip_local : Nat) (eth_ip_send : Nat → Bool) :
    ∀ (l : List SOCKET) (k id : Nat) (dh : HEADER),
      ∀ p ∈ (nwk_upstream_loop cfg ip_local eth_ip_send k id dh l).2.2.2.1,
        ∃ j sj id1 dh1, l[j]? = some sj ∧ p.idx = k + j
          ∧ p ∈ (nwk_upstream_sckt cfg ip_local id1 dh1 (eth_ip_send (k + j)) (k + j) sj).sent := by
  intro l
  induction l with
  | nil => intro k id dh p hp; simp [nwk_upstream_loop] at hp
  | cons a rest ih =>
    intro k id dh p hp
    simp only [nwk_upstream_loop, List.mem_append] at hp
    rcases hp with hp | hp
    · refine ⟨0, a, id, dh, by simp, ?_, hp⟩
      unfold nwk_upstream_sckt at hp
      split_ifs at hp <;> simp at hp <;> simp [hp]
    · obtain ⟨j, sj, id1, dh1, h1, h2, h3⟩ := ih (k + 1) _ _ p hp
      have e : k + 1 + j = k + (j + 1) := by omega
      rw [e] at h2 h3
      exact ⟨j + 1, sj, id1, dh1, by simpa using h1, h2, h3⟩

theorem compute_window_size_value (s : SOCKET) (dh : HEADER) (hrx : s.rx_data ≤ s.rx_size)
    (hoo : s.rx_oo_end ≤ s.rx_size) (hsz : s.rx_size < 65536) :
    256 * (compute_window_size s dh).window_hi + (compute_window_size s dh).window_lo
      = s.rx_size - max s.rx_data s.rx_oo_end := by
  unfold compute_window_size
  simp only
  split_ifs <;> omega

theorem nwk_tick_sckt_time_zero (cfg : CONFIG) (s : SOCKET)
    (htype : s.type = SOCKET_TYPE.SOCKET_TCP) (htime : s.time = 0) :
    (s.retry ≠ 0 → (nwk_tick_sckt cfg s).1.retry = s.retry - 1
        ∧ (nwk_tick_sckt cfg s).1.time = SOCKET_TIMEOUT cfg (s.retry - 1))
      ∧ (s.retry = 0 → (nwk_tick_sckt cfg s).1.state = SOCKET_STATE._IDLE
        ∧ ∃ d, (nwk_tick_sckt cfg s).2 = [(WEEIP_EVENT.WEEIP_EV_DISCONNECT, d)]) := by
  constructor
  · intro hr
    cases hst : s.state <;> by_cases hts : s.toSend = 0 <;>
    simp [nwk_tick_sckt, tick_retransmit, htype, htime, hr, hst, hts, SYN, ACK, FIN, PSH]
  · intro hr
    simp [nwk_tick_sckt, htype, htime, hr]

theorem nwk_upstream_sent (cfg : CONFIG) (eth_ip_send : Nat → Bool) (g : NWK) :
    ∀ p ∈ (nwk_upstream cfg true eth_ip_send g).sent,
      ∃ sj id1 dh1, g.sockets[p.idx]? = some sj
        ∧ p ∈ (nwk_upstream_sckt cfg g.ip_local id1 dh1 (eth_ip_send p.idx) p.idx sj).sent := by
  intro p hp
  have hp' : p ∈ (nwk_upstream_loop cfg g.ip_local eth_ip_send 0 g.id g.default_header
      g.sockets).2.2.2.1 := by simpa [nwk_upstream] using hp
  obtain ⟨j, sj, id1, dh1, h1, h2, h3⟩ :=
    nwk_upstream_loop_sent cfg g.ip_local eth_ip_send g.sockets 0 g.id g.default_header p hp'
  rw [Nat.zero_add] at h2 h3
  rw [h2]
  exact ⟨sj, id1, dh1, h1, h3⟩

theorem tcp_process_out_of_window_clip (cfg : CONFIG) (s : SOCKET) (h : HEADER) (n f1 : Nat)
    (hsyn : h.flags &&& SYN = 0)
    (hn0 : 0 < n) (hsz0 : 0 < s.rx_size)
    (hout : rel_seq s h > s.rx_size
      ∨ (rel_seq s h + min n s.rx_size) % 4294967296 > s.rx_size) :
    tcp_process cfg s h n f1 = (nwk_schedule_oo_ack s, []) := by
  by_cases hclip : s.rx_size < n
  · have hmin : min n s.rx_size = s.rx_size := by omega
    rw [hmin] at hout
    have hd0 : s.rx_size ≠ 0 := by omega
    have hplace : rx_place s (rel_seq s h) s.rx_size
        = (nwk_schedule_oo_ack s, s.rx_size, true) := by
      unfold rx_place
      rw [if_pos hout]
      simp [hd0]
    simp only [SYN] at hsyn
    simp [tcp_process, tcp_seq_step, hclip, hplace, hsyn, SYN]
  · have hmin : min n s.rx_size = n := by omega
    rw [hmin] at hout
    exact tcp_process_out_of_window cfg s h n f1 hsyn hn0 (by omega) hout

theorem rel_seq_lt (s : SOCKET) (h : HEADER) : rel_seq s h < 4294967296 := by
  unfold rel_seq
  exact Nat.mod_lt _ (by decide)

theorem parse_tcp_ack_drop (cfg : CONFIG) (s : SOCKET) (h : HEADER) (len : Nat)
    (hack : h.flags &&& ACK ≠ 0)
    (hdiff : byte_order_swap_d h.n_ack ≠ s.seq % 4294967296)
    (hstate : SOCKET_STATE._CONNECT.toNat ≤ s.state.toNat) :
    parse_tcp cfg s h len = (s, []) := by
  have hd : ack_differs s h = true := by
    cases hb : ack_differs s h
    · exact absurd ((ack_differs_false_iff s h).mp hb) hdiff
    · rfl
  unfold parse_tcp
  simp only
  rw [if_pos ⟨hack, hd, hstate⟩]

theorem tick_retransmit_state (cfg : CONFIG) (s : SOCKET) :
    (tick_retransmit cfg s).state = s.state := by
  unfold tick_retransmit
  cases hs : s.state <;> simp [hs]

theorem nwk_tick_sckt_idle (cfg : CONFIG) (s : SOCKET) (hstate : s.state = SOCKET_STATE._IDLE) :
    (nwk_tick_sckt cfg s).1.state = SOCKET_STATE._IDLE := by
  unfold nwk_tick_sckt
  simp only
  split_ifs <;> simp [tick_retransmit_state, hstate]

theorem rx_place_state (s : SOCKET) (rel d : Nat) : (rx_place s rel d).1.state = s.state := by
  unfold rx_place
  simp only
  split_ifs <;> rfl

theorem rx_deliver_state (s : SOCKET) : (rx_deliver s).1.state = s.state := by
  unfold rx_deliver
  simp only
  split_ifs <;> simp

theorem tcp_seq_step_state (s : SOCKET) (h : HEADER) (n f1 : Nat) :
    (tcp_seq_step s h n f1).sckt.state = s.state := by
  unfold tcp_seq_step
  simp only
  split_ifs <;> simp [rx_place_state, rx_deliver_state]

theorem downstream_done_state (cfg : CONFIG) (s : SOCKET) (ev : WEEIP_EVENT) :
    (downstream_done cfg s ev).1.state = s.state := by
  unfold downstream_done
  simp only
  split_ifs <;> simp

theorem tcp_state_machine_idle (s : SOCKET) (f1 n : Nat) (hstate : s.state = SOCKET_STATE._IDLE) :
    tcp_state_machine s f1 n = (s, WEEIP_EVENT.WEEIP_EV_NONE) := by
  unfold tcp_state_machine
  simp [hstate]

theorem tcp_process_idle (cfg : CONFIG) (s : SOCKET) (h : HEADER) (n f1 : Nat)
    (hstate : s.state = SOCKET_STATE._IDLE) :
    (tcp_process cfg s h n f1).1.state = SOCKET_STATE._IDLE := by
  have ha := tcp_seq_step_state s h n f1
  rw [hstate] at ha
  unfold tcp_process
  generalize tcp_seq_step s h n f1 = a at ha
  simp only
  by_cases hd : a.drop = true
  · rw [if_pos hd]
    exact ha
  · rw [if_neg hd]
    by_cases hr : h.flags &&& RST ≠ 0
    · rw [if_pos hr, downstream_done_state]
    · rw [if_neg hr, downstream_done_state]
      by_cases hf : h.flags &&& FIN ≠ 0 ∨ a.sckt.state = SOCKET_STATE._FIN_REC
      · rw [if_pos hf]
        simp [tcp_state_machine, ha]
      · rw [if_neg hf]
        simp [tcp_state_machine, ha]

theorem parse_tcp_idle (cfg : CONFIG) (s : SOCKET) (h : HEADER) (len : Nat)
    (hstate : s.state = SOCKET_STATE._IDLE) :
    (parse_tcp cfg s h len).1.state = SOCKET_STATE._IDLE := by
  unfold parse_tcp
  simp only
  split_ifs
  · exact hstate
  · exact tcp_process_idle cfg s h _ _ hstate

theorem parse_udp_state (cfg : CONFIG) (s : SOCKET) (len : Nat) :
    (parse_udp cfg s len).1.state = s.state := by
  unfold parse_udp
  simp only
  rw [downstream_done_state]
  split_ifs <;> rfl

theorem nwk_downstream_sockets (cfg : CONFIG) (g : NWK) (f : RX_FRAME) :
    (nwk_downstream cfg g f).1.sockets = g.sockets
      ∨ ∃ j sj, sckt_search f.header 0 g.sockets = some (j, sj)
          ∧ ((nwk_downstream cfg g f).1.sockets
                = g.sockets.set j
                    (parse_tcp cfg (sckt_found sj f.header) f.header (NTOHS f.header.length)).1
              ∨ (nwk_downstream cfg g f).1.sockets
                = g.sockets.set j
                    (parse_udp cfg (sckt_found sj f.header) (NTOHS f.header.length)).1) := by
  unfold nwk_downstream
  simp only
  by_cases h1 : f.header.ver_length ≠ 0x45
  · rw [if_pos h1]; left; rfl
  rw [if_neg h1]
  by_cases h2 : f.chks ≠ 0xffff
  · rw [if_pos h2]; left; rfl
  rw [if_neg h2]
  by_cases h3 : f.header.destination ≠ 0xffffffff ∧ f.header.destination ≠ g.ip_local
      ∧ f.header.destination ≠ g.ip_broadcast ∧ g.ip_local ≠ 0
  · rw [if_pos h3]; left; rfl
  rw [if_neg h3]
  by_cases h4 : f.header.protocol = IP_PROTO_ICMP
  · rw [if_pos h4]; left; rfl
  rw [if_neg h4]
  cases hs : sckt_search f.header 0 g.sockets with
  | none => left; rfl
  | some p =>
    obtain ⟨j, sj⟩ := p
    right
    refine ⟨j, sj, rfl, ?_⟩
    by_cases h5 : f.header.protocol = IP_PROTO_TCP
    · left; simp only [if_pos h5]
    · right; simp only [if_neg h5]

theorem nwk_downstream_idle (cfg : CONFIG) (g : NWK) (f : RX_FRAME) (i : Nat) (s : SOCKET)
    (hget : g.sockets[i]? = some s) (hstate : s.state = SOCKET_STATE._IDLE) :
    ∃ s', (nwk_downstream cfg g f).1.sockets[i]? = some s'
      ∧ s'.state = SOCKET_STATE._IDLE := by
  rcases nwk_downstream_sockets cfg g f with h | ⟨j, sj, hs, h⟩
  · rw [h]
    exact ⟨s, hget, hstate⟩
  · have hj := (sckt_search_some f.header g.sockets 0 j sj hs).2.1
    rw [Nat.sub_zero] at hj
    by_cases hij : j = i
    · subst hij
      rw [hget] at hj
      cases hj
      have hlt : j < g.sockets.length := (List.getElem?_eq_some.mp hget).1
      have hf : (sckt_found s f.header).state = SOCKET_STATE._IDLE := hstate
      rcases h with h | h
      · rw [h]
        exact ⟨(parse_tcp cfg (sckt_found s f.header) f.header (NTOHS f.header.length)).1,
          by simp [hlt], parse_tcp_idle cfg _ _ _ hf⟩
      · rw [h]
        refine ⟨(parse_udp cfg (sckt_found s f.header) (NTOHS f.header.length)).1,
          by simp [hlt], ?_⟩
        rw [parse_udp_state]
        exact hf
    · rcases h with h | h <;> rw [h] <;> exact ⟨s, by simp [List.getElem?_set_ne hij, hget], hstate⟩

theorem tcp_state_machine_rx (s : SOCKET) (f1 n : Nat) :
    (tcp_state_machine s f1 n).1.rx_data = s.rx_data
      ∧ (tcp_state_machine s f1 n).1.rx_oo_start = s.rx_oo_start
      ∧ (tcp_state_machine s f1 n).1.rx_oo_end = s.rx_oo_end
      ∧ (tcp_state_machine s f1 n).1.rx_size = s.rx_size
      ∧ (tcp_state_machine s f1 n).1.remSeq = s.remSeq := by
  unfold tcp_state_machine
  cases hs : s.state <;> simp only <;> (try split_ifs) <;> simp

theorem downstream_done_rx (cfg : CONFIG) (s : SOCKET) (ev : WEEIP_EVENT) (h0 : s.rx_data = 0) :
    (downstream_done cfg s ev).1.rx_data = 0
      ∧ (downstream_done cfg s ev).1.rx_oo_start = s.rx_oo_start
      ∧ (downstream_done cfg s ev).1.rx_oo_end = s.rx_oo_end
      ∧ (downstream_done cfg s ev).1.rx_size = s.rx_size
      ∧ (downstream_done cfg s ev).1.remSeq = s.remSeq := by
  unfold downstream_done
  simp only
  split_ifs <;> simp [remove_rx_data, h0]

theorem downstream_done_calls (cfg : CONFIG) (s : SOCKET) (ev : WEEIP_EVENT) :
    (downstream_done cfg s ev).2.length ≤ 1
      ∧ ∀ c ∈ (downstream_done cfg s ev).2, c.1 = ev ∧ ev ≠ WEEIP_EVENT.WEEIP_EV_NONE := by
  unfold downstream_done
  simp only
  by_cases he : ev ≠ WEEIP_EVENT.WEEIP_EV_NONE
  · rw [if_pos he]
    simp [he]
  · rw [if_neg he]
    simp

/-- After the sequence number step has accepted a segment and left the in-order
region empty, the rest of nwk_downstream (RST, FIN, state machine and the code
after done) does not move the out-of-order extent; it leaves remSeq alone when
FIN is clear and the state is not FIN_REC, and it makes at most one callback. -/
theorem tcp_process_kept (cfg : CONFIG) (s : SOCKET) (h : HEADER) (n f1 : Nat)
    (hdrop : (tcp_seq_step s h n f1).drop = false)
    (h0 : (tcp_seq_step s h n f1).sckt.rx_data = 0) :
    (tcp_process cfg s h n f1).1.rx_data = 0
      ∧ (tcp_process cfg s h n f1).1.rx_oo_start = (tcp_seq_step s h n f1).sckt.rx_oo_start
      ∧ (tcp_process cfg s h n f1).1.rx_oo_end = (tcp_seq_step s h n f1).sckt.rx_oo_end
      ∧ (tcp_process cfg s h n f1).1.rx_size = (tcp_seq_step s h n f1).sckt.rx_size
      ∧ (h.flags &&& FIN = 0 → s.state ≠ SOCKET_STATE._FIN_REC →
          (tcp_process cfg s h n f1).1.remSeq = (tcp_seq_step s h n f1).sckt.remSeq)
      ∧ ∃ post, (tcp_process cfg s h n f1).2 = (tcp_seq_step s h n f1).calls ++ post
          ∧ post.length ≤ 1 := by
  have hst := tcp_seq_step_state s h n f1
  unfold tcp_process
  generalize tcp_seq_step s h n f1 = a at hdrop h0 hst
  simp only
  rw [if_neg (by rw [hdrop]; decide)]
  by_cases hr : h.flags &&& RST ≠ 0
  · rw [if_pos hr]
    simp only
    obtain ⟨d1, d2, d3, d4, d5⟩ := downstream_done_rx cfg { a.sckt with state := SOCKET_STATE._IDLE }
      (if a.data_size = 0 then WEEIP_EVENT.WEEIP_EV_DISCONNECT
        else WEEIP_EVENT.WEEIP_EV_DISCONNECT_WITH_DATA) h0
    exact ⟨d1, d2, d3, d4, fun _ _ => d5, _, rfl, (downstream_done_calls cfg _ _).1⟩
  · rw [if_neg hr]
    simp only
    by_cases hf : h.flags &&& FIN ≠ 0 ∨ a.sckt.state = SOCKET_STATE._FIN_REC
    · rw [if_pos hf]
      simp only
      obtain ⟨m1, m2, m3, m4, m5⟩ := tcp_state_machine_rx
        { a.sckt with remSeq := ((byte_order_swap_d h.n_seq + a.data_size) % 4294967296 + 1)
                        % 4294967296 } (a._flags ||| FIN) a.data_size
      obtain ⟨d1, d2, d3, d4, d5⟩ := downstream_done_rx cfg _
        (tcp_state_machine { a.sckt with
            remSeq := ((byte_order_swap_d h.n_seq + a.data_size) % 4294967296 + 1)
                        % 4294967296 } (a._flags ||| FIN) a.data_size).2 (m1.trans h0)
      refine ⟨d1, d2.trans m2, d3.trans m3, d4.trans m4, ?_, _, rfl,
        (downstream_done_calls cfg _ _).1⟩
      intro hfin hnf
      rcases hf with hf | hf
      · exact absurd hfin hf
      · rw [hst] at hf; exact absurd hf hnf
    · rw [if_neg hf]
      simp only
      obtain ⟨m1, m2, m3, m4, m5⟩ := tcp_state_machine_rx a.sckt a._flags a.data_size
      obtain ⟨d1, d2, d3, d4, d5⟩ := downstream_done_rx cfg _
        (tcp_state_machine a.sckt a._flags a.data_size).2 (m1.trans h0)
      exact ⟨d1, d2.trans m2, d3.trans m3, d4.trans m4, fun _ _ => d5.trans m5, _, rfl,
        (downstream_done_calls cfg _ _).1⟩

theorem tcp_seq_step_prepend (s : SOCKET) (h : HEADER) (n f1 : Nat)
    (hsyn : h.flags &&& SYN = 0) (hrx : s.rx_data = 0)
    (hrel : 0 < rel_seq s h) (hsum : rel_seq s h + n = s.rx_oo_start)
    (hse : s.rx_oo_start < s.rx_oo_end) (hes : s.rx_oo_end ≤ s.rx_size)
    (hsz : s.rx_size < 65536) :
    tcp_seq_step s h n f1 =
      { sckt := { s with rx_oo_end := (s.rx_oo_end + rel_seq s h) % 65536,
                         remSeq := s.remSeq % 4294967296, toSend := ACK },
        data_size := n, _flags := f1, calls := [], drop := false } := by
  have hclip : ¬ (n > s.rx_size) := by omega
  have h1 : ¬ (rel_seq s h > s.rx_size ∨ (rel_seq s h + n) % 4294967296 > s.rx_size) := by omega
  have h2 : u32_w0 (rel_seq s h) = rel_seq s h := by unfold u32_w0; omega
  have h3 : ¬ (rel_seq s h = s.rx_data) := by omega
  have h4 : ¬ (rel_seq s h = s.rx_oo_end) := by omega
  have h5 : (rel_seq s h + n) % 65536 = s.rx_oo_start := by omega
  have hplace : rx_place s (rel_seq s h) n
      = ({ s with rx_oo_end := (s.rx_oo_end + rel_seq s h) % 65536 }, n, false) := by
    unfold rx_place
    rw [if_neg h1, h2, if_neg h3, if_neg h4, if_pos h5]
  simp only [SYN] at hsyn
  simp [tcp_seq_step, hclip, hplace, hsyn, SYN, rx_deliver, hrx]

theorem tcp_seq_step_in_order_extent (s : SOCKET) (h : HEADER) (n f1 : Nat)
    (hsyn : h.flags &&& SYN = 0) (hrx : s.rx_data = 0)
    (hseq : byte_order_swap_d h.n_seq = s.remSeq)
    (hn0 : 0 < n) (hns : n < s.rx_oo_start)
    (hse : s.rx_oo_start < s.rx_oo_end) (hes : s.rx_oo_end ≤ s.rx_size)
    (hsz : s.rx_size < 65536) :
    tcp_seq_step s h n f1 =
      { sckt := { s with remSeq := (s.remSeq + n) % 4294967296, rx_data := 0,
                         rx_oo_start := s.rx_oo_start - n, rx_oo_end := s.rx_oo_end - n,
                         toSend := ACK },
        data_size := n, _flags := f1,
        calls := [(WEEIP_EVENT.WEEIP_EV_DATA,
                   { s with remSeq := (s.remSeq + n) % 4294967296, rx_data := n })],
        drop := false } := by
  have hclip : ¬ (n > s.rx_size) := by omega
  have hrel := rel_seq_in_order s h hseq
  have hplace := rx_place_in_order s n hrx (by omega) (by omega)
  have hn0' : n ≠ 0 := by omega
  have h1 : ¬ (n = s.rx_oo_start) := by omega
  have h2 : ¬ (s.rx_oo_start = 0) := by omega
  have h3 : (s.rx_oo_start + 65536 - n % 65536) % 65536 = s.rx_oo_start - n := by omega
  have h4 : (s.rx_oo_end + 65536 - n % 65536) % 65536 = s.rx_oo_end - n := by omega
  simp only [SYN] at hsyn
  simp [tcp_seq_step, hclip, hrel, hplace, hsyn, SYN, rx_deliver, remove_rx_data, hn0', h1, h2,
    h3, h4]

/-- Head extension as the code does it. A TCP socket with rx_data = 0 and an
extent [s, e), 0 < s < e <= rx_size < 65536, and a matched segment without SYN
that is not dropped by the ACK test, with n payload bytes at relative offset
rel, 0 < rel and rel + n = s. After nwk_downstream rx_oo_start is still s and
rx_oo_end is e + rel (modulo 2^16); rx_data is 0. -/
theorem head_extension_general (cfg : CONFIG) (g : NWK) (f : RX_FRAME) (i : Nat) (s : SOCKET)
    (n : Nat)
    (hm : tcp_segment_for g f i s)
    (hsyn : f.header.flags &&& SYN = 0)
    (hpass : ack_check_passes s f.header ∨ s.state.toNat < SOCKET_STATE._CONNECT.toNat)
    (hlen : NTOHS f.header.length = 40 + n)
    (hrx : s.rx_data = 0)
    (hrel : 0 < rel_seq s f.header) (hsum : rel_seq s f.header + n = s.rx_oo_start)
    (hse : s.rx_oo_start < s.rx_oo_end) (hes : s.rx_oo_end ≤ s.rx_size)
    (hsz : s.rx_size < 65536) :
    ∃ s', (nwk_downstream cfg g f).1.sockets[i]? = some s'
      ∧ s'.rx_data = 0 ∧ s'.rx_oo_start = s.rx_oo_start
      ∧ s'.rx_oo_end = (s.rx_oo_end + rel_seq s f.header) % 65536
      ∧ s'.rx_oo_end ≠ s.rx_oo_end := by
  have hstep := tcp_seq_step_prepend (sckt_found s f.header) f.header n (ack_flag f.header)
    hsyn hrx hrel hsum hse hes hsz
  obtain ⟨k1, k2, k3, _, _, _⟩ := tcp_process_kept cfg (sckt_found s f.header) f.header n
    (ack_flag f.header) (by rw [hstep]) (by rw [hstep]; exact hrx)
  rw [hstep] at k2 k3
  rw [nwk_downstream_process cfg hm hlen hpass]
  refine ⟨_, List.getElem?_set_self (tcp_segment_for_lt hm), k1, k2, k3, ?_⟩
  rw [k3]
  show (s.rx_oo_end + rel_seq s f.header) % 65536 ≠ s.rx_oo_end
  omega

theorem seq_step_accepts_of_payload (s : SOCKET) (h : HEADER) (n : Nat)
    (hempty : rx_empty s) (hsz : s.rx_size < 65536) (hn16 : n < 65536)
    (hacc : h.flags &&& SYN ≠ 0 ∨ payload_accepted s h n) : seq_step_accepts s h n :=
  (tcp_seq_step_accepted (sckt_found s h) h n (ack_flag h) hempty hsz hn16 hacc).1

theorem rx_deliver_calls (s : SOCKET) :
    ∀ c ∈ (rx_deliver s).2, c.1 = WEEIP_EVENT.WEEIP_EV_DATA := by
  unfold rx_deliver
  simp only
  split_ifs <;> simp

theorem tcp_seq_step_calls (s : SOCKET) (h : HEADER) (n f1 : Nat) :
    ∀ c ∈ (tcp_seq_step s h n f1).calls, c.1 = WEEIP_EVENT.WEEIP_EV_DATA := by
  unfold tcp_seq_step
  simp only
  by_cases hsyn : h.flags &&& SYN ≠ 0
  · rw [if_pos hsyn]
    simp
  · rw [if_neg hsyn]
    by_cases hd : (rx_place s (rel_seq s h) (if n > s.rx_size then s.rx_size else n)).2.2 = true
    · rw [if_pos hd]
      simp
    · rw [if_neg hd]
      exact rx_deliver_calls _

theorem tcp_seq_step_flags (s : SOCKET) (h : HEADER) (n f1 : Nat)
    (hsyn : h.flags &&& SYN = 0) : (tcp_seq_step s h n f1)._flags = f1 := by
  unfold tcp_seq_step
  simp only
  rw [if_neg (by rw [hsyn]; decide)]
  split_ifs <;> rfl

theorem ack_flag_set (h : HEADER) (hack : h.flags &&& ACK ≠ 0) : ack_flag h = 16 := by
  unfold ack_flag
  rw [if_pos hack]
  decide

theorem tcp_process_fin_sent (cfg : CONFIG) (s : SOCKET) (h : HEADER) (n : Nat)
    (hsyn : h.flags &&& SYN = 0) (hrst : h.flags &&& RST = 0) (hfin : h.flags &&& FIN ≠ 0)
    (hack : h.flags &&& ACK ≠ 0)
    (hdrop : (tcp_seq_step s h n (ack_flag h)).drop = false)
    (hstate : s.state = SOCKET_STATE._FIN_SENT) :
    (tcp_process cfg s h n (ack_flag h)).1.state = SOCKET_STATE._FIN_REC
      ∧ (tcp_process cfg s h n (ack_flag h)).1.toSend = ACK
      ∧ (tcp_process cfg s h n (ack_flag h)).1.retry = cfg.RETRIES_TCP
      ∧ ∃ d, (tcp_process cfg s h n (ack_flag h)).2 = (tcp_seq_step s h n (ack_flag h)).calls
          ++ [(WEEIP_EVENT.WEEIP_EV_DISCONNECT, d)] := by
  have hst := tcp_seq_step_state s h n (ack_flag h)
  have hfl : (tcp_seq_step s h n (ack_flag h))._flags = 16 :=
    (tcp_seq_step_flags s h n (ack_flag h) hsyn).trans (ack_flag_set h hack)
  rw [hstate] at hst
  unfold tcp_process
  generalize tcp_seq_step s h n (ack_flag h) = a at hdrop hst hfl
  simp only [hdrop, hrst, hfin, hfl, ne_eq, not_false_eq_true, not_true_eq_false, if_true,
    Bool.false_eq_true, if_false, true_or]
  simp [tcp_state_machine, downstream_done, hst, ACK, FIN]

theorem tcp_process_ack_wait_pure_ack (cfg : CONFIG) (s : SOCKET) (h : HEADER)
    (hflags : no_syn_fin_rst h) (hack : h.flags &&& ACK ≠ 0)
    (hstate : s.state = SOCKET_STATE._ACK_WAIT) (hrx : s.rx_data = 0)
    (hseq : byte_order_swap_d h.n_seq = s.remSeq) :
    tcp_process cfg s h 0 (ack_flag h)
      = ({ s with state := SOCKET_STATE._CONNECT, toSend := ACK, retry := cfg.RETRIES_TCP }, []) := by
  obtain ⟨hsyn, hfin, hrst⟩ := hflags
  have hrem : s.remSeq % 4294967296 = s.remSeq := by
    have := byte_order_swap_d_lt h.n_seq
    rw [hseq] at this
    omega
  have hrel := rel_seq_in_order s h hseq
  have hplace := rx_place_in_order s 0 hrx (Nat.zero_le _) (by decide)
  have hdel := rx_deliver_none { s with rx_data := 0 } rfl
  have hs : ({ s with rx_data := 0 } : SOCKET) = s := by
    cases s
    simp_all
  rw [hs] at hplace hdel
  simp only [SYN, FIN, RST] at hsyn hfin hrst
  simp [tcp_process, tcp_seq_step, hrel, hplace, hdel, hsyn, hfin, hrst, hrem,
    ack_flag_set h hack, tcp_state_machine, downstream_done, hstate, SYN, FIN, RST, ACK]

theorem rx_place_drop_iff (s : SOCKET) (rel d : Nat) (hsz : s.rx_size < 65536)
    (hd : d ≤ s.rx_size) (hrel : rel < 4294967296) :
    (rx_place s rel d).2.2 = false ↔
      (d = 0 ∨ (rel ≤ s.rx_size ∧ rel + d ≤ s.rx_size
        ∧ (rel = s.rx_data ∨ rel = s.rx_oo_end ∨ rel + d = s.rx_oo_start
            ∨ (rel + d < s.rx_size ∧ s.rx_oo_start = 0) ∨ rel = 0))) := by
  unfold rx_place u32_w0
  by_cases h1 : rel > s.rx_size ∨ (rel + d) % 4294967296 > s.rx_size
  · rw [if_pos h1]
    by_cases h0 : d = 0
    · simp [h0]
    · rw [if_pos h0]
      constructor
      · intro h
        simp at h
      · rintro (h | ⟨ha, hb, _⟩)
        · exact absurd h h0
        · omega
  · rw [if_neg h1]
    have e1 : rel % 65536 = rel := by omega
    have e2 : (rel + d) % 65536 = rel + d := by omega
    rw [e1, e2]
    by_cases h2 : rel = s.rx_data
    · rw [if_pos h2]
      simp only [true_iff]
      right
      exact ⟨by omega, by omega, Or.inl h2⟩
    · rw [if_neg h2]
      by_cases h3 : rel = s.rx_oo_end
      · rw [if_pos h3]
        simp only [true_iff]
        right
        exact ⟨by omega, by omega, Or.inr (Or.inl h3)⟩
      · rw [if_neg h3]
        by_cases h4 : rel + d = s.rx_oo_start
        · rw [if_pos h4]
          simp only [true_iff]
          right
          exact ⟨by omega, by omega, Or.inr (Or.inr (Or.inl h4))⟩
        · rw [if_neg h4]
          by_cases h5 : rel + d < s.rx_size ∧ s.rx_oo_start = 0
          · rw [if_pos h5]
            simp only [true_iff]
            right
            exact ⟨by omega, by omega, Or.inr (Or.inr (Or.inr (Or.inl h5)))⟩
          · rw [if_neg h5]
            by_cases h6 : rel ≠ 0
            · rw [if_pos h6]
              by_cases h0 : d = 0
              · simp [h0]
              · rw [if_pos h0]
                constructor
                · intro h
                  simp at h
                · rintro (h | ⟨_, _, h | h | h | h | h⟩)
                  · exact absurd h h0
                  · exact absurd h h2
                  · exact absurd h h3
                  · exact absurd h h4
                  · exact absurd h h5
                  · exact absurd h h6
            · rw [if_neg h6]
              simp only [true_iff]
              right
              exact ⟨by omega, by omega, Or.inr (Or.inr (Or.inr (Or.inr (by omega))))⟩

theorem rx_place_data_size (s : SOCKET) (rel d : Nat) (hsz : s.rx_size < 65536)
    (hrel : rel < 4294967296) : (rx_place s rel d).2.1 = d := by
  unfold rx_place u32_w0
  by_cases h1 : rel > s.rx_size ∨ (rel + d) % 4294967296 > s.rx_size
  · rw [if_pos h1]
    split_ifs <;> rfl
  · rw [if_neg h1]
    have e1 : rel % 65536 = rel := by omega
    rw [e1]
    by_cases h2 : rel = s.rx_data
    · rw [if_pos h2]
      have h3 : ¬ ((d + s.rx_data) % 65536 > s.rx_size) := by omega
      simp only [if_neg h3]
    · rw [if_neg h2]
      by_cases h3 : rel = s.rx_oo_end
      · rw [if_pos h3]
        have h4 : ¬ ((d + s.rx_oo_end) % 65536 > s.rx_size) := by omega
        simp only [if_neg h4]
      · rw [if_neg h3]
        split_ifs <;> rfl

theorem rx_place_rx_data_zero (s : SOCKET) (rel : Nat) (hrx : s.rx_data = 0) :
    (rx_place s rel 0).1.rx_data = 0 := by
  unfold rx_place nwk_schedule_oo_ack
  split_ifs <;> simp_all

theorem tcp_seq_step_drop_iff (s : SOCKET) (h : HEADER) (n f1 : Nat) (hsz : s.rx_size < 65536) :
    (tcp_seq_step s h n f1).drop = false ↔ segment_placed s h n := by
  unfold tcp_seq_step segment_placed
  by_cases hsyn : h.flags &&& SYN ≠ 0
  · simp only [if_pos hsyn]
    simp [hsyn]
  · simp only [if_neg hsyn]
    have hmin : (if n > s.rx_size then s.rx_size else n) = min n s.rx_size := by
      split_ifs <;> omega
    rw [hmin]
    have hiff := rx_place_drop_iff s (rel_seq s h) (min n s.rx_size) hsz (Nat.min_le_right _ _)
      (rel_seq_lt s h)
    by_cases hd : (rx_place s (rel_seq s h) (min n s.rx_size)).2.2 = true
    · rw [if_pos hd]
      have hnot : ¬ ((rx_place s (rel_seq s h) (min n s.rx_size)).2.2 = false) := by
        rw [hd]; decide
      constructor
      · intro h'
        simp at h'
      · rintro (h' | h')
        · exact absurd h' hsyn
        · exact absurd (hiff.mpr h') hnot
    · rw [if_neg hd]
      have hf : (rx_place s (rel_seq s h) (min n s.rx_size)).2.2 = false := by
        simpa using hd
      constructor
      · intro _
        exact Or.inr (hiff.mp hf)
      · intro _
        rfl

theorem seq_step_accepts_iff (s : SOCKET) (h : HEADER) (n : Nat) (hsz : s.rx_size < 65536) :
    seq_step_accepts s h n ↔ segment_placed s h n :=
  tcp_seq_step_drop_iff (sckt_found s h) h n (ack_flag h) hsz

theorem tcp_seq_step_data_size (s : SOCKET) (h : HEADER) (n f1 : Nat)
    (hsz : s.rx_size < 65536) :
    (tcp_seq_step s h n f1).data_size
      = if h.flags &&& SYN ≠ 0 then n else min n s.rx_size := by
  unfold tcp_seq_step
  by_cases hsyn : h.flags &&& SYN ≠ 0
  · simp only [if_pos hsyn]
  · simp only [if_neg hsyn]
    have hmin : (if n > s.rx_size then s.rx_size else n) = min n s.rx_size := by
      split_ifs <;> omega
    rw [hmin]
    have hds := rx_place_data_size s (rel_seq s h) (min n s.rx_size) hsz (rel_seq_lt s h)
    split_ifs <;> exact hds

theorem rx_deliver_calls_le (s : SOCKET) : (rx_deliver s).2.length ≤ 1 := by
  unfold rx_deliver
  simp only
  split_ifs <;> simp

theorem tcp_seq_step_calls_le (s : SOCKET) (h : HEADER) (n f1 : Nat) :
    (tcp_seq_step s h n f1).calls.length ≤ 1 := by
  unfold tcp_seq_step
  simp only
  by_cases hsyn : h.flags &&& SYN ≠ 0
  · rw [if_pos hsyn]
    simp
  · rw [if_neg hsyn]
    by_cases hd : (rx_place s (rel_seq s h) (if n > s.rx_size then s.rx_size else n)).2.2 = true
    · rw [if_pos hd]
      simp
    · rw [if_neg hd]
      exact rx_deliver_calls_le _

theorem tcp_seq_step_no_calls (s : SOCKET) (h : HEADER) (f1 : Nat) (hrx : s.rx_data = 0) :
    (tcp_seq_step s h 0 f1).calls = [] := by
  unfold tcp_seq_step
  simp only
  by_cases hsyn : h.flags &&& SYN ≠ 0
  · rw [if_pos hsyn]
  · rw [if_neg hsyn]
    have h0 : (if 0 > s.rx_size then s.rx_size else 0) = 0 := by
      split_ifs <;> omega
    rw [h0]
    by_cases hd : (rx_place s (rel_seq s h) 0).2.2 = true
    · rw [if_pos hd]
    · rw [if_neg hd]
      simp only
      rw [rx_deliver_none _ (rx_place_rx_data_zero s (rel_seq s h) hrx)]

theorem segment_placed_of_payload (s : SOCKET) (h : HEADER) (n : Nat) (hempty : rx_empty s)
    (hacc : h.flags &&& SYN ≠ 0 ∨ payload_accepted s h n) : segment_placed s h n := by
  obtain ⟨hrx, hoos, _⟩ := hempty
  unfold segment_placed
  rcases hacc with h1 | h1 | ⟨h1, h2⟩ | h1
  · exact Or.inl h1
  · right; left
    rw [h1]
    exact Nat.zero_min _
  · right; right
    have hmin : min n s.rx_size = n := by omega
    rw [hmin, h1]
    exact ⟨Nat.zero_le _, by omega, Or.inl hrx.symm⟩
  · right; right
    have hmin : min n s.rx_size = n := by omega
    rw [hmin]
    exact ⟨by omega, by omega, Or.inr (Or.inr (Or.inr (Or.inl ⟨h1, hoos⟩)))⟩

/-- The switch of the state machine never leaves a socket that entered it in
FIN_SENT in IDLE: the assignment of IDLE in the case FIN_SENT runs only when
FIN or ACK is set, and the tests that follow it then overwrite the state. -/
theorem fin_sent_never_idle (s : SOCKET) (f1 n : Nat)
    (hstate : s.state = SOCKET_STATE._FIN_SENT) :
    (tcp_state_machine s f1 n).1.state ≠ SOCKET_STATE._IDLE := by
  have hor : f1 &&& (FIN ||| ACK) ≠ 0 → f1 &&& ACK ≠ 0 ∨ f1 &&& FIN ≠ 0 := by
    intro h
    by_contra hc
    push_neg at hc
    apply h
    simp only [FIN, ACK] at *
    apply Nat.eq_of_testBit_eq
    intro k
    have ha := congrArg (fun x => x.testBit k) hc.1
    have hf := congrArg (fun x => x.testBit k) hc.2
    simp only [Nat.testBit_and, Nat.zero_testBit, Nat.testBit_or] at ha hf ⊢
    cases hb : f1.testBit k <;> simp_all
  unfold tcp_state_machine
  simp only [hstate]
  by_cases ha : f1 &&& ACK ≠ 0 <;> by_cases hf : f1 &&& FIN ≠ 0 <;>
  by_cases hfa : f1 &&& (FIN ||| ACK) ≠ 0
  all_goals first
    | (simp [ha, hf, hfa, hstate]; done)
    | (exfalso; rcases hor hfa with h | h <;> contradiction)

/-- FIN|ACK in FIN_SENT as the code does it. A TCP socket in state FIN_SENT
receives a matched segment with FIN and ACK set (SYN and RST clear) that passes
the ACK test and that the sequence number step does not drop. nwk_downstream
leaves the socket in state FIN_REC, not in IDLE, with toSend = ACK and
retry = RETRIES_TCP; the last callback made is DISCONNECT, and any callback
before it is a DATA callback of the reassembly step. -/
theorem fin_sent_fin_ack_general (cfg : CONFIG) (g : NWK) (f : RX_FRAME) (i : Nat) (s : SOCKET)
    (n : Nat)
    (hm : tcp_segment_for g f i s)
    (hstate : s.state = SOCKET_STATE._FIN_SENT)
    (hfin : f.header.flags &&& FIN ≠ 0) (hackf : f.header.flags &&& ACK ≠ 0)
    (hsyn : f.header.flags &&& SYN = 0) (hrst : f.header.flags &&& RST = 0)
    (hack : ack_check_passes s f.header)
    (hlen : NTOHS f.header.length = 40 + n)
    (hacc : seq_step_accepts s f.header n) :
    ∃ s' pre d, (nwk_downstream cfg g f).1.sockets[i]? = some s'
      ∧ s'.state = SOCKET_STATE._FIN_REC ∧ s'.toSend = ACK ∧ s'.retry = cfg.RETRIES_TCP
      ∧ (nwk_downstream cfg g f).2
          = pre ++ [{ idx := i, ev := WEEIP_EVENT.WEEIP_EV_DISCONNECT, sckt := d }]
      ∧ ∀ c ∈ pre, c.ev = WEEIP_EVENT.WEEIP_EV_DATA := by
  obtain ⟨h1, h2, h3, d, hlog⟩ := tcp_process_fin_sent cfg (sckt_found s f.header) f.header n
    hsyn hrst hfin hackf hacc hstate
  rw [nwk_downstream_process cfg hm hlen (Or.inl hack)]
  dsimp only
  rw [hlog, upcalls_append_single]
  exact ⟨_, _, d, List.getElem?_set_self (tcp_segment_for_lt hm), h1, h2, h3, rfl,
    upcalls_all_data i _ (tcp_seq_step_calls _ _ _ _)⟩

/-! ## The claims -/

/-- C1. Passive open: a socket in LISTEN that receives a matched, well-formed
segment with SYN set (FIN and RST clear) carrying the remote sequence number r
is left in SYN_REC with toSend = SYN|ACK, remSeqStart = r, remSeq = r + 1
modulo 2^32 and retry = RETRIES_TCP, and no callback is made. -/
theorem C1_passive_open (cfg : CONFIG) (g : NWK) (f : RX_FRAME) (i : Nat) (s : SOCKET) (r : Nat)
    (hm : tcp_segment_for g f i s)
    (hstate : s.state = SOCKET_STATE._LISTEN)
    (hsyn : f.header.flags &&& SYN ≠ 0) (hfin : f.header.flags &&& FIN = 0)
    (hrst : f.header.flags &&& RST = 0)
    (hr : byte_order_swap_d f.header.n_seq = r) :
    ∃ s', (nwk_downstream cfg g f).1.sockets[i]? = some s'
      ∧ s'.state = SOCKET_STATE._SYN_REC ∧ s'.toSend = SYN ||| ACK
      ∧ s'.remSeqStart = r ∧ s'.remSeq = (r + 1) % 4294967296
      ∧ s'.retry = cfg.RETRIES_TCP
      ∧ (nwk_downstream cfg g f).2 = [] := by
  have hlt := tcp_segment_for_lt hm
  rw [nwk_downstream_eq cfg hm]
  have key : parse_tcp cfg (sckt_found s f.header) f.header (NTOHS f.header.length) =
      ({ (sckt_found s f.header) with
          state := SOCKET_STATE._SYN_REC, toSend := SYN ||| ACK,
          remSeq := (byte_order_swap_d f.header.n_seq + 1) % 4294967296,
          remSeqStart := byte_order_swap_d f.header.n_seq,
          retry := cfg.RETRIES_TCP }, []) := by
    have hst : (sckt_found s f.header).state = SOCKET_STATE._LISTEN := hstate
    simp only [SYN, FIN, RST] at hsyn hfin hrst
    rcases ack_flag_cases f.header with hA | hA <;>
    simp [parse_tcp, tcp_process, hA, tcp_seq_step, tcp_state_machine, downstream_done, hst, hsyn,
      hfin, hrst, SOCKET_STATE.toNat, SYN, ACK, FIN, RST]
  rw [key]
  refine ⟨_, List.getElem?_set_self hlt, rfl, rfl, hr, by rw [← hr], rfl, rfl⟩

/-- A concrete instance: a table of one listening socket receives a SYN with
remote sequence number 1000. -/
theorem C1_passive_open_witness :
    ∃ s', (nwk_downstream ex_cfg (ex_nwk ex_listen) (ex_frame SYN 1000 0 0)).1.sockets[0]? = some s'
      ∧ s'.state = SOCKET_STATE._SYN_REC ∧ s'.toSend = SYN ||| ACK
      ∧ s'.remSeqStart = 1000 ∧ s'.remSeq = (1000 + 1) % 4294967296
      ∧ s'.retry = ex_cfg.RETRIES_TCP
      ∧ (nwk_downstream ex_cfg (ex_nwk ex_listen) (ex_frame SYN 1000 0 0)).2 = [] :=
  C1_passive_open ex_cfg _ (ex_frame SYN 1000 0 0) 0 ex_listen 1000 (by decide) rfl (by decide)
    (by decide) (by decide) (by decide)

/-- C2, evaluation at the failing input. A socket in SYN_SENT with seq = 5000,
toSend = SYN, timeout = false and remSeq = 1, remSeqStart = 0: nwk_upstream
emits the SYN with sequence number 5000, and because remSeq differs from
remSeqStart it also advances seq to 5001; the SYN|ACK with remote sequence
number 9000 and ack number 5001 is matched, the state machine adds one more,
and the socket ends in CONNECT with seq = 5002 (the claim says 5001),
remSeq = 9001, toSend = ACK, CONNECT delivered. -/
theorem C2_active_open_seq_advanced_twice :
    ex_syn_sent.state = SOCKET_STATE._SYN_SENT ∧ ex_syn_sent.seq = 5000
      ∧ ex_syn_sent.toSend = SYN ∧ ex_syn_sent.timeout = false
      ∧ (nwk_upstream ex_cfg true (fun _ => true) (ex_nwk ex_syn_sent)).sent.map
          (fun p => (byte_order_swap_d p.header.n_seq, p.header.flags)) = [(5000, SYN)]
      ∧ (nwk_upstream ex_cfg true (fun _ => true) (ex_nwk ex_syn_sent)).nwk.sockets.map
          SOCKET.seq = [5001]
      ∧ (nwk_downstream ex_cfg (nwk_upstream ex_cfg true (fun _ => true) (ex_nwk ex_syn_sent)).nwk
          (ex_frame (SYN ||| ACK) 9000 5001 0)).1.sockets.map
            (fun c => (c.state, c.seq, c.remSeq, c.toSend))
          = [(SOCKET_STATE._CONNECT, 5002, 9001, ACK)]
      ∧ (nwk_downstream ex_cfg (nwk_upstream ex_cfg true (fun _ => true) (ex_nwk ex_syn_sent)).nwk
          (ex_frame (SYN ||| ACK) 9000 5001 0)).2.map (fun c => (c.idx, c.ev))
          = [(0, WEEIP_EVENT.WEEIP_EV_CONNECT)] := by
  decide

/-- C3. In-order data: a socket in CONNECT with an empty receive buffer that
receives a matched segment without SYN, FIN, RST, passing the ACK test, whose
sequence number is remSeq and whose payload has n bytes, 0 < n <= rx_size:
the DATA callback runs while rx_data = n, and afterwards rx_data = 0, remSeq
has advanced by n modulo 2^32, toSend = ACK and the state is still CONNECT. -/
theorem C3_in_order_data (cfg : CONFIG) (g : NWK) (f : RX_FRAME) (i : Nat) (s : SOCKET) (n : Nat)
    (hm : tcp_segment_for g f i s)
    (hstate : s.state = SOCKET_STATE._CONNECT)
    (hempty : rx_empty s)
    (hflags : no_syn_fin_rst f.header)
    (hack : ack_check_passes s f.header)
    (hseq : byte_order_swap_d f.header.n_seq = s.remSeq)
    (hlen : NTOHS f.header.length = 40 + n)
    (hn0 : 0 < n) (hn : n ≤ s.rx_size) :
    ∃ s' d, (nwk_downstream cfg g f).1.sockets[i]? = some s'
      ∧ { idx := i, ev := WEEIP_EVENT.WEEIP_EV_DATA, sckt := d } ∈ (nwk_downstream cfg g f).2
      ∧ d.rx_data = n
      ∧ s'.rx_data = 0 ∧ s'.remSeq = (s.remSeq + n) % 4294967296 ∧ s'.toSend = ACK
      ∧ s'.state = SOCKET_STATE._CONNECT := by
  have hlt := tcp_segment_for_lt hm
  have hn16 : n < 65536 := by have := NTOHS_lt f.header.length; omega
  obtain ⟨hrx, hoos, _⟩ := hempty
  obtain ⟨hsyn, hfin, hrst⟩ := hflags
  rw [nwk_downstream_process cfg hm hlen (Or.inl hack)]
  rw [tcp_process_connect_in_order cfg (sckt_found s f.header) f.header n _
    (ack_flag_cases f.header) hstate hrx hoos hsyn hfin hrst hseq hn0 hn hn16]
  dsimp only
  refine ⟨_, ?d, List.getElem?_set_self hlt, ?hB, ?hC, rfl, rfl, rfl, hstate⟩
  case hB => exact List.mem_cons_self _ _
  case hC => rfl

/-- A concrete instance: 100 bytes at sequence number 9001 for a socket in
CONNECT with remSeq = 9001. -/
theorem C3_in_order_data_witness :
    ∃ s' d, (nwk_downstream ex_cfg (ex_nwk ex_sckt) (ex_frame ACK 9001 5000 100)).1.sockets[0]?
        = some s'
      ∧ { idx := 0, ev := WEEIP_EVENT.WEEIP_EV_DATA, sckt := d }
          ∈ (nwk_downstream ex_cfg (ex_nwk ex_sckt) (ex_frame ACK 9001 5000 100)).2
      ∧ d.rx_data = 100
      ∧ s'.rx_data = 0 ∧ s'.remSeq = (ex_sckt.remSeq + 100) % 4294967296 ∧ s'.toSend = ACK
      ∧ s'.state = SOCKET_STATE._CONNECT :=
  C3_in_order_data ex_cfg (ex_nwk ex_sckt) (ex_frame ACK 9001 5000 100) 0 ex_sckt 100
    (by decide) rfl (by decide) (by decide) (by decide) (by decide) (by decide) (by decide)
    (by decide)

/-- C4. Single out-of-order segment: a socket in CONNECT with an empty receive
buffer, a > 0, b > 0, a + b < rx_size. A segment of b bytes at sequence number
remSeq + a leaves rx_data = 0, remSeq unchanged and the extent [a, a + b).
The segment of a bytes at remSeq that follows is merged with it: the DATA
callback runs while rx_data = a + b, the extent is cleared, and remSeq has
advanced by a + b. -/
theorem C4_single_out_of_order (cfg : CONFIG) (g : NWK) (fB fA : RX_FRAME) (i : Nat)
    (s : SOCKET) (a b : Nat)
    (hmB : tcp_segment_for g fB i s) (hflow : same_flow fB fA)
    (hstate : s.state = SOCKET_STATE._CONNECT)
    (hempty : rx_empty s) (hsz : s.rx_size < 65536)
    (ha : 0 < a) (hb : 0 < b) (hab : a + b < s.rx_size)
    (hflagsB : no_syn_fin_rst fB.header) (hackB : ack_check_passes s fB.header)
    (hseqB : byte_order_swap_d fB.header.n_seq = (s.remSeq + a) % 4294967296)
    (hlenB : NTOHS fB.header.length = 40 + b)
    (hflagsA : no_syn_fin_rst fA.header) (hackA : ack_check_passes s fA.header)
    (hseqA : byte_order_swap_d fA.header.n_seq = s.remSeq)
    (hlenA : NTOHS fA.header.length = 40 + a) :
    ∃ s1 s2 d, (nwk_downstream cfg g fB).1.sockets[i]? = some s1
      ∧ s1.rx_data = 0 ∧ s1.remSeq = s.remSeq ∧ s1.rx_oo_start = a ∧ s1.rx_oo_end = a + b
      ∧ (nwk_downstream cfg (nwk_downstream cfg g fB).1 fA).1.sockets[i]? = some s2
      ∧ { idx := i, ev := WEEIP_EVENT.WEEIP_EV_DATA, sckt := d }
          ∈ (nwk_downstream cfg (nwk_downstream cfg g fB).1 fA).2
      ∧ d.rx_data = a + b
      ∧ s2.rx_data = 0 ∧ s2.rx_oo_start = 0 ∧ s2.rx_oo_end = 0
      ∧ s2.remSeq = (s.remSeq + (a + b)) % 4294967296 := by
  have hlt := tcp_segment_for_lt hmB
  have hrem : s.remSeq < 4294967296 := by rw [← hseqA]; exact byte_order_swap_d_lt _
  have hmod : s.remSeq % 4294967296 = s.remSeq := Nat.mod_eq_of_lt hrem
  obtain ⟨hrx, hoos, hooe⟩ := hempty
  obtain ⟨hsynB, hfinB, hrstB⟩ := hflagsB
  obtain ⟨hsynA, hfinA, hrstA⟩ := hflagsA
  have hrelB : rel_seq (sckt_found s fB.header) fB.header = a :=
    rel_seq_ahead _ _ a hseqB hrem (by omega)
  have stepB := tcp_process_connect_stash cfg (sckt_found s fB.header) fB.header b _
    (ack_flag_cases fB.header) hstate hrx hoos hooe hsynB hfinB hrstB
    (by rw [hrelB]; exact ha) (by rw [hrelB]; exact hab) hsz hb
  rw [hrelB] at stepB
  obtain ⟨s1, hs1⟩ : ∃ s1 : SOCKET, s1 = { (sckt_found s fB.header) with
      rx_oo_start := a, rx_oo_end := a + b, remSeq := s.remSeq % 4294967296, toSend := ACK,
      retry := cfg.RETRIES_TCP } := ⟨_, rfl⟩
  have eqB : nwk_downstream cfg g fB
      = ({ g with sockets := g.sockets.set i s1 },
         upcalls i [(WEEIP_EVENT.WEEIP_EV_DATA, s1)]) := by
    rw [nwk_downstream_process cfg hmB hlenB (Or.inl hackB), stepB, hs1]
    rfl
  have hmA : tcp_segment_for { g with sockets := g.sockets.set i s1 } fA i s1 := by
    apply tcp_segment_for_next hmB fA hflow s1 <;> rw [hs1] <;> rfl
  have stepA := tcp_process_connect_merge cfg (sckt_found s1 fA.header) fA.header a _
    (ack_flag_cases fA.header) (by rw [hs1]; exact hstate) (by rw [hs1]; exact hrx)
    (by rw [hs1]; rfl) (by rw [hs1]; show a + b ≠ 0; omega) hsynA hfinA hrstA
    (by rw [hs1]; show _ = s.remSeq % 4294967296; rw [hmod]; exact hseqA) ha
    (by rw [hs1]; show a ≤ s.rx_size; omega) (by omega)
  have hackA1 : ack_check_passes s1 fA.header := by rw [hs1]; exact hackA
  have eqA := nwk_downstream_process cfg hmA hlenA (Or.inl hackA1)
  rw [stepA] at eqA
  simp only [eqB, eqA]
  refine ⟨s1, _, ?d, List.getElem?_set_self hlt, ?_, ?_, ?_, ?_,
    List.getElem?_set_self (by rw [List.length_set]; exact hlt), ?hmem, ?hd, rfl, rfl, rfl, ?_⟩
  case hmem => exact List.mem_cons_self _ _
  case hd => rw [hs1]; rfl
  · rw [hs1]; exact hrx
  · rw [hs1]; exact hmod
  · rw [hs1]
  · rw [hs1]
  · rw [hs1]
    show (s.remSeq % 4294967296 + (a + b)) % 4294967296 = _
    rw [hmod]

/-- A concrete instance: 100 bytes at 9101 first, then 100 bytes at 9001, for a
socket in CONNECT with remSeq = 9001 and a buffer of 1000 bytes. -/
theorem C4_single_out_of_order_witness :
    ∃ s1 s2 d,
      (nwk_downstream ex_cfg (ex_nwk ex_sckt) (ex_frame ACK 9101 5000 100)).1.sockets[0]? = some s1
      ∧ s1.rx_data = 0 ∧ s1.remSeq = ex_sckt.remSeq ∧ s1.rx_oo_start = 100
      ∧ s1.rx_oo_end = 100 + 100
      ∧ (nwk_downstream ex_cfg
            (nwk_downstream ex_cfg (ex_nwk ex_sckt) (ex_frame ACK 9101 5000 100)).1
            (ex_frame ACK 9001 5000 100)).1.sockets[0]? = some s2
      ∧ { idx := 0, ev := WEEIP_EVENT.WEEIP_EV_DATA, sckt := d }
          ∈ (nwk_downstream ex_cfg
              (nwk_downstream ex_cfg (ex_nwk ex_sckt) (ex_frame ACK 9101 5000 100)).1
              (ex_frame ACK 9001 5000 100)).2
      ∧ d.rx_data = 100 + 100
      ∧ s2.rx_data = 0 ∧ s2.rx_oo_start = 0 ∧ s2.rx_oo_end = 0
      ∧ s2.remSeq = (ex_sckt.remSeq + (100 + 100)) % 4294967296 :=
  C4_single_out_of_order ex_cfg (ex_nwk ex_sckt) (ex_frame ACK 9101 5000 100)
    (ex_frame ACK 9001 5000 100) 0 ex_sckt 100 100 (by decide) (by decide) rfl (by decide)
    (by decide) (by decide) (by decide) (by decide) (by decide) (by decide) (by decide)
    (by decide) (by decide) (by decide) (by decide) (by decide)

/-- C5 (as amended). Reordering law: a socket in CONNECT with an empty receive
buffer and two adjacent non-empty segments, A of a bytes at remSeq and B of b
bytes at remSeq + a, that together end strictly before the end of the buffer
(a + b < rx_size). Processing A then B and processing B then A leave the same
remSeq, the same rx_data, rx_oo_start and rx_oo_end, and hand the same number
of bytes to the DATA callbacks. -/
theorem C5_reordering (cfg : CONFIG) (g : NWK) (fA fB : RX_FRAME) (i : Nat)
    (s : SOCKET) (a b : Nat)
    (hmA : tcp_segment_for g fA i s) (hflow : same_flow fA fB)
    (hstate : s.state = SOCKET_STATE._CONNECT)
    (hempty : rx_empty s) (hsz : s.rx_size < 65536)
    (ha : 0 < a) (hb : 0 < b) (hab : a + b < s.rx_size)
    (hflagsA : no_syn_fin_rst fA.header) (hackA : ack_check_passes s fA.header)
    (hseqA : byte_order_swap_d fA.header.n_seq = s.remSeq)
    (hlenA : NTOHS fA.header.length = 40 + a)
    (hflagsB : no_syn_fin_rst fB.header) (hackB : ack_check_passes s fB.header)
    (hseqB : byte_order_swap_d fB.header.n_seq = (s.remSeq + a) % 4294967296)
    (hlenB : NTOHS fB.header.length = 40 + b) :
    ∃ sAB sBA,
      (nwk_downstream cfg (nwk_downstream cfg g fA).1 fB).1.sockets[i]? = some sAB
      ∧ (nwk_downstream cfg (nwk_downstream cfg g fB).1 fA).1.sockets[i]? = some sBA
      ∧ sAB.remSeq = sBA.remSeq ∧ sAB.rx_data = sBA.rx_data
      ∧ sAB.rx_oo_start = sBA.rx_oo_start ∧ sAB.rx_oo_end = sBA.rx_oo_end
      ∧ data_bytes ((nwk_downstream cfg g fA).2
            ++ (nwk_downstream cfg (nwk_downstream cfg g fA).1 fB).2)
          = data_bytes ((nwk_downstream cfg g fB).2
            ++ (nwk_downstream cfg (nwk_downstream cfg g fB).1 fA).2) := by
  have hlt := tcp_segment_for_lt hmA
  have hmB := tcp_segment_for_flow hmA fB hflow
  have hrem : s.remSeq < 4294967296 := by rw [← hseqA]; exact byte_order_swap_d_lt _
  have hmod : s.remSeq % 4294967296 = s.remSeq := Nat.mod_eq_of_lt hrem
  have ha16 : a < 65536 := by have := NTOHS_lt fA.header.length; omega
  have hb16 : b < 65536 := by have := NTOHS_lt fB.header.length; omega
  obtain ⟨hrx, hoos, hooe⟩ := hempty
  obtain ⟨hsynB, hfinB, hrstB⟩ := hflagsB
  obtain ⟨hsynA, hfinA, hrstA⟩ := hflagsA
  -- A first
  have stepA := tcp_process_connect_in_order cfg (sckt_found s fA.header) fA.header a _
    (ack_flag_cases fA.header) hstate hrx hoos hsynA hfinA hrstA hseqA ha (by show a ≤ s.rx_size; omega)
    ha16
  obtain ⟨t1, ht1⟩ : ∃ t1 : SOCKET, t1 = { (sckt_found s fA.header) with
      remSeq := (s.remSeq + a) % 4294967296, rx_data := 0, toSend := ACK,
      retry := cfg.RETRIES_TCP } := ⟨_, rfl⟩
  have eqA : nwk_downstream cfg g fA
      = ({ g with sockets := g.sockets.set i t1 },
         upcalls i [(WEEIP_EVENT.WEEIP_EV_DATA,
            { (sckt_found s fA.header) with remSeq := (s.remSeq + a) % 4294967296, rx_data := a }),
          (WEEIP_EVENT.WEEIP_EV_DATA, t1)]) := by
    rw [nwk_downstream_process cfg hmA hlenA (Or.inl hackA), stepA, ht1]
    rfl
  have hmB2 : tcp_segment_for { g with sockets := g.sockets.set i t1 } fB i t1 := by
    apply tcp_segment_for_next hmA fB hflow t1 <;> rw [ht1] <;> rfl
  have stepAB := tcp_process_connect_in_order cfg (sckt_found t1 fB.header) fB.header b _
    (ack_flag_cases fB.header) (by rw [ht1]; exact hstate) (by rw [ht1]; rfl)
    (by rw [ht1]; exact hoos) hsynB hfinB hrstB (by rw [ht1]; exact hseqB) hb
    (by rw [ht1]; show b ≤ s.rx_size; omega) hb16
  have hackB2 : ack_check_passes t1 fB.header := by rw [ht1]; exact hackB
  have eqAB := nwk_downstream_process cfg hmB2 hlenB (Or.inl hackB2)
  rw [stepAB] at eqAB
  -- B first
  have hrelB : rel_seq (sckt_found s fB.header) fB.header = a :=
    rel_seq_ahead _ _ a hseqB hrem (by omega)
  have stepB := tcp_process_connect_stash cfg (sckt_found s fB.header) fB.header b _
    (ack_flag_cases fB.header) hstate hrx hoos hooe hsynB hfinB hrstB
    (by rw [hrelB]; exact ha) (by rw [hrelB]; exact hab) hsz hb
  rw [hrelB] at stepB
  obtain ⟨s1, hs1⟩ : ∃ s1 : SOCKET, s1 = { (sckt_found s fB.header) with
      rx_oo_start := a, rx_oo_end := a + b, remSeq := s.remSeq % 4294967296, toSend := ACK,
      retry := cfg.RETRIES_TCP } := ⟨_, rfl⟩
  have eqB : nwk_downstream cfg g fB
      = ({ g with sockets := g.sockets.set i s1 },
         upcalls i [(WEEIP_EVENT.WEEIP_EV_DATA, s1)]) := by
    rw [nwk_downstream_process cfg hmB hlenB (Or.inl hackB), stepB, hs1]
    rfl
  have hmA2 : tcp_segment_for { g with sockets := g.sockets.set i s1 } fA i s1 := by
    apply tcp_segment_for_next hmB fA (same_flow_symm hflow) s1 <;> rw [hs1] <;> rfl
  have stepBA := tcp_process_connect_merge cfg (sckt_found s1 fA.header) fA.header a _
    (ack_flag_cases fA.header) (by rw [hs1]; exact hstate) (by rw [hs1]; exact hrx)
    (by rw [hs1]; rfl) (by rw [hs1]; show a + b ≠ 0; omega) hsynA hfinA hrstA
    (by rw [hs1]; show _ = s.remSeq % 4294967296; rw [hmod]; exact hseqA) ha
    (by rw [hs1]; show a ≤ s.rx_size; omega) ha16
  have hackA2 : ack_check_passes s1 fA.header := by rw [hs1]; exact hackA
  have eqBA := nwk_downstream_process cfg hmA2 hlenA (Or.inl hackA2)
  rw [stepBA] at eqBA
  simp only [eqA, eqAB, eqB, eqBA]
  refine ⟨_, _, List.getElem?_set_self (by rw [List.length_set]; exact hlt),
    List.getElem?_set_self (by rw [List.length_set]; exact hlt), ?_, rfl, ?_, ?_, ?_⟩
  · rw [ht1, hs1]
    show ((s.remSeq + a) % 4294967296 + b) % 4294967296
      = (s.remSeq % 4294967296 + (a + b)) % 4294967296
    omega
  · rw [ht1]; exact hoos
  · rw [ht1]; exact hooe
  · rw [ht1, hs1]
    simp [data_bytes, upcalls, sckt_found, hrx]

/-- A concrete instance: A = 100 bytes at 9001 and B = 200 bytes at 9101, with
a buffer of 1000 bytes. -/
theorem C5_reordering_witness :
    ∃ sAB sBA,
      (nwk_downstream ex_cfg (nwk_downstream ex_cfg (ex_nwk ex_sckt)
          (ex_frame ACK 9001 5000 100)).1 (ex_frame ACK 9101 5000 200)).1.sockets[0]? = some sAB
      ∧ (nwk_downstream ex_cfg (nwk_downstream ex_cfg (ex_nwk ex_sckt)
          (ex_frame ACK 9101 5000 200)).1 (ex_frame ACK 9001 5000 100)).1.sockets[0]? = some sBA
      ∧ sAB.remSeq = sBA.remSeq ∧ sAB.rx_data = sBA.rx_data
      ∧ sAB.rx_oo_start = sBA.rx_oo_start ∧ sAB.rx_oo_end = sBA.rx_oo_end
      ∧ data_bytes ((nwk_downstream ex_cfg (ex_nwk ex_sckt) (ex_frame ACK 9001 5000 100)).2
            ++ (nwk_downstream ex_cfg (nwk_downstream ex_cfg (ex_nwk ex_sckt)
                (ex_frame ACK 9001 5000 100)).1 (ex_frame ACK 9101 5000 200)).2)
          = data_bytes ((nwk_downstream ex_cfg (ex_nwk ex_sckt) (ex_frame ACK 9101 5000 200)).2
            ++ (nwk_downstream ex_cfg (nwk_downstream ex_cfg (ex_nwk ex_sckt)
                (ex_frame ACK 9101 5000 200)).1 (ex_frame ACK 9001 5000 100)).2) :=
  C5_reordering ex_cfg (ex_nwk ex_sckt) (ex_frame ACK 9001 5000 100)
    (ex_frame ACK 9101 5000 200) 0 ex_sckt 100 200 (by decide) (by decide) rfl (by decide)
    (by decide) (by decide) (by decide) (by decide) (by decide) (by decide) (by decide)
    (by decide) (by decide) (by decide) (by decide) (by decide)

/-- C5, counterexample to the claim as stated (a + b <= rx_size): with
rx_size = 1000, A = 500 bytes at remSeq and B = 500 bytes at remSeq + 500,
all hypotheses of the claim hold, yet the two orders end with different
remSeq (10001 after A then B; 9501 after B then A, because B alone ends
exactly at the end of the buffer and is dropped by the last test of the
placement chain) and hand over 1000 and 500 bytes. -/
theorem C5_reordering_counterexample :
    tcp_segment_for (ex_nwk ex_sckt) (ex_frame ACK 9001 5000 500) 0 ex_sckt
      ∧ same_flow (ex_frame ACK 9001 5000 500) (ex_frame ACK 9501 5000 500)
      ∧ ex_sckt.state = SOCKET_STATE._CONNECT ∧ rx_empty ex_sckt
      ∧ 500 + 500 ≤ ex_sckt.rx_size
      ∧ no_syn_fin_rst (ex_frame ACK 9001 5000 500).header
      ∧ ack_check_passes ex_sckt (ex_frame ACK 9001 5000 500).header
      ∧ byte_order_swap_d (ex_frame ACK 9001 5000 500).header.n_seq = ex_sckt.remSeq
      ∧ NTOHS (ex_frame ACK 9001 5000 500).header.length = 40 + 500
      ∧ no_syn_fin_rst (ex_frame ACK 9501 5000 500).header
      ∧ ack_check_passes ex_sckt (ex_frame ACK 9501 5000 500).header
      ∧ byte_order_swap_d (ex_frame ACK 9501 5000 500).header.n_seq
          = (ex_sckt.remSeq + 500) % 4294967296
      ∧ NTOHS (ex_frame ACK 9501 5000 500).header.length = 40 + 500
      ∧ (nwk_downstream ex_cfg (nwk_downstream ex_cfg (ex_nwk ex_sckt)
            (ex_frame ACK 9001 5000 500)).1 (ex_frame ACK 9501 5000 500)).1.sockets.map
              SOCKET.remSeq = [10001]
      ∧ (nwk_downstream ex_cfg (nwk_downstream ex_cfg (ex_nwk ex_sckt)
            (ex_frame ACK 9501 5000 500)).1 (ex_frame ACK 9001 5000 500)).1.sockets.map
              SOCKET.remSeq = [9501]
      ∧ data_bytes ((nwk_downstream ex_cfg (ex_nwk ex_sckt) (ex_frame ACK 9001 5000 500)).2
            ++ (nwk_downstream ex_cfg (nwk_downstream ex_cfg (ex_nwk ex_sckt)
                (ex_frame ACK 9001 5000 500)).1 (ex_frame ACK 9501 5000 500)).2) = 1000
      ∧ data_bytes ((nwk_downstream ex_cfg (ex_nwk ex_sckt) (ex_frame ACK 9501 5000 500)).2
            ++ (nwk_downstream ex_cfg (nwk_downstream ex_cfg (ex_nwk ex_sckt)
                (ex_frame ACK 9501 5000 500)).1 (ex_frame ACK 9001 5000 500)).2) = 500 := by
  decide

/-- C6. Duplicate segment: a socket in CONNECT with an empty receive buffer
accepts an in-order segment of n bytes, 0 < n <= rx_size. When the same
segment is processed a second time, nwk_downstream leaves the globals, hence
rx_data, rx_oo_start, rx_oo_end, remSeq and state of the socket, exactly as
they were after the first pass, and makes no callback (no further DATA). -/
theorem C6_duplicate_segment (cfg : CONFIG) (g : NWK) (f : RX_FRAME) (i : Nat) (s : SOCKET)
    (n : Nat)
    (hm : tcp_segment_for g f i s)
    (hstate : s.state = SOCKET_STATE._CONNECT)
    (hempty : rx_empty s) (hsz : s.rx_size < 65536)
    (hflags : no_syn_fin_rst f.header)
    (hack : ack_check_passes s f.header)
    (hseq : byte_order_swap_d f.header.n_seq = s.remSeq)
    (hlen : NTOHS f.header.length = 40 + n)
    (hn0 : 0 < n) (hn : n ≤ s.rx_size) :
    nwk_downstream cfg (nwk_downstream cfg g f).1 f = ((nwk_downstream cfg g f).1, []) := by
  have hn16 : n < 65536 := by have := NTOHS_lt f.header.length; omega
  have hrem : s.remSeq < 4294967296 := by rw [← hseq]; exact byte_order_swap_d_lt _
  obtain ⟨hrx, hoos, _⟩ := hempty
  obtain ⟨hsyn, hfin, hrst⟩ := hflags
  have step1 := tcp_process_connect_in_order cfg (sckt_found s f.header) f.header n _
    (ack_flag_cases f.header) hstate hrx hoos hsyn hfin hrst hseq hn0 hn hn16
  obtain ⟨s1, hs1⟩ : ∃ s1 : SOCKET, s1 = { (sckt_found s f.header) with
      remSeq := (s.remSeq + n) % 4294967296, rx_data := 0, toSend := ACK,
      retry := cfg.RETRIES_TCP } := ⟨_, rfl⟩
  obtain ⟨l1, hl1⟩ : ∃ l1, l1 = (tcp_process cfg (sckt_found s f.header) f.header n
      (ack_flag f.header)).2 := ⟨_, rfl⟩
  have eq1 : nwk_downstream cfg g f = ({ g with sockets := g.sockets.set i s1 }, upcalls i l1) := by
    rw [nwk_downstream_process cfg hm hlen (Or.inl hack), hl1, step1, hs1]
    rfl
  have hm2 : tcp_segment_for { g with sockets := g.sockets.set i s1 } f i s1 := by
    apply tcp_segment_for_next hm f (same_flow_refl f) s1 <;> rw [hs1] <;> rfl
  have hack2 : ack_check_passes s1 f.header := by rw [hs1]; exact hack
  have hout : rel_seq (sckt_found s1 f.header) f.header > (sckt_found s1 f.header).rx_size
      ∨ (rel_seq (sckt_found s1 f.header) f.header + n) % 4294967296
          > (sckt_found s1 f.header).rx_size := by
    left
    rw [hs1]
    show rel_seq _ _ > s.rx_size
    unfold rel_seq
    show (byte_order_swap_d f.header.n_seq + 4294967296
      - (s.remSeq + n) % 4294967296 % 4294967296) % 4294967296 > s.rx_size
    rw [hseq]
    omega
  have step2 := tcp_process_out_of_window cfg (sckt_found s1 f.header) f.header n
    (ack_flag f.header) hsyn hn0 (by rw [hs1]; exact hn) hout
  have hsame : nwk_schedule_oo_ack (sckt_found s1 f.header) = s1 := by rw [hs1]; rfl
  have eq2 := nwk_downstream_process cfg hm2 hlen (Or.inl hack2)
  rw [step2, hsame] at eq2
  simp only [eq1, eq2, List.set_set]
  rfl

/-- A concrete instance: the segment of 100 bytes at 9001 processed twice. -/
theorem C6_duplicate_segment_witness :
    nwk_downstream ex_cfg
        (nwk_downstream ex_cfg (ex_nwk ex_sckt) (ex_frame ACK 9001 5000 100)).1
        (ex_frame ACK 9001 5000 100)
      = ((nwk_downstream ex_cfg (ex_nwk ex_sckt) (ex_frame ACK 9001 5000 100)).1, []) :=
  C6_duplicate_segment ex_cfg (ex_nwk ex_sckt) (ex_frame ACK 9001 5000 100) 0 ex_sckt 100
    (by decide) rfl (by decide) (by decide) (by decide) (by decide) (by decide) (by decide)
    (by decide) (by decide)

/-- C7 (as amended). RST handling: a socket, in a state >= CONNECT (the state
on entry plays no part in the proof, so it is not among the hypotheses), with
any content of the receive buffer, receives a matched segment with RST set
that passes the ACK test and that the sequence number step keeps: SYN is set,
or the payload clipped to rx_size is empty, or it lies in the window and one
of the placement tests takes it. The socket is left in IDLE. The last
callback made is DISCONNECT when the segment has no payload, and
DISCONNECT_WITH_DATA when it has one (and rx_size > 0 or SYN is set, so that
the clipped payload is not empty). At most one callback comes before it, a
DATA callback of the reassembly step, and none when the segment has no payload
and rx_data = 0: then exactly DISCONNECT is delivered. -/
theorem C7_rst_handling (cfg : CONFIG) (g : NWK) (f : RX_FRAME) (i : Nat) (s : SOCKET) (n : Nat)
    (hm : tcp_segment_for g f i s)
    (hsz : s.rx_size < 65536)
    (hrst : f.header.flags &&& RST ≠ 0)
    (hack : ack_check_passes s f.header)
    (hlen : NTOHS f.header.length = 40 + n)
    (hacc : segment_placed s f.header n) :
    ∃ s' pre ev d, (nwk_downstream cfg g f).1.sockets[i]? = some s'
      ∧ s'.state = SOCKET_STATE._IDLE
      ∧ (nwk_downstream cfg g f).2 = pre ++ [{ idx := i, ev := ev, sckt := d }]
      ∧ (n = 0 → ev = WEEIP_EVENT.WEEIP_EV_DISCONNECT)
      ∧ (0 < n → f.header.flags &&& SYN ≠ 0 ∨ 0 < s.rx_size →
          ev = WEEIP_EVENT.WEEIP_EV_DISCONNECT_WITH_DATA)
      ∧ (∀ c ∈ pre, c.ev = WEEIP_EVENT.WEEIP_EV_DATA) ∧ pre.length ≤ 1
      ∧ (n = 0 → s.rx_data = 0 → pre = []) := by
  have hlt := tcp_segment_for_lt hm
  have hdrop : (tcp_seq_step (sckt_found s f.header) f.header n (ack_flag f.header)).drop
      = false := (seq_step_accepts_iff s f.header n hsz).mpr hacc
  have hds := tcp_seq_step_data_size (sckt_found s f.header) f.header n (ack_flag f.header) hsz
  have hsz' : (sckt_found s f.header).rx_size = s.rx_size := rfl
  rw [hsz'] at hds
  obtain ⟨hst, d, hlog⟩ :=
    tcp_process_rst cfg (sckt_found s f.header) f.header n (ack_flag f.header) hrst hdrop
  rw [nwk_downstream_process cfg hm hlen (Or.inl hack)]
  dsimp only
  rw [hlog, upcalls_append_single]
  refine ⟨_, _, _, d, List.getElem?_set_self hlt, hst, rfl, ?_, ?_,
    upcalls_all_data i _ (tcp_seq_step_calls _ _ _ _), ?_, ?_⟩
  · intro hn
    have h0 : (tcp_seq_step (sckt_found s f.header) f.header n (ack_flag f.header)).data_size
        = 0 := by
      rw [hds, hn]
      split_ifs
      · rfl
      · exact Nat.zero_min _
    rw [if_pos h0]
  · intro hn hbuf
    have h0 : ¬ ((tcp_seq_step (sckt_found s f.header) f.header n (ack_flag f.header)).data_size
        = 0) := by
      rw [hds]
      by_cases hsyn : f.header.flags &&& SYN ≠ 0
      · rw [if_pos hsyn]
        omega
      · rw [if_neg hsyn]
        rcases hbuf with hb | hb
        · exact absurd hb hsyn
        · omega
    rw [if_neg h0]
  · simp only [upcalls, List.length_map]
    exact tcp_seq_step_calls_le _ _ _ _
  · intro hn hrx
    subst hn
    rw [tcp_seq_step_no_calls (sckt_found s f.header) f.header (ack_flag f.header) hrx]
    rfl

/-- A concrete instance: a RST segment without payload at remSeq = 9001 for a
socket in CONNECT that holds the out-of-order extent [300, 400). -/
theorem C7_rst_handling_witness :
    ∃ s' pre ev d,
      (nwk_downstream ex_cfg (ex_nwk ex_extent) (ex_frame (RST ||| ACK) 9001 5000 0)).1.sockets[0]?
        = some s'
      ∧ s'.state = SOCKET_STATE._IDLE
      ∧ (nwk_downstream ex_cfg (ex_nwk ex_extent) (ex_frame (RST ||| ACK) 9001 5000 0)).2
          = pre ++ [{ idx := 0, ev := ev, sckt := d }]
      ∧ (0 = 0 → ev = WEEIP_EVENT.WEEIP_EV_DISCONNECT)
      ∧ (0 < 0 → (ex_frame (RST ||| ACK) 9001 5000 0).header.flags &&& SYN ≠ 0
            ∨ 0 < ex_extent.rx_size →
          ev = WEEIP_EVENT.WEEIP_EV_DISCONNECT_WITH_DATA)
      ∧ (∀ c ∈ pre, c.ev = WEEIP_EVENT.WEEIP_EV_DATA) ∧ pre.length ≤ 1
      ∧ (0 = 0 → ex_extent.rx_data = 0 → pre = []) :=
  C7_rst_handling ex_cfg (ex_nwk ex_extent) (ex_frame (RST ||| ACK) 9001 5000 0) 0 ex_extent 0
    (by decide) (by decide) (by decide) (by decide) (by decide) (by decide)

/-- C7, counterexample to the claim as stated. (a) A socket in CONNECT
receives a matched RST segment that passes the ACK test and carries 16 bytes at
sequence number remSeq + 2000, outside the receive window of 1000 bytes. The
segment is dropped before the RST test: the state is still CONNECT, ACK is
queued and no callback is made. (b) A socket in CONNECT with rx_size = 0
receives a matched RST segment with 16 bytes at remSeq: the payload is clipped
to 0 bytes, the socket goes to IDLE and the callback is DISCONNECT, not
DISCONNECT_WITH_DATA. (c) A socket in CONNECT that holds 50 undelivered
in-order bytes (rx_data = 50) receives a matched RST segment without payload
at remSeq: the socket goes to IDLE, but DATA is delivered before DISCONNECT,
so DISCONNECT is not the only event. -/
theorem C7_rst_handling_counterexample :
    tcp_segment_for (ex_nwk ex_sckt) (ex_frame (RST ||| ACK) 11001 5000 16) 0 ex_sckt
      ∧ SOCKET_STATE._CONNECT.toNat ≤ ex_sckt.state.toNat
      ∧ (ex_frame (RST ||| ACK) 11001 5000 16).header.flags &&& RST ≠ 0
      ∧ ack_check_passes ex_sckt (ex_frame (RST ||| ACK) 11001 5000 16).header
      ∧ NTOHS (ex_frame (RST ||| ACK) 11001 5000 16).header.length = 40 + 16
      ∧ (nwk_downstream ex_cfg (ex_nwk ex_sckt)
            (ex_frame (RST ||| ACK) 11001 5000 16)).1.sockets.map SOCKET.state
          = [SOCKET_STATE._CONNECT]
      ∧ (nwk_downstream ex_cfg (ex_nwk ex_sckt)
            (ex_frame (RST ||| ACK) 11001 5000 16)).1.sockets.map SOCKET.toSend = [ACK]
      ∧ (nwk_downstream ex_cfg (ex_nwk ex_sckt) (ex_frame (RST ||| ACK) 11001 5000 16)).2 = []
      ∧ tcp_segment_for (ex_nwk ex_no_buffer) (ex_frame (RST ||| ACK) 9001 5000 16) 0 ex_no_buffer
      ∧ SOCKET_STATE._CONNECT.toNat ≤ ex_no_buffer.state.toNat ∧ ex_no_buffer.rx_size = 0
      ∧ ack_check_passes ex_no_buffer (ex_frame (RST ||| ACK) 9001 5000 16).header
      ∧ NTOHS (ex_frame (RST ||| ACK) 9001 5000 16).header.length = 40 + 16
      ∧ (nwk_downstream ex_cfg (ex_nwk ex_no_buffer)
            (ex_frame (RST ||| ACK) 9001 5000 16)).1.sockets.map SOCKET.state
          = [SOCKET_STATE._IDLE]
      ∧ (nwk_downstream ex_cfg (ex_nwk ex_no_buffer)
            (ex_frame (RST ||| ACK) 9001 5000 16)).2.map (fun c => (c.idx, c.ev))
          = [(0, WEEIP_EVENT.WEEIP_EV_DISCONNECT)]
      ∧ tcp_segment_for (ex_nwk ex_undelivered) (ex_frame (RST ||| ACK) 9001 5000 0) 0
          ex_undelivered
      ∧ SOCKET_STATE._CONNECT.toNat ≤ ex_undelivered.state.toNat ∧ ex_undelivered.rx_data = 50
      ∧ ack_check_passes ex_undelivered (ex_frame (RST ||| ACK) 9001 5000 0).header
      ∧ NTOHS (ex_frame (RST ||| ACK) 9001 5000 0).header.length = 40 + 0
      ∧ (nwk_downstream ex_cfg (ex_nwk ex_undelivered)
            (ex_frame (RST ||| ACK) 9001 5000 0)).1.sockets.map SOCKET.state
          = [SOCKET_STATE._IDLE]
      ∧ (nwk_downstream ex_cfg (ex_nwk ex_undelivered)
            (ex_frame (RST ||| ACK) 9001 5000 0)).2.map (fun c => (c.idx, c.ev, c.sckt.rx_data))
          = [(0, WEEIP_EVENT.WEEIP_EV_DATA, 50), (0, WEEIP_EVENT.WEEIP_EV_DISCONNECT, 0)] := by
  decide

/-- C8 (as amended). Remote close: a socket in CONNECT or ACK_WAIT with an
empty receive buffer receives a matched segment with FIN set (SYN and RST
clear) that passes the ACK test, with sequence number q and a payload of n
bytes that the reassembly step accepts (no payload, or in order and fitting
the buffer, or ahead and ending strictly before the end of the buffer). The
socket is left in FIN_REC with toSend = ACK|FIN and remSeq = q + n + 1 modulo
2^32, and the last callback made is DISCONNECT (any callback before it is a
DATA callback of the reassembly step). -/
theorem C8_remote_close (cfg : CONFIG) (g : NWK) (f : RX_FRAME) (i : Nat) (s : SOCKET)
    (q n : Nat)
    (hm : tcp_segment_for g f i s)
    (hstate : s.state = SOCKET_STATE._CONNECT ∨ s.state = SOCKET_STATE._ACK_WAIT)
    (hempty : rx_empty s) (hsz : s.rx_size < 65536)
    (hfin : f.header.flags &&& FIN ≠ 0) (hsyn : f.header.flags &&& SYN = 0)
    (hrst : f.header.flags &&& RST = 0)
    (hack : ack_check_passes s f.header)
    (hq : byte_order_swap_d f.header.n_seq = q)
    (hlen : NTOHS f.header.length = 40 + n)
    (hacc : payload_accepted s f.header n) :
    ∃ s' pre d, (nwk_downstream cfg g f).1.sockets[i]? = some s'
      ∧ s'.state = SOCKET_STATE._FIN_REC ∧ s'.toSend = ACK ||| FIN
      ∧ s'.remSeq = (q + n + 1) % 4294967296
      ∧ (nwk_downstream cfg g f).2
          = pre ++ [{ idx := i, ev := WEEIP_EVENT.WEEIP_EV_DISCONNECT, sckt := d }]
      ∧ ∀ c ∈ pre, c.ev = WEEIP_EVENT.WEEIP_EV_DATA := by
  have hlt := tcp_segment_for_lt hm
  have hn16 : n < 65536 := by have := NTOHS_lt f.header.length; omega
  obtain ⟨hdrop, hds, hst, hfl, hcalls⟩ :=
    tcp_seq_step_accepted (sckt_found s f.header) f.header n (ack_flag f.header) hempty hsz hn16
      (Or.inr hacc)
  have hst' : (tcp_seq_step (sckt_found s f.header) f.header n (ack_flag f.header)).sckt.state
        = SOCKET_STATE._CONNECT
      ∨ (tcp_seq_step (sckt_found s f.header) f.header n (ack_flag f.header)).sckt.state
        = SOCKET_STATE._ACK_WAIT := by
    rw [hst]; exact hstate
  obtain ⟨h1, h2, h3, d, hlog⟩ :=
    tcp_process_fin cfg (sckt_found s f.header) f.header n (ack_flag f.header)
      (ack_flag_cases f.header) hrst hfin hdrop (hfl hsyn) hst'
  rw [hds, hq] at h3
  rw [nwk_downstream_process cfg hm hlen (Or.inl hack)]
  dsimp only
  rw [hlog, upcalls_append_single]
  refine ⟨_, _, d, List.getElem?_set_self hlt, h1, h2, ?_, rfl, upcalls_all_data i _ hcalls⟩
  rw [h3]
  omega

/-- A concrete instance: a FIN segment with 100 bytes at remSeq = 9001 for a
socket in CONNECT. -/
theorem C8_remote_close_witness :
    ∃ s' pre d,
      (nwk_downstream ex_cfg (ex_nwk ex_sckt) (ex_frame (FIN ||| ACK) 9001 5000 100)).1.sockets[0]?
        = some s'
      ∧ s'.state = SOCKET_STATE._FIN_REC ∧ s'.toSend = ACK ||| FIN
      ∧ s'.remSeq = (9001 + 100 + 1) % 4294967296
      ∧ (nwk_downstream ex_cfg (ex_nwk ex_sckt) (ex_frame (FIN ||| ACK) 9001 5000 100)).2
          = pre ++ [{ idx := 0, ev := WEEIP_EVENT.WEEIP_EV_DISCONNECT, sckt := d }]
      ∧ ∀ c ∈ pre, c.ev = WEEIP_EVENT.WEEIP_EV_DATA :=
  C8_remote_close ex_cfg (ex_nwk ex_sckt) (ex_frame (FIN ||| ACK) 9001 5000 100) 0 ex_sckt
    9001 100 (by decide) (by decide) (by decide) (by decide) (by decide) (by decide) (by decide)
    (by decide) (by decide) (by decide) (by decide)

/-- C8, counterexample to the claim as stated: a socket in CONNECT with an empty
receive buffer of 1000 bytes receives a matched FIN segment (SYN and RST
clear, ACK test passed) with 500 bytes at sequence number remSeq + 500. The
segment is in the window (rel = 500 < rx_size and rel + 500 <= rx_size), yet
the last test of the placement chain drops it: the state is still CONNECT,
remSeq is unchanged and no callback is made. -/
theorem C8_remote_close_counterexample :
    tcp_segment_for (ex_nwk ex_sckt) (ex_frame (FIN ||| ACK) 9501 5000 500) 0 ex_sckt
      ∧ ex_sckt.state = SOCKET_STATE._CONNECT ∧ rx_empty ex_sckt
      ∧ (ex_frame (FIN ||| ACK) 9501 5000 500).header.flags &&& FIN ≠ 0
      ∧ (ex_frame (FIN ||| ACK) 9501 5000 500).header.flags &&& SYN = 0
      ∧ (ex_frame (FIN ||| ACK) 9501 5000 500).header.flags &&& RST = 0
      ∧ ack_check_passes ex_sckt (ex_frame (FIN ||| ACK) 9501 5000 500).header
      ∧ NTOHS (ex_frame (FIN ||| ACK) 9501 5000 500).header.length = 40 + 500
      ∧ rel_seq ex_sckt (ex_frame (FIN ||| ACK) 9501 5000 500).header = 500
      ∧ 500 < ex_sckt.rx_size ∧ 500 + 500 ≤ ex_sckt.rx_size
      ∧ (nwk_downstream ex_cfg (ex_nwk ex_sckt)
            (ex_frame (FIN ||| ACK) 9501 5000 500)).1.sockets.map SOCKET.state
          = [SOCKET_STATE._CONNECT]
      ∧ (nwk_downstream ex_cfg (ex_nwk ex_sckt)
            (ex_frame (FIN ||| ACK) 9501 5000 500)).1.sockets.map SOCKET.remSeq = [9001]
      ∧ (nwk_downstream ex_cfg (ex_nwk ex_sckt) (ex_frame (FIN ||| ACK) 9501 5000 500)).2 = [] := by
  decide

/-- C9. Retransmit scheduling: for a TCP socket with time = 1 and retry = r > 0,
one nwk_tick sets retry = r - 1 and time = TIMEOUT_TCP + 32 * (RETRIES_TCP -
(r - 1)) (as stored in the field time, that is modulo TIME_MOD; it is the
plain value when r - 1 <= RETRIES_TCP and the value fits the field); in the
states SYN_SENT/ACK_REC, SYN_REC, ACK_WAIT, FIN_SENT/FIN_ACK_REC, FIN_REC it
sets toSend to SYN, SYN|ACK, ACK|PSH, ACK, FIN|ACK respectively and timeout to
true; state, seq and remSeq are unchanged. -/
theorem C9_retransmit_scheduling (cfg : CONFIG) (sockets : List SOCKET) (i : Nat) (s : SOCKET)
    (r : Nat)
    (hget : sockets[i]? = some s) (htype : s.type = SOCKET_TYPE.SOCKET_TCP)
    (htime : s.time = 1) (hretry : s.retry = r) (hr : 0 < r) (hmod : 0 < cfg.TIME_MOD) :
    ∃ s', (nwk_tick cfg sockets).1[i]? = some s'
      ∧ s'.retry = r - 1
      ∧ (s'.time : Int)
          = ((cfg.TIMEOUT_TCP : Int) + 32 * ((cfg.RETRIES_TCP : Int) - ((r : Int) - 1)))
              % (cfg.TIME_MOD : Int)
      ∧ (r - 1 ≤ cfg.RETRIES_TCP →
          cfg.TIMEOUT_TCP + 32 * (cfg.RETRIES_TCP - (r - 1)) < cfg.TIME_MOD →
          s'.time = cfg.TIMEOUT_TCP + 32 * (cfg.RETRIES_TCP - (r - 1)))
      ∧ (s.state = SOCKET_STATE._SYN_SENT ∨ s.state = SOCKET_STATE._ACK_REC →
          s'.toSend = SYN ∧ s'.timeout = true)
      ∧ (s.state = SOCKET_STATE._SYN_REC → s'.toSend = SYN ||| ACK ∧ s'.timeout = true)
      ∧ (s.state = SOCKET_STATE._ACK_WAIT → s'.toSend = ACK ||| PSH ∧ s'.timeout = true)
      ∧ (s.state = SOCKET_STATE._FIN_SENT ∨ s.state = SOCKET_STATE._FIN_ACK_REC →
          s'.toSend = ACK ∧ s'.timeout = true)
      ∧ (s.state = SOCKET_STATE._FIN_REC → s'.toSend = FIN ||| ACK ∧ s'.timeout = true)
      ∧ s'.state = s.state ∧ s'.seq = s.seq ∧ s'.remSeq = s.remSeq := by
  have hr' : s.retry ≠ 0 := by omega
  obtain ⟨h1, h2, h3, h4, h5, h6, h7, h8, h9, h10⟩ := nwk_tick_sckt_retry cfg s htype htime hr'
  rw [hretry] at h1 h2
  refine ⟨_, nwk_tick_loop_get cfg sockets 0 i s hget, h1, ?_, ?_, h6, h7, h8, h9, h10, h3, h4, h5⟩
  · rw [h2, SOCKET_TIMEOUT_cast cfg (r - 1) hmod]
    have hcast : ((r - 1 : Nat) : Int) = (r : Int) - 1 := by omega
    rw [hcast]
  · intro hle hfit
    rw [h2]
    exact SOCKET_TIMEOUT_fits cfg (r - 1) hle hfit

/-- A concrete instance: a socket in SYN_SENT with time = 1 and retry = 5. -/
theorem C9_retransmit_scheduling_witness :
    ∃ s', (nwk_tick ex_cfg [ex_syn_sent]).1[0]? = some s'
      ∧ s'.retry = 5 - 1
      ∧ (s'.time : Int)
          = ((ex_cfg.TIMEOUT_TCP : Int) + 32 * ((ex_cfg.RETRIES_TCP : Int) - ((5 : Nat) - 1)))
              % (ex_cfg.TIME_MOD : Int)
      ∧ (5 - 1 ≤ ex_cfg.RETRIES_TCP →
          ex_cfg.TIMEOUT_TCP + 32 * (ex_cfg.RETRIES_TCP - (5 - 1)) < ex_cfg.TIME_MOD →
          s'.time = ex_cfg.TIMEOUT_TCP + 32 * (ex_cfg.RETRIES_TCP - (5 - 1)))
      ∧ (ex_syn_sent.state = SOCKET_STATE._SYN_SENT ∨ ex_syn_sent.state = SOCKET_STATE._ACK_REC →
          s'.toSend = SYN ∧ s'.timeout = true)
      ∧ (ex_syn_sent.state = SOCKET_STATE._SYN_REC → s'.toSend = SYN ||| ACK ∧ s'.timeout = true)
      ∧ (ex_syn_sent.state = SOCKET_STATE._ACK_WAIT → s'.toSend = ACK ||| PSH ∧ s'.timeout = true)
      ∧ (ex_syn_sent.state = SOCKET_STATE._FIN_SENT
            ∨ ex_syn_sent.state = SOCKET_STATE._FIN_ACK_REC →
          s'.toSend = ACK ∧ s'.timeout = true)
      ∧ (ex_syn_sent.state = SOCKET_STATE._FIN_REC → s'.toSend = FIN ||| ACK ∧ s'.timeout = true)
      ∧ s'.state = ex_syn_sent.state ∧ s'.seq = ex_syn_sent.seq
      ∧ s'.remSeq = ex_syn_sent.remSeq :=
  C9_retransmit_scheduling ex_cfg [ex_syn_sent] 0 ex_syn_sent 5 (by decide) (by decide)
    (by decide) (by decide) (by decide) (by decide)

/-- C10, evaluation at the failing input. A TCP socket in SYN_SENT whose timer
expires (time = 1) with retry = 0: the socket is in IDLE after each tick, but
the timer stays at 0 and the exhaustion branch runs again on every later
tick, so one tick makes 1 DISCONNECT callback, two ticks make 2 and three
ticks make 3 (the claim says 1 in all). -/
theorem C10_disconnect_on_every_tick :
    ex_exhausted.type = SOCKET_TYPE.SOCKET_TCP ∧ ex_exhausted.time = 1 ∧ ex_exhausted.retry = 0
      ∧ (nwk_tick_iter ex_cfg 1 [ex_exhausted]).1.map (fun c => (c.state, c.time, c.retry))
          = [(SOCKET_STATE._IDLE, 0, 0)]
      ∧ (nwk_tick_iter ex_cfg 2 [ex_exhausted]).1.map (fun c => (c.state, c.time, c.retry))
          = [(SOCKET_STATE._IDLE, 0, 0)]
      ∧ (nwk_tick_iter ex_cfg 3 [ex_exhausted]).1.map (fun c => (c.state, c.time, c.retry))
          = [(SOCKET_STATE._IDLE, 0, 0)]
      ∧ count_ev WEEIP_EVENT.WEEIP_EV_DISCONNECT (nwk_tick_iter ex_cfg 1 [ex_exhausted]).2 = 1
      ∧ count_ev WEEIP_EVENT.WEEIP_EV_DISCONNECT (nwk_tick_iter ex_cfg 2 [ex_exhausted]).2 = 2
      ∧ count_ev WEEIP_EVENT.WEEIP_EV_DISCONNECT (nwk_tick_iter ex_cfg 3 [ex_exhausted]).2 = 3 := by
  decide

/-- C11, evaluation at the failing input. A TCP socket in CONNECT with
time = 0, toSend = 0 and retry = 5: nwk_tick takes the timer as expired, so
retry becomes 4 and time becomes 42 (the claim says that nothing changes).
The same socket with retry = 0 is moved to IDLE and gets a DISCONNECT
callback (the claim says that no event is delivered). -/
theorem C11_timer_zero_fires :
    ex_timer_off.type = SOCKET_TYPE.SOCKET_TCP ∧ ex_timer_off.time = 0
      ∧ ex_timer_off.retry = 5 ∧ ex_timer_off.state = SOCKET_STATE._CONNECT
      ∧ (nwk_tick ex_cfg [ex_timer_off]).1.map (fun c => (c.state, c.time, c.retry))
          = [(SOCKET_STATE._CONNECT, 42, 4)]
      ∧ (nwk_tick ex_cfg [ex_timer_off]).2 = []
      ∧ (nwk_tick ex_cfg [{ ex_timer_off with retry := 0 }]).1.map
            (fun c => (c.state, c.time, c.retry)) = [(SOCKET_STATE._IDLE, 0, 0)]
      ∧ (nwk_tick ex_cfg [{ ex_timer_off with retry := 0 }]).2.map (fun c => (c.idx, c.ev))
          = [(0, WEEIP_EVENT.WEEIP_EV_DISCONNECT)] := by
  decide

/-- C12, evaluation at the failing input. A TCP socket in SYN_SENT with
toSend = SYN, timeout = false, seq = 5000 and remSeq = remSeqStart = 0:
nwk_upstream emits the SYN with sequence number 5000 in the header, as
claimed, but leaves seq at 5000 (the claim says 5001), because the update of
seq runs only when remSeq differs from remSeqStart. -/
theorem C12_fresh_emit_seq_not_advanced :
    ex_fresh_syn.type = SOCKET_TYPE.SOCKET_TCP ∧ ex_fresh_syn.toSend = SYN
      ∧ ex_fresh_syn.timeout = false ∧ ex_fresh_syn.seq = 5000
      ∧ (nwk_upstream ex_cfg true (fun _ => true) (ex_nwk ex_fresh_syn)).sent.map
          (fun p => (p.idx, byte_order_swap_d p.header.n_seq, p.header.flags, p.data_size))
          = [(0, 5000, SYN, 0)]
      ∧ (nwk_upstream ex_cfg true (fun _ => true) (ex_nwk ex_fresh_syn)).nwk.sockets.map
          SOCKET.seq = [5000] := by
  decide

/-- C13, evaluation at the failing input. A TCP socket in SYN_REC with
toSend = SYN|ACK, timeout = false, seq = 5000, remSeq = 1001 and
remSeqStart = 1000: the fresh emit carries sequence number 5000 and advances
seq to 5001; ten ticks later the timer expires and queues SYN|ACK again with
timeout = true; the retransmission leaves seq at 5001, as claimed, but its
header carries 5001 (the claim says 5000, the number of the original). -/
theorem C13_retransmit_seq_shifted :
    ex_syn_rec.type = SOCKET_TYPE.SOCKET_TCP ∧ ex_syn_rec.timeout = false
      ∧ ex_syn_rec.toSend = SYN ||| ACK ∧ ex_syn_rec.seq = 5000
      ∧ (nwk_upstream ex_cfg true (fun _ => true) (ex_nwk ex_syn_rec)).sent.map
          (fun p => (byte_order_swap_d p.header.n_seq, p.header.flags, p.data_size))
          = [(5000, SYN ||| ACK, 0)]
      ∧ ex_syn_rec_emitted.sockets.map (fun c => (c.toSend, c.timeout, c.seq, c.time))
          = [(0, false, 5001, 10)]
      ∧ ex_syn_rec_expired.sockets.map (fun c => (c.state, c.toSend, c.timeout, c.seq))
          = [(SOCKET_STATE._SYN_REC, SYN ||| ACK, true, 5001)]
      ∧ (nwk_upstream ex_cfg true (fun _ => true) ex_syn_rec_expired).sent.map
          (fun p => (byte_order_swap_d p.header.n_seq, p.header.flags, p.data_size))
          = [(5001, SYN ||| ACK, 0)]
      ∧ (nwk_upstream ex_cfg true (fun _ => true) ex_syn_rec_expired).nwk.sockets.map
          SOCKET.seq = [5001] := by
  decide

/-- C14. Emit outcome: a socket with toSend nonzero that nwk_upstream processes
while the link is clear to send. If eth_ip_send succeeds for it, afterwards
toSend = 0, timeout = false and time = TIMEOUT_TCP + 32 * (RETRIES_TCP - retry)
(as stored in the field time, that is modulo TIME_MOD; it is the plain value
when retry <= RETRIES_TCP and the value fits the field), with retry and state
unchanged. If eth_ip_send fails, toSend, timeout, time, retry and state are all
unchanged. -/
theorem C14_emit_outcome (cfg : CONFIG) (eth_ip_send : Nat → Bool) (g : NWK) (i : Nat)
    (s : SOCKET) (hget : g.sockets[i]? = some s) (hsend : s.toSend ≠ 0)
    (hmod : 0 < cfg.TIME_MOD) :
    ∃ s', (nwk_upstream cfg true eth_ip_send g).nwk.sockets[i]? = some s'
      ∧ s'.retry = s.retry ∧ s'.state = s.state
      ∧ (eth_ip_send i = true →
          s'.toSend = 0 ∧ s'.timeout = false
          ∧ (s'.time : Int)
              = ((cfg.TIMEOUT_TCP : Int) + 32 * ((cfg.RETRIES_TCP : Int) - (s.retry : Int)))
                  % (cfg.TIME_MOD : Int)
          ∧ (s.retry ≤ cfg.RETRIES_TCP →
              cfg.TIMEOUT_TCP + 32 * (cfg.RETRIES_TCP - s.retry) < cfg.TIME_MOD →
              s'.time = cfg.TIMEOUT_TCP + 32 * (cfg.RETRIES_TCP - s.retry)))
      ∧ (eth_ip_send i = false →
          s'.toSend = s.toSend ∧ s'.timeout = s.timeout ∧ s'.time = s.time) := by
  obtain ⟨id1, dh1, h1, _⟩ := nwk_upstream_get cfg eth_ip_send g i s hget
  obtain ⟨hst, hre, _⟩ := nwk_upstream_sckt_state cfg g.ip_local id1 dh1 (eth_ip_send i) i s
  refine ⟨_, h1, hre, hst, ?_, ?_⟩
  · intro hok
    rw [hok]
    obtain ⟨h2, h3, h4, _⟩ := nwk_upstream_sckt_ok cfg g.ip_local id1 dh1 i s hsend
    refine ⟨h2, h3, ?_, ?_⟩
    · rw [h4, SOCKET_TIMEOUT_cast cfg s.retry hmod]
    · intro hle hfit
      rw [h4]
      exact SOCKET_TIMEOUT_fits cfg s.retry hle hfit
  · intro hfail
    rw [hfail]
    exact nwk_upstream_sckt_fail cfg g.ip_local id1 dh1 i s

/-- A concrete instance: a socket in CONNECT with toSend = ACK, retry = 3 and
time = 7, with a link driver that accepts the segment. -/
theorem C14_emit_outcome_witness :
    ∃ s', (nwk_upstream ex_cfg true (fun _ => true) (ex_nwk ex_ack_pending)).nwk.sockets[0]?
        = some s'
      ∧ s'.retry = ex_ack_pending.retry ∧ s'.state = ex_ack_pending.state
      ∧ ((fun _ => true) 0 = true →
          s'.toSend = 0 ∧ s'.timeout = false
          ∧ (s'.time : Int)
              = ((ex_cfg.TIMEOUT_TCP : Int)
                  + 32 * ((ex_cfg.RETRIES_TCP : Int) - (ex_ack_pending.retry : Int)))
                  % (ex_cfg.TIME_MOD : Int)
          ∧ (ex_ack_pending.retry ≤ ex_cfg.RETRIES_TCP →
              ex_cfg.TIMEOUT_TCP + 32 * (ex_cfg.RETRIES_TCP - ex_ack_pending.retry)
                < ex_cfg.TIME_MOD →
              s'.time = ex_cfg.TIMEOUT_TCP + 32 * (ex_cfg.RETRIES_TCP - ex_ack_pending.retry)))
      ∧ ((fun _ => true) 0 = false →
          s'.toSend = ex_ack_pending.toSend ∧ s'.timeout = ex_ack_pending.timeout
            ∧ s'.time = ex_ack_pending.time) :=
  C14_emit_outcome ex_cfg (fun _ => true) (ex_nwk ex_ack_pending) 0 ex_ack_pending
    (by decide) (by decide) (by decide)

/-- C15. Advertised window: a socket with toSend nonzero, rx_data <= rx_size
and rx_oo_end <= rx_size (rx_size a 16-bit value), processed by nwk_upstream
while the link is clear to send and the link driver accepts its segment. A
header is emitted for the socket, and in every header emitted for it the
window field (bytes 34 and 35, high byte first) is
rx_size - max(rx_data, rx_oo_end). -/
theorem C15_advertised_window (cfg : CONFIG) (eth_ip_send : Nat → Bool) (g : NWK) (i : Nat)
    (s : SOCKET) (hget : g.sockets[i]? = some s) (hsend : s.toSend ≠ 0)
    (hok : eth_ip_send i = true)
    (hrx : s.rx_data ≤ s.rx_size) (hoo : s.rx_oo_end ≤ s.rx_size) (hsz : s.rx_size < 65536) :
    (∃ p ∈ (nwk_upstream cfg true eth_ip_send g).sent, p.idx = i)
      ∧ ∀ p ∈ (nwk_upstream cfg true eth_ip_send g).sent, p.idx = i →
          p.header.window_hi < 256 ∧ p.header.window_lo < 256
            ∧ 256 * p.header.window_hi + p.header.window_lo
                = s.rx_size - max s.rx_data s.rx_oo_end := by
  constructor
  · obtain ⟨id1, dh1, _, h2⟩ := nwk_upstream_get cfg eth_ip_send g i s hget
    rw [hok] at h2
    obtain ⟨_, _, _, p, hp, hidx, _⟩ := nwk_upstream_sckt_ok cfg g.ip_local id1 dh1 i s hsend
    exact ⟨p, h2 p (by rw [hp]; exact List.mem_singleton_self p), hidx⟩
  · intro p hp hidx
    obtain ⟨sj, id1, dh1, h1, h2⟩ := nwk_upstream_sent cfg eth_ip_send g p hp
    rw [hidx, hget] at h1
    cases h1
    rw [hidx, hok] at h2
    obtain ⟨_, _, _, q, hq, _, hhi, hlo⟩ := nwk_upstream_sckt_ok cfg g.ip_local id1 dh1 i s hsend
    rw [hq, List.mem_singleton] at h2
    subst h2
    rw [hhi, hlo]
    refine ⟨?_, ?_, compute_window_size_value s dh1 hrx hoo hsz⟩
    · exact Nat.mod_lt _ (by decide)
    · exact Nat.mod_lt _ (by decide)

/-- A concrete instance: rx_size = 1000 with a stashed extent [500, 700), so
that the window advertised is 300. -/
theorem C15_advertised_window_witness :
    (∃ p ∈ (nwk_upstream ex_cfg true (fun _ => true) (ex_nwk ex_stashed_pending)).sent, p.idx = 0)
      ∧ ∀ p ∈ (nwk_upstream ex_cfg true (fun _ => true) (ex_nwk ex_stashed_pending)).sent,
          p.idx = 0 →
          p.header.window_hi < 256 ∧ p.header.window_lo < 256
            ∧ 256 * p.header.window_hi + p.header.window_lo
                = ex_stashed_pending.rx_size
                    - max ex_stashed_pending.rx_data ex_stashed_pending.rx_oo_end :=
  C15_advertised_window ex_cfg (fun _ => true) (ex_nwk ex_stashed_pending) 0 ex_stashed_pending
    (by decide) (by decide) rfl (by decide) (by decide) (by decide)

/-- C16, evaluation at the failing input. One TCP socket in CONNECT with
rx_size = 1000 and empty buffers (remSeq = 9001). A first segment of 490 bytes
at sequence number 9501 is stashed as the extent [500, 990): both bounds hold.
A second segment of 100 bytes at sequence number 9401 ends where the extent
starts; nwk_downstream adds its offset 400 to rx_oo_end, which becomes
1390 > rx_size, while rx_oo_start stays 500; the DATA callback that follows
sees these values. -/
theorem C16_bound_broken_by_prepend :
    (ex_nwk ex_sckt).sockets.map (fun c => (c.rx_size, c.rx_data, c.rx_oo_start, c.rx_oo_end))
        = [(1000, 0, 0, 0)]
      ∧ ex_stashed.sockets.map (fun c => (c.rx_size, c.rx_data, c.rx_oo_start, c.rx_oo_end))
        = [(1000, 0, 500, 990)]
      ∧ (nwk_downstream ex_cfg ex_stashed (ex_frame ACK 9401 5000 100)).1.sockets.map
          (fun c => (c.rx_size, c.rx_data, c.rx_oo_start, c.rx_oo_end, c.remSeq))
        = [(1000, 0, 500, 1390, 9001)]
      ∧ (nwk_downstream ex_cfg ex_stashed (ex_frame ACK 9401 5000 100)).2.map
          (fun c => (c.ev, c.sckt.rx_data, c.sckt.rx_oo_start, c.sckt.rx_oo_end))
        = [(WEEIP_EVENT.WEEIP_EV_DATA, 0, 500, 1390)] := by
  decide

/-- C17, evaluation at two failing inputs. (a) One TCP socket in CONNECT with
empty buffers (remSeq = 9001) and a segment without payload at sequence number
9101: nwk_downstream stashes it as the extent [100, 100), so rx_oo_start is
nonzero and not below rx_oo_end. (b) The same socket holding the extent
[500, 990) and a segment of 600 bytes at sequence number 9001: at the DATA
callback rx_data = 600 exceeds rx_oo_start = 500 without the regions having
been merged, and afterwards rx_oo_start = 65436 and rx_oo_end = 390. -/
theorem C17_extent_ill_formed :
    (ex_nwk ex_sckt).sockets.map (fun c => (c.rx_data, c.rx_oo_start, c.rx_oo_end)) = [(0, 0, 0)]
      ∧ (nwk_downstream ex_cfg (ex_nwk ex_sckt) (ex_frame ACK 9101 5000 0)).1.sockets.map
          (fun c => (c.rx_data, c.rx_oo_start, c.rx_oo_end)) = [(0, 100, 100)]
      ∧ ex_stashed.sockets.map (fun c => (c.rx_data, c.rx_oo_start, c.rx_oo_end))
          = [(0, 500, 990)]
      ∧ (nwk_downstream ex_cfg ex_stashed (ex_frame ACK 9001 5000 600)).2.map
          (fun c => (c.ev, c.sckt.rx_data, c.sckt.rx_oo_start, c.sckt.rx_oo_end))
          = [(WEEIP_EVENT.WEEIP_EV_DATA, 600, 500, 990), (WEEIP_EVENT.WEEIP_EV_DATA, 0, 65436, 390)]
      ∧ (nwk_downstream ex_cfg ex_stashed (ex_frame ACK 9001 5000 600)).1.sockets.map
          (fun c => (c.rx_data, c.rx_oo_start, c.rx_oo_end)) = [(0, 65436, 390)] := by
  decide

/-- C18 (as amended). Out-of-window segments are dropped with an ACK: a TCP
socket with 0 < rx_size < 65536 receives a matched segment without SYN that is
not dropped by the ACK test, with a payload of n > 0 bytes, such that, with
rel = (segment sequence - remSeq) mod 2^32 and the payload length clipped to
rx_size, rel >= rx_size or rel + min(n, rx_size) > rx_size. Then
nwk_downstream leaves state, seq, remSeq, rx_data, rx_oo_start and rx_oo_end
unchanged, sets toSend = ACK and makes no callback. -/
theorem C18_out_of_window_dropped (cfg : CONFIG) (g : NWK) (f : RX_FRAME) (i : Nat)
    (s : SOCKET) (n : Nat)
    (hm : tcp_segment_for g f i s)
    (hsyn : f.header.flags &&& SYN = 0)
    (hpass : ack_check_passes s f.header ∨ s.state.toNat < SOCKET_STATE._CONNECT.toNat)
    (hlen : NTOHS f.header.length = 40 + n)
    (hn0 : 0 < n) (hsz0 : 0 < s.rx_size) (hsz : s.rx_size < 65536)
    (hout : rel_seq s f.header ≥ s.rx_size
      ∨ rel_seq s f.header + min n s.rx_size > s.rx_size) :
    ∃ s', (nwk_downstream cfg g f).1.sockets[i]? = some s'
      ∧ s'.state = s.state ∧ s'.seq = s.seq ∧ s'.remSeq = s.remSeq
      ∧ s'.rx_data = s.rx_data ∧ s'.rx_oo_start = s.rx_oo_start ∧ s'.rx_oo_end = s.rx_oo_end
      ∧ s'.toSend = ACK
      ∧ (nwk_downstream cfg g f).2 = [] := by
  have hrel := rel_seq_lt s f.header
  have hout' : rel_seq (sckt_found s f.header) f.header > (sckt_found s f.header).rx_size
      ∨ (rel_seq (sckt_found s f.header) f.header + min n (sckt_found s f.header).rx_size)
          % 4294967296 > (sckt_found s f.header).rx_size := by
    show rel_seq s f.header > s.rx_size
      ∨ (rel_seq s f.header + min n s.rx_size) % 4294967296 > s.rx_size
    by_cases hgt : rel_seq s f.header > s.rx_size
    · exact Or.inl hgt
    · right
      have hmin : 0 < min n s.rx_size := by omega
      have hmin2 : min n s.rx_size ≤ s.rx_size := Nat.min_le_right _ _
      rw [Nat.mod_eq_of_lt (by omega)]
      omega
  have step := tcp_process_out_of_window_clip cfg (sckt_found s f.header) f.header n
    (ack_flag f.header) hsyn hn0 hsz0 hout'
  have eq1 := nwk_downstream_process cfg hm hlen hpass
  rw [step] at eq1
  rw [eq1]
  refine ⟨nwk_schedule_oo_ack (sckt_found s f.header), ?_, rfl, rfl, rfl, rfl, rfl, rfl, rfl, rfl⟩
  simp [tcp_segment_for_lt hm]

/-- A concrete instance: rx_size = 1000 and 100 bytes at relative offset 950. -/
theorem C18_out_of_window_dropped_witness :
    ∃ s', (nwk_downstream ex_cfg (ex_nwk ex_sckt) (ex_frame ACK 9951 5000 100)).1.sockets[0]?
        = some s'
      ∧ s'.state = ex_sckt.state ∧ s'.seq = ex_sckt.seq ∧ s'.remSeq = ex_sckt.remSeq
      ∧ s'.rx_data = ex_sckt.rx_data ∧ s'.rx_oo_start = ex_sckt.rx_oo_start
      ∧ s'.rx_oo_end = ex_sckt.rx_oo_end
      ∧ s'.toSend = ACK
      ∧ (nwk_downstream ex_cfg (ex_nwk ex_sckt) (ex_frame ACK 9951 5000 100)).2 = [] :=
  C18_out_of_window_dropped ex_cfg (ex_nwk ex_sckt) (ex_frame ACK 9951 5000 100) 0 ex_sckt 100
    (by decide) (by decide) (by decide) (by decide) (by decide) (by decide) (by decide)
    (by decide)

/-- C18, counterexample to the claim as first stated. A socket in CONNECT
with rx_size = 1000, remSeq = 9001 and empty buffers receives a matched
segment without SYN, with the expected ACK number, sequence number 9001
(rel = 0) and a payload of 1200 bytes, so that rel + data_size > rx_size.
The segment is not dropped: the payload is clipped to 1000 bytes before the
window test, remSeq advances to 10001 and DATA callbacks are made. -/
theorem C18_out_of_window_dropped_counterexample :
    tcp_segment_for (ex_nwk ex_sckt) (ex_frame ACK 9001 5000 1200) 0 ex_sckt
      ∧ (ex_frame ACK 9001 5000 1200).header.flags &&& SYN = 0
      ∧ ack_check_passes ex_sckt (ex_frame ACK 9001 5000 1200).header
      ∧ NTOHS (ex_frame ACK 9001 5000 1200).header.length = 40 + 1200
      ∧ rel_seq ex_sckt (ex_frame ACK 9001 5000 1200).header = 0
      ∧ rel_seq ex_sckt (ex_frame ACK 9001 5000 1200).header + 1200 > ex_sckt.rx_size
      ∧ ex_sckt.remSeq = 9001
      ∧ (nwk_downstream ex_cfg (ex_nwk ex_sckt) (ex_frame ACK 9001 5000 1200)).1.sockets.map
          SOCKET.remSeq = [10001]
      ∧ (nwk_downstream ex_cfg (ex_nwk ex_sckt) (ex_frame ACK 9001 5000 1200)).2.map
          (fun c => (c.ev, c.sckt.rx_data))
          = [(WEEIP_EVENT.WEEIP_EV_DATA, 1000), (WEEIP_EVENT.WEEIP_EV_DATA, 0)] := by
  decide

/-- C19. Unexpected ACK number is dropped: a TCP socket in a state >= CONNECT
receives a matched segment with ACK set whose acknowledgement number differs
from seq (as a 32-bit number). nwk_downstream leaves state, seq, remSeq,
remSeqStart, rx_data, rx_oo_start, rx_oo_end, toSend, retry and time unchanged
and makes no callback, whatever the other flags, the sequence number and the
payload of the segment. (The socket afterwards is the one that the label
found leaves: only remIP, remPort and listening are rewritten.) -/
theorem C19_unexpected_ack_dropped (cfg : CONFIG) (g : NWK) (f : RX_FRAME) (i : Nat)
    (s : SOCKET)
    (hm : tcp_segment_for g f i s)
    (hstate : SOCKET_STATE._CONNECT.toNat ≤ s.state.toNat)
    (hack : f.header.flags &&& ACK ≠ 0)
    (hdiff : byte_order_swap_d f.header.n_ack ≠ s.seq % 4294967296) :
    ∃ s', (nwk_downstream cfg g f).1.sockets[i]? = some s'
      ∧ s' = sckt_found s f.header
      ∧ s'.state = s.state ∧ s'.seq = s.seq ∧ s'.remSeq = s.remSeq
      ∧ s'.remSeqStart = s.remSeqStart ∧ s'.rx_data = s.rx_data
      ∧ s'.rx_oo_start = s.rx_oo_start ∧ s'.rx_oo_end = s.rx_oo_end
      ∧ s'.toSend = s.toSend ∧ s'.retry = s.retry ∧ s'.time = s.time
      ∧ (nwk_downstream cfg g f).2 = [] := by
  have hp := parse_tcp_ack_drop cfg (sckt_found s f.header) f.header (NTOHS f.header.length)
    hack hdiff hstate
  rw [nwk_downstream_eq cfg hm, hp]
  refine ⟨sckt_found s f.header, ?_, rfl, rfl, rfl, rfl, rfl, rfl, rfl, rfl, rfl, rfl, rfl, rfl⟩
  simp [tcp_segment_for_lt hm]

/-- A concrete instance: a segment with RST, FIN and ACK set, 100 bytes of
payload and acknowledgement number 4999 for a socket whose seq is 5000. -/
theorem C19_unexpected_ack_dropped_witness :
    ∃ s', (nwk_downstream ex_cfg (ex_nwk ex_sckt)
          (ex_frame (RST ||| FIN ||| ACK) 9001 4999 100)).1.sockets[0]? = some s'
      ∧ s' = sckt_found ex_sckt (ex_frame (RST ||| FIN ||| ACK) 9001 4999 100).header
      ∧ s'.state = ex_sckt.state ∧ s'.seq = ex_sckt.seq ∧ s'.remSeq = ex_sckt.remSeq
      ∧ s'.remSeqStart = ex_sckt.remSeqStart ∧ s'.rx_data = ex_sckt.rx_data
      ∧ s'.rx_oo_start = ex_sckt.rx_oo_start ∧ s'.rx_oo_end = ex_sckt.rx_oo_end
      ∧ s'.toSend = ex_sckt.toSend ∧ s'.retry = ex_sckt.retry ∧ s'.time = ex_sckt.time
      ∧ (nwk_downstream ex_cfg (ex_nwk ex_sckt)
          (ex_frame (RST ||| FIN ||| ACK) 9001 4999 100)).2 = [] :=
  C19_unexpected_ack_dropped ex_cfg (ex_nwk ex_sckt)
    (ex_frame (RST ||| FIN ||| ACK) 9001 4999 100) 0 ex_sckt
    (by decide) (by decide) (by decide) (by decide)

/-- C20. IDLE is terminal: a socket of the table whose state is IDLE is
still in IDLE after nwk_tick, after nwk_upstream (whatever the link driver
answers) and after nwk_downstream with any frame. -/
theorem C20_idle_terminal (cfg : CONFIG) (g : NWK) (i : Nat) (s : SOCKET)
    (hget : g.sockets[i]? = some s) (hstate : s.state = SOCKET_STATE._IDLE) :
    (∃ s', (nwk_tick cfg g.sockets).1[i]? = some s' ∧ s'.state = SOCKET_STATE._IDLE)
      ∧ (∀ (eth_clear_to_send : Bool) (eth_ip_send : Nat → Bool),
          ∃ s', (nwk_upstream cfg eth_clear_to_send eth_ip_send g).nwk.sockets[i]? = some s'
            ∧ s'.state = SOCKET_STATE._IDLE)
      ∧ (∀ f : RX_FRAME,
          ∃ s', (nwk_downstream cfg g f).1.sockets[i]? = some s'
            ∧ s'.state = SOCKET_STATE._IDLE) := by
  refine ⟨?_, ?_, ?_⟩
  · exact ⟨_, nwk_tick_loop_get cfg g.sockets 0 i s hget, nwk_tick_sckt_idle cfg s hstate⟩
  · intro clear eth
    cases clear with
    | false => exact ⟨s, by simpa [nwk_upstream] using hget, hstate⟩
    | true =>
      obtain ⟨id1, dh1, h1, _⟩ := nwk_upstream_get cfg eth g i s hget
      refine ⟨_, h1, ?_⟩
      rw [(nwk_upstream_sckt_state cfg g.ip_local id1 dh1 (eth i) i s).1]
      exact hstate
  · intro f
    exact nwk_downstream_idle cfg g f i s hget hstate

/-- A concrete instance: a socket in IDLE with toSend = ACK and time = 1. -/
theorem C20_idle_terminal_witness :
    (∃ s', (nwk_tick ex_cfg (ex_nwk ex_idle).sockets).1[0]? = some s'
        ∧ s'.state = SOCKET_STATE._IDLE)
      ∧ (∀ (eth_clear_to_send : Bool) (eth_ip_send : Nat → Bool),
          ∃ s', (nwk_upstream ex_cfg eth_clear_to_send eth_ip_send (ex_nwk ex_idle)).nwk.sockets[0]?
              = some s'
            ∧ s'.state = SOCKET_STATE._IDLE)
      ∧ (∀ f : RX_FRAME,
          ∃ s', (nwk_downstream ex_cfg (ex_nwk ex_idle) f).1.sockets[0]? = some s'
            ∧ s'.state = SOCKET_STATE._IDLE) :=
  C20_idle_terminal ex_cfg (ex_nwk ex_idle) 0 ex_idle (by decide) (by decide)

/-- C21, evaluation at the failing input. A TCP socket in CONNECT with
rx_size = 1000, rx_data = 0 and the extent [300, 400) (remSeq = 9001)
receives a matched segment of 100 bytes at sequence number 9201, that is at
relative offset 200 with 200 + 100 = rx_oo_start. After nwk_downstream
rx_oo_start is still 300 and rx_oo_end is 400 + 200 = 600: the extent is
[300, 600) (the claim says [200, 400)); rx_data and remSeq are unchanged. -/
theorem C21_head_extension_moves_end :
    ex_extent.rx_data = 0 ∧ ex_extent.rx_oo_start = 300 ∧ ex_extent.rx_oo_end = 400
      ∧ ex_extent.rx_size = 1000 ∧ ex_extent.remSeq = 9001
      ∧ tcp_segment_for (ex_nwk ex_extent) (ex_frame ACK 9201 5000 100) 0 ex_extent
      ∧ (ex_frame ACK 9201 5000 100).header.flags &&& SYN = 0
      ∧ rel_seq ex_extent (ex_frame ACK 9201 5000 100).header = 200
      ∧ NTOHS (ex_frame ACK 9201 5000 100).header.length = 40 + 100
      ∧ (nwk_downstream ex_cfg (ex_nwk ex_extent) (ex_frame ACK 9201 5000 100)).1.sockets.map
          (fun c => (c.rx_data, c.rx_oo_start, c.rx_oo_end, c.remSeq))
        = [(0, 300, 600, 9001)] := by
  decide

/-- C22, evaluation at the failing input. A TCP socket in FIN_SENT with
seq = 5000, remSeq = 9001 and empty buffers receives a matched segment with
FIN and ACK set (no SYN, no RST), no payload, sequence number 9001 and ack
number 5000. The socket is left in FIN_REC (the claim says IDLE); toSend is
ACK and DISCONNECT is delivered, as claimed. -/
theorem C22_fin_sent_ends_in_fin_rec :
    ex_fin_sent.type = SOCKET_TYPE.SOCKET_TCP ∧ ex_fin_sent.state = SOCKET_STATE._FIN_SENT
      ∧ ex_fin_sent.seq = 5000
      ∧ tcp_segment_for (ex_nwk ex_fin_sent) (ex_frame (FIN ||| ACK) 9001 5000 0) 0 ex_fin_sent
      ∧ (ex_frame (FIN ||| ACK) 9001 5000 0).header.flags = FIN ||| ACK
      ∧ byte_order_swap_d (ex_frame (FIN ||| ACK) 9001 5000 0).header.n_ack = 5000
      ∧ rel_seq ex_fin_sent (ex_frame (FIN ||| ACK) 9001 5000 0).header = 0
      ∧ (nwk_downstream ex_cfg (ex_nwk ex_fin_sent)
            (ex_frame (FIN ||| ACK) 9001 5000 0)).1.sockets.map (fun c => (c.state, c.toSend))
          = [(SOCKET_STATE._FIN_REC, ACK)]
      ∧ (nwk_downstream ex_cfg (ex_nwk ex_fin_sent)
            (ex_frame (FIN ||| ACK) 9001 5000 0)).2.map (fun c => (c.idx, c.ev))
          = [(0, WEEIP_EVENT.WEEIP_EV_DISCONNECT)] := by
  decide

/-- C23 (as amended). Pure ACK in ACK_WAIT: a TCP socket in state ACK_WAIT with
no undelivered in-order data (rx_data = 0) receives a matched segment with ACK
set (SYN, FIN and RST clear), no payload, sequence number remSeq and an
acknowledgement number that passes the ACK test. nwk_downstream moves the
socket to CONNECT, sets toSend = ACK and retry = RETRIES_TCP, changes no other
field apart from what the label found rewrites, and makes no callback. -/
theorem C23_pure_ack_in_ack_wait (cfg : CONFIG) (g : NWK) (f : RX_FRAME) (i : Nat)
    (s : SOCKET)
    (hm : tcp_segment_for g f i s)
    (hstate : s.state = SOCKET_STATE._ACK_WAIT)
    (hrx : s.rx_data = 0)
    (hflags : no_syn_fin_rst f.header) (hackf : f.header.flags &&& ACK ≠ 0)
    (hack : ack_check_passes s f.header)
    (hseq : byte_order_swap_d f.header.n_seq = s.remSeq)
    (hlen : NTOHS f.header.length = 40 + 0) :
    ∃ s', (nwk_downstream cfg g f).1.sockets[i]? = some s'
      ∧ s' = { (sckt_found s f.header) with
                state := SOCKET_STATE._CONNECT, toSend := ACK, retry := cfg.RETRIES_TCP }
      ∧ s'.state = SOCKET_STATE._CONNECT ∧ s'.toSend = ACK
      ∧ s'.seq = s.seq ∧ s'.remSeq = s.remSeq
      ∧ (nwk_downstream cfg g f).2 = [] := by
  have hp := tcp_process_ack_wait_pure_ack cfg (sckt_found s f.header) f.header hflags hackf
    hstate hrx hseq
  rw [nwk_downstream_process cfg hm hlen (Or.inl hack), hp]
  exact ⟨_, List.getElem?_set_self (tcp_segment_for_lt hm), rfl, rfl, rfl, rfl, rfl, rfl⟩

/-- A concrete instance: a bare ACK at remSeq = 9001 for a socket in ACK_WAIT
with toSend = 0. -/
theorem C23_pure_ack_in_ack_wait_witness :
    ∃ s', (nwk_downstream ex_cfg (ex_nwk ex_ack_wait) (ex_frame ACK 9001 5000 0)).1.sockets[0]?
        = some s'
      ∧ s' = { (sckt_found ex_ack_wait (ex_frame ACK 9001 5000 0).header) with
                state := SOCKET_STATE._CONNECT, toSend := ACK, retry := ex_cfg.RETRIES_TCP }
      ∧ s'.state = SOCKET_STATE._CONNECT ∧ s'.toSend = ACK
      ∧ s'.seq = ex_ack_wait.seq ∧ s'.remSeq = ex_ack_wait.remSeq
      ∧ (nwk_downstream ex_cfg (ex_nwk ex_ack_wait) (ex_frame ACK 9001 5000 0)).2 = [] :=
  C23_pure_ack_in_ack_wait ex_cfg (ex_nwk ex_ack_wait) (ex_frame ACK 9001 5000 0) 0 ex_ack_wait
    (by decide) (by decide) (by decide) (by decide) (by decide) (by decide) (by decide)
    (by decide)

/-- C23, counterexample to the claim as first stated. A TCP socket in
ACK_WAIT with toSend = 0, seq = 5000, remSeq = 9001 and empty buffers receives
a matched segment with only ACK set, no payload, sequence number 9001 and ack
number 5000. The socket moves to CONNECT and no callback is made, but toSend
is ACK afterwards, not 0. -/
theorem C23_pure_ack_in_ack_wait_counterexample :
    ex_ack_wait.state = SOCKET_STATE._ACK_WAIT ∧ ex_ack_wait.toSend = 0
      ∧ ex_ack_wait.seq = 5000 ∧ ex_ack_wait.remSeq = 9001
      ∧ tcp_segment_for (ex_nwk ex_ack_wait) (ex_frame ACK 9001 5000 0) 0 ex_ack_wait
      ∧ (ex_frame ACK 9001 5000 0).header.flags = ACK
      ∧ NTOHS (ex_frame ACK 9001 5000 0).header.length = 40
      ∧ byte_order_swap_d (ex_frame ACK 9001 5000 0).header.n_seq = 9001
      ∧ byte_order_swap_d (ex_frame ACK 9001 5000 0).header.n_ack = 5000
      ∧ (nwk_downstream ex_cfg (ex_nwk ex_ack_wait) (ex_frame ACK 9001 5000 0)).1.sockets.map
          (fun c => (c.state, c.toSend)) = [(SOCKET_STATE._CONNECT, ACK)]
      ∧ ACK ≠ 0
      ∧ (nwk_downstream ex_cfg (ex_nwk ex_ack_wait) (ex_frame ACK 9001 5000 0)).2 = [] := by
  decide

/-- C24, evaluation at two failing inputs. A TCP socket in CONNECT with empty
buffers (remSeq = 9001). (a) A matched segment of 100 bytes at sequence
number 9001: the callback is invoked with DATA twice, first with
rx_data = 100 by the reassembly step and then with rx_data = 0 by the code
after done. (b) A matched segment of 100 bytes at sequence number 9301, which
is stashed as the extent [300, 400): the callback is invoked with DATA once,
with rx_data = 0. -/
theorem C24_data_callback_without_data :
    ex_sckt.state = SOCKET_STATE._CONNECT ∧ rx_empty ex_sckt ∧ ex_sckt.remSeq = 9001
      ∧ tcp_segment_for (ex_nwk ex_sckt) (ex_frame ACK 9001 5000 100) 0 ex_sckt
      ∧ (nwk_downstream ex_cfg (ex_nwk ex_sckt) (ex_frame ACK 9001 5000 100)).2.map
          (fun c => (c.idx, c.ev, c.sckt.rx_data))
        = [(0, WEEIP_EVENT.WEEIP_EV_DATA, 100), (0, WEEIP_EVENT.WEEIP_EV_DATA, 0)]
      ∧ tcp_segment_for (ex_nwk ex_sckt) (ex_frame ACK 9301 5000 100) 0 ex_sckt
      ∧ (nwk_downstream ex_cfg (ex_nwk ex_sckt) (ex_frame ACK 9301 5000 100)).2.map
          (fun c => (c.idx, c.ev, c.sckt.rx_data, c.sckt.rx_oo_start, c.sckt.rx_oo_end))
        = [(0, WEEIP_EVENT.WEEIP_EV_DATA, 0, 300, 400)] := by
  decide

/-- C25 (as amended). Delivery keeps the out-of-order extent at the same
absolute stream position: a TCP socket in a state other than FIN_REC, with
rx_data = 0 and an extent [s, e), 0 < s < e <= rx_size < 65536, receives a
matched in-order segment (sequence number remSeq, no SYN/FIN/RST) that is not
dropped by the ACK test, with n payload bytes, 0 < n < s. After
nwk_downstream the extent is [s - n, e - n), rx_data is 0 and remSeq has
advanced by n modulo 2^32, so remSeq + rx_oo_start and remSeq + rx_oo_end
(modulo 2^32) are unchanged and 0 < rx_oo_start < rx_oo_end <= rx_size. -/
theorem C25_delivery_shifts_extent (cfg : CONFIG) (g : NWK) (f : RX_FRAME) (i : Nat)
    (s : SOCKET) (n : Nat)
    (hm : tcp_segment_for g f i s)
    (hstate : s.state ≠ SOCKET_STATE._FIN_REC)
    (hflags : no_syn_fin_rst f.header)
    (hpass : ack_check_passes s f.header ∨ s.state.toNat < SOCKET_STATE._CONNECT.toNat)
    (hseq : byte_order_swap_d f.header.n_seq = s.remSeq)
    (hlen : NTOHS f.header.length = 40 + n)
    (hrx : s.rx_data = 0)
    (hn0 : 0 < n) (hns : n < s.rx_oo_start)
    (hse : s.rx_oo_start < s.rx_oo_end) (hes : s.rx_oo_end ≤ s.rx_size)
    (hsz : s.rx_size < 65536) :
    ∃ s', (nwk_downstream cfg g f).1.sockets[i]? = some s'
      ∧ s'.rx_data = 0
      ∧ s'.rx_oo_start = s.rx_oo_start - n ∧ s'.rx_oo_end = s.rx_oo_end - n
      ∧ s'.remSeq = (s.remSeq + n) % 4294967296
      ∧ (s'.remSeq + s'.rx_oo_start) % 4294967296 = (s.remSeq + s.rx_oo_start) % 4294967296
      ∧ (s'.remSeq + s'.rx_oo_end) % 4294967296 = (s.remSeq + s.rx_oo_end) % 4294967296
      ∧ 0 < s'.rx_oo_start ∧ s'.rx_oo_start < s'.rx_oo_end ∧ s'.rx_oo_end ≤ s'.rx_size := by
  obtain ⟨hsyn, hfin, _⟩ := hflags
  have hstep := tcp_seq_step_in_order_extent (sckt_found s f.header) f.header n
    (ack_flag f.header) hsyn hrx hseq hn0 hns hse hes hsz
  obtain ⟨k1, k2, k3, k4, k5, _⟩ := tcp_process_kept cfg (sckt_found s f.header) f.header n
    (ack_flag f.header) (by rw [hstep]) (by rw [hstep])
  have k5 := k5 hfin hstate
  rw [hstep] at k2 k3 k4 k5
  rw [nwk_downstream_process cfg hm hlen hpass]
  refine ⟨_, List.getElem?_set_self (tcp_segment_for_lt hm), k1, k2, k3, k5, ?_, ?_, ?_, ?_, ?_⟩
  · rw [k5, k2]
    show ((s.remSeq + n) % 4294967296 + (s.rx_oo_start - n)) % 4294967296
      = (s.remSeq + s.rx_oo_start) % 4294967296
    omega
  · rw [k5, k3]
    show ((s.remSeq + n) % 4294967296 + (s.rx_oo_end - n)) % 4294967296
      = (s.remSeq + s.rx_oo_end) % 4294967296
    omega
  · rw [k2]
    show 0 < s.rx_oo_start - n
    omega
  · rw [k2, k3]
    show s.rx_oo_start - n < s.rx_oo_end - n
    omega
  · rw [k3, k4]
    show s.rx_oo_end - n ≤ s.rx_size
    omega

/-- A concrete instance: the extent [300, 400) and 100 bytes in order. -/
theorem C25_delivery_shifts_extent_witness :
    ∃ s', (nwk_downstream ex_cfg (ex_nwk ex_extent) (ex_frame ACK 9001 5000 100)).1.sockets[0]?
        = some s'
      ∧ s'.rx_data = 0
      ∧ s'.rx_oo_start = ex_extent.rx_oo_start - 100 ∧ s'.rx_oo_end = ex_extent.rx_oo_end - 100
      ∧ s'.remSeq = (ex_extent.remSeq + 100) % 4294967296
      ∧ (s'.remSeq + s'.rx_oo_start) % 4294967296
          = (ex_extent.remSeq + ex_extent.rx_oo_start) % 4294967296
      ∧ (s'.remSeq + s'.rx_oo_end) % 4294967296
          = (ex_extent.remSeq + ex_extent.rx_oo_end) % 4294967296
      ∧ 0 < s'.rx_oo_start ∧ s'.rx_oo_start < s'.rx_oo_end ∧ s'.rx_oo_end ≤ s'.rx_size :=
  C25_delivery_shifts_extent ex_cfg (ex_nwk ex_extent) (ex_frame ACK 9001 5000 100) 0 ex_extent
    100 (by decide) (by decide) (by decide) (by decide) (by decide) (by decide) (by decide)
    (by decide) (by decide) (by decide) (by decide) (by decide)

/-- C25, counterexample to the claim as first stated. A TCP socket in FIN_REC
with rx_size = 1000, rx_data = 0, the extent [300, 400) and remSeq = 9001
receives a matched in-order segment without SYN, FIN or RST and with 100
bytes. The extent is moved to [200, 300), but remSeq becomes 9102: in FIN_REC
the code adopts the sequence number of the segment plus the payload length
plus one. So remSeq + rx_oo_start goes from 9301 to 9302. -/
theorem C25_delivery_shifts_extent_counterexample :
    ex_extent_fin_rec.state = SOCKET_STATE._FIN_REC
      ∧ tcp_segment_for (ex_nwk ex_extent_fin_rec) (ex_frame ACK 9001 5000 100) 0
          ex_extent_fin_rec
      ∧ no_syn_fin_rst (ex_frame ACK 9001 5000 100).header
      ∧ rel_seq ex_extent_fin_rec (ex_frame ACK 9001 5000 100).header = 0
      ∧ NTOHS (ex_frame ACK 9001 5000 100).header.length = 40 + 100
      ∧ ex_extent_fin_rec.rx_data = 0 ∧ ex_extent_fin_rec.rx_oo_start = 300
      ∧ ex_extent_fin_rec.rx_oo_end = 400 ∧ ex_extent_fin_rec.rx_size = 1000
      ∧ ex_extent_fin_rec.remSeq = 9001
      ∧ (nwk_downstream ex_cfg (ex_nwk ex_extent_fin_rec)
            (ex_frame ACK 9001 5000 100)).1.sockets.map
          (fun c => (c.rx_data, c.rx_oo_start, c.rx_oo_end, c.remSeq))
        = [(0, 200, 300, 9102)] := by
  decide


end WeeIP
